import Mathlib

/-!
# dragon-demo: render-state abstraction, scene traversal and periodic waveforms

A shallow embedding of the parts of `Scene.cpp`, `DragonScene.cpp`,
`RenderStateGL1.cpp`, `RenderStateGL2.cpp` and `SceneViewport.cpp` that the
specification talks about, followed by the theorems about them.

Conventions of the embedding

* C `float`/`double` values are idealised as elements of an exact ordered field
  (the waveform functions are generic, so that they run on `ℚ` and are reasoned
  about on `ℝ`); `cos` only exists on `ℝ`.
* `std::vector` used as a stack is a `List` whose head is the vector's `back()`.
* Calling `back()`/`pop_back()` on an empty vector is undefined behaviour in C++;
  the embedding gives such a call no result (`none`).
-/

namespace DragonDemo

/-! ## Periodic waveform library (`Scene.cpp` 441-463, `DragonScene.cpp` 317-339)

Both classes carry textually identical copies of the four functions. -/

section Waveforms

variable {α : Type} [LinearOrderedField α] [FloorRing α]

/-- `Scene::sawtooth` / `DragonScene::sawtooth`: `return t - (float)floor(t);` -/
def sawtooth (t : α) : α :=
  t - (⌊t⌋ : α)

/-- `Scene::spaced_rect` / `DragonScene::spaced_rect`:
`return (sawtooth(t / (w + a)) > w / (w + a)) ? 1.0 : 0.0;` -/
def spaced_rect (t w a : α) : α :=
  if sawtooth (t / (w + a)) > w / (w + a) then 1 else 0

/-- `Scene::spaced_sawtooth` / `DragonScene::spaced_sawtooth`:
`return spaced_rect(x, w, a) * sawtooth((x - w) / (w + a)) * ((w + a) / a);` -/
def spaced_sawtooth (x w a : α) : α :=
  spaced_rect x w a * sawtooth ((x - w) / (w + a)) * ((w + a) / a)

/-- Position of `t` inside its period of length `w + a`:
`p = t - (w+a) * floor(t / (w+a))` (the quantity the specification calls `p`). -/
def periodPos (t w a : α) : α :=
  t - (w + a) * (⌊t / (w + a)⌋ : α)

end Waveforms

/-- `Scene::spaced_cos` / `DragonScene::spaced_cos`:
`return cos(2.0 * M_PI * spaced_sawtooth(x, w, a) + M_PI / 2.0);` -/
noncomputable def spaced_cos (x w a : ℝ) : ℝ :=
  Real.cos (2 * Real.pi * spaced_sawtooth x w a + Real.pi / 2)


/-! ## Data model shared by the two render-state backends -/

/-- `vec4` (declared in `Vertex.h`): four float components. -/
structure vec4 (R : Type) where
  x : R
  y : R
  z : R
  w : R
  deriving DecidableEq, Repr

/-- `vec3` (declared in `Vertex.h`): three float components. -/
structure vec3 (R : Type) where
  x : R
  y : R
  z : R
  deriving DecidableEq, Repr

/-- Modelled from the spec: the class `matrix4` is declared in `Vertex.h`, which is not among
the sources. It is a 4x4 matrix; `setIdentity()` is the unit matrix and `operator*` the matrix
product. -/
abbrev matrix4 (R : Type) := Matrix (Fin 4) (Fin 4) R

/-- The static factory functions of `matrix4` (`Vertex.h`, not among the sources) and the matrices
built by `gluPerspective` and `glOrtho` (OpenGL), taken as parameters. -/
structure Matrix4Lib (R : Type) where
  translate : R → R → R → matrix4 R
  rotate : R → R → R → R → matrix4 R
  scale : R → R → R → matrix4 R
  perspective : R → R → R → R → matrix4 R
  ortho : R → R → R → R → R → R → matrix4 R
  gluPerspective : R → R → R → R → matrix4 R
  glOrtho : R → R → R → R → R → R → matrix4 R

/-- `RenderState::MatrixMode` (`RenderState.h` 44-49). -/
inductive MatrixMode where
  | ModelView
  | Projection
  | Texture
  deriving DecidableEq, Repr

/-- `Material` (declared in `Material.h`): the values returned by its accessors `ambient()`,
`diffuse()`, `specular()`, `shine()` and `texture()` (a `uint32_t` texture name, 0 for none). -/
structure Material (R : Type) where
  ambient : vec4 R
  diffuse : vec4 R
  specular : vec4 R
  shine : R
  texture : Nat
  deriving DecidableEq, Repr

/-! ## Fixed-function backend (`RenderStateGL1.cpp`) -/

/-- OpenGL error codes raised by the matrix stack. -/
inductive GLError where
  | stackOverflow
  | stackUnderflow
  deriving DecidableEq, Repr

/-- The part of the fixed-function OpenGL context that `RenderStateGL1` and `SceneViewport`
read or write. `matrix m` is the top of the stack of mode `m`, `matrixStack m` the entries
below it (head = most recently pushed). -/
structure GLFixedContext (R : Type) where
  matrixMode : MatrixMode
  matrix : MatrixMode → matrix4 R
  matrixStack : MatrixMode → List (matrix4 R)
  maxStackDepth : MatrixMode → Nat
  error : Option GLError
  materialAmbient : vec4 R
  materialDiffuse : vec4 R
  materialSpecular : vec4 R
  materialShininess : R
  texture2D : Bool
  boundTexture2D : Nat
  depthTest : Bool
  normalize : Bool
  lighting : Bool
  light0 : Bool
  smoothShading : Bool
  light0Position : vec4 R
  light0Ambient : vec4 R
  light0Diffuse : vec4 R
  light0Specular : vec4 R
  polygonModeLine : Bool
  viewport : Int × Int × Int × Int
  clearColor : vec4 R
  cleared : Bool

namespace GLFixedContext

variable {R : Type} [Field R]

/-- `glMatrixMode`. -/
def glMatrixMode (mode : MatrixMode) (gl : GLFixedContext R) : GLFixedContext R :=
  { gl with matrixMode := mode }

/-- `glLoadIdentity`: replaces the current matrix by the identity. -/
def glLoadIdentity (gl : GLFixedContext R) : GLFixedContext R :=
  { gl with matrix := Function.update gl.matrix gl.matrixMode 1 }

/-- `glMultMatrixf`: multiplies the current matrix by `m` on the right. -/
def glMultMatrixf (m : matrix4 R) (gl : GLFixedContext R) : GLFixedContext R :=
  { gl with matrix := Function.update gl.matrix gl.matrixMode (gl.matrix gl.matrixMode * m) }

/-- `glPushMatrix`: duplicates the top of the current stack; on a full stack the call only
records `GL_STACK_OVERFLOW` (the error flag keeps the first error). -/
def glPushMatrix (gl : GLFixedContext R) : GLFixedContext R :=
  if (gl.matrixStack gl.matrixMode).length + 1 < gl.maxStackDepth gl.matrixMode then
    { gl with matrixStack := Function.update gl.matrixStack gl.matrixMode
                (gl.matrix gl.matrixMode :: gl.matrixStack gl.matrixMode) }
  else
    { gl with error := gl.error.orElse (fun _ => some GLError.stackOverflow) }

/-- `glPopMatrix`: discards the top of the current stack; on a stack with a single entry the call
only records `GL_STACK_UNDERFLOW`. -/
def glPopMatrix (gl : GLFixedContext R) : GLFixedContext R :=
  match gl.matrixStack gl.matrixMode with
  | [] => { gl with error := gl.error.orElse (fun _ => some GLError.stackUnderflow) }
  | top :: rest =>
    { gl with matrix := Function.update gl.matrix gl.matrixMode top
              matrixStack := Function.update gl.matrixStack gl.matrixMode rest }

end GLFixedContext

/-- State of a `RenderStateGL1` object (members of `RenderState` and `RenderStateGL1` used by
the functions below) together with the OpenGL context it drives. -/
structure RenderStateGL1 (R : Type) where
  m_drawNormals : Bool
  m_projection : Bool
  m_wireframe : Bool
  m_bgColor : vec4 R
  m_ambient0 : vec4 R
  m_diffuse0 : vec4 R
  m_specular0 : vec4 R
  m_light0_pos : vec4 R
  m_materialStack : List (Material R)
  gl : GLFixedContext R

namespace RenderStateGL1

variable {R : Type} [Field R]

/-- `RenderStateGL1::setMatrixMode` (58-72). -/
def setMatrixMode (newMode : MatrixMode) (s : RenderStateGL1 R) : RenderStateGL1 R :=
  match newMode with
  | MatrixMode.ModelView => { s with gl := s.gl.glMatrixMode MatrixMode.ModelView }
  | MatrixMode.Projection => { s with gl := s.gl.glMatrixMode MatrixMode.Projection }
  | MatrixMode.Texture => { s with gl := s.gl.glMatrixMode MatrixMode.Texture }

/-- `RenderStateGL1::loadIdentity` (74-77). -/
def loadIdentity (s : RenderStateGL1 R) : RenderStateGL1 R :=
  { s with gl := s.gl.glLoadIdentity }

/-- `RenderStateGL1::multiplyMatrix` (79-82). -/
def multiplyMatrix (m : matrix4 R) (s : RenderStateGL1 R) : RenderStateGL1 R :=
  { s with gl := s.gl.glMultMatrixf m }

/-- `RenderStateGL1::pushMatrix` (84-87). -/
def pushMatrix (s : RenderStateGL1 R) : RenderStateGL1 R :=
  { s with gl := s.gl.glPushMatrix }

/-- `RenderStateGL1::popMatrix` (89-92). -/
def popMatrix (s : RenderStateGL1 R) : RenderStateGL1 R :=
  { s with gl := s.gl.glPopMatrix }

/-- `RenderStateGL1::currentMatrix` (109-114): reads `GL_MODELVIEW_MATRIX`. -/
def currentMatrix (s : RenderStateGL1 R) : matrix4 R :=
  s.gl.matrix MatrixMode.ModelView

/-- `RenderStateGL1::beginApplyMaterial` (131-142). -/
def beginApplyMaterial (m : Material R) (s : RenderStateGL1 R) : RenderStateGL1 R :=
  let gl1 := { s.gl with materialAmbient := m.ambient
                         materialDiffuse := m.diffuse
                         materialSpecular := m.specular
                         materialShininess := m.shine }
  if m.texture ≠ 0 then
    { s with gl := { gl1 with texture2D := true, boundTexture2D := m.texture } }
  else
    { s with gl := gl1 }

/-- `RenderStateGL1::endApplyMaterial` (144-151). -/
def endApplyMaterial (m : Material R) (s : RenderStateGL1 R) : RenderStateGL1 R :=
  if m.texture ≠ 0 then
    { s with gl := { s.gl with boundTexture2D := 0, texture2D := false } }
  else
    s

/-- `RenderStateGL1::pushMaterial` (116-120). -/
def pushMaterial (m : Material R) (s : RenderStateGL1 R) : RenderStateGL1 R :=
  beginApplyMaterial m { s with m_materialStack := m :: s.m_materialStack }

/-- `RenderStateGL1::popMaterial` (122-129); `back()` on an empty vector has no defined
result. -/
def popMaterial (s : RenderStateGL1 R) : Option (RenderStateGL1 R) :=
  match s.m_materialStack with
  | [] => none
  | m :: rest =>
    let s1 := endApplyMaterial m { s with m_materialStack := rest }
    match s1.m_materialStack with
    | [] => some s1
    | top :: _ => some (beginApplyMaterial top s1)

/-- `RenderStateGL1::setupViewport` (189-202). -/
def setupViewport (L : Matrix4Lib R) (w h : Int) (s : RenderStateGL1 R) : RenderStateGL1 R :=
  let s := { s with gl := { s.gl with viewport := (0, 0, w, h) } }
  let s := setMatrixMode MatrixMode.Projection s
  let s := loadIdentity s
  let r : R := (w : R) / (h : R)
  let s :=
    if s.m_projection then
      multiplyMatrix (L.perspective 45.0 r 0.1 100.0) s
    else if w ≤ h then
      multiplyMatrix (L.ortho (-1.0) 1.0 (-1.0 / r) (1.0 / r) (-10.0) 10.0) s
    else
      multiplyMatrix (L.ortho (-1.0 * r) (1.0 * r) (-1.0) 1.0 (-10.0) 10.0) s
  setMatrixMode MatrixMode.ModelView s

/-- `RenderStateGL1::beginFrame` (153-173), built without `JNI_WRAPPER`. -/
def beginFrame (L : Matrix4Lib R) (w h : Int) (s : RenderStateGL1 R) : RenderStateGL1 R :=
  let s := { s with gl := { s.gl with depthTest := true
                                      normalize := true
                                      smoothShading := true
                                      lighting := true
                                      light0 := true
                                      light0Position := s.m_light0_pos
                                      light0Ambient := s.m_ambient0
                                      light0Diffuse := s.m_diffuse0
                                      light0Specular := s.m_specular0
                                      polygonModeLine := s.m_wireframe } }
  let s := setupViewport L w h s
  let s := setMatrixMode MatrixMode.ModelView s
  let s := pushMatrix s
  let s := loadIdentity s
  { s with gl := { s.gl with clearColor := s.m_bgColor, cleared := true } }

/-- `RenderStateGL1::endFrame` (175-187), built without `JNI_WRAPPER`. -/
def endFrame (s : RenderStateGL1 R) : RenderStateGL1 R :=
  let s := { s with gl := { s.gl with polygonModeLine := false } }
  let s := setMatrixMode MatrixMode.ModelView s
  let s := popMatrix s
  { s with gl := { s.gl with depthTest := false
                             normalize := false
                             lighting := false
                             light0 := false } }

end RenderStateGL1

/-- `SceneViewport::setupGLViewport` (112-131), acting on the OpenGL context;
`projection_mode` is the member `m_projection_mode`. -/
def SceneViewport.setupGLViewport {R : Type} [Field R] (L : Matrix4Lib R)
    (projection_mode : Bool) (w h : Int) (gl : GLFixedContext R) : GLFixedContext R :=
  let gl := { gl with viewport := (0, 0, w, h) }
  let gl := gl.glMatrixMode MatrixMode.Projection
  let gl := gl.glLoadIdentity
  let gl :=
    if projection_mode then
      gl.glMultMatrixf (L.gluPerspective 45.0 ((w : R) / (h : R)) 0.1 100.0)
    else if w ≤ h then
      gl.glMultMatrixf (L.glOrtho (-1.0) 1.0 (-1.0 * (h : R) / (w : R))
        (1.0 * (h : R) / (w : R)) (-10.0) 10.0)
    else
      gl.glMultMatrixf (L.glOrtho (-1.0 * (w : R) / (h : R))
        (1.0 * (w : R) / (h : R)) (-1.0) 1.0 (-10.0) 10.0)
  gl.glMatrixMode MatrixMode.ModelView

/-! ## Shader backend (`RenderStateGL2.cpp`) -/

/-- The kinds of uniform variable that the uploads of `RenderStateGL2` address: `glUniform4fv`
loads a `vec4`, `glUniform1f` a `float`, `glUniform1i` an `int` (or a sampler) and
`glUniformMatrix4fv` a `mat4`. -/
inductive UniformKind where
  | vec4
  | float
  | int
  | mat4
  deriving DecidableEq, Repr

/-- The part of the OpenGL context that `RenderStateGL2` reads or writes. The program objects
are described by `uniformLocation` (what `glGetUniformLocation` answers for a program object
and a name, -1 when the name is no active uniform of it) and `uniformKind` (the kind of the
uniform at a location of a program, `none` when the program has no uniform there); the values
of the uniforms are kept per program and location, one store per kind of upload. Then come the
2D texture binding, the depth-test flag and the stack of `glPushAttrib(GL_ENABLE_BIT)`, the
program in use (0 for none), viewport and clear state. The error flag of the context is not
part of the model: no function of `RenderStateGL2` reads it. -/
structure GLShaderContext (R : Type) where
  uniformLocation : Nat → String → Int
  uniformKind : Nat → Int → Option UniformKind
  vec4Uniform : Nat × Int → vec4 R
  floatUniform : Nat × Int → R
  intUniform : Nat × Int → Int
  matrixUniform : Nat × Int → matrix4 R
  boundTexture2D : Nat
  depthTest : Bool
  enableStack : List Bool
  currentProgram : Nat
  viewport : Int × Int × Int × Int
  clearColor : vec4 R
  cleared : Bool

namespace GLShaderContext

variable {R : Type}

/-- `glGetUniformLocation(program, name)`: 0 is not a program object, for it the call raises
`GL_INVALID_VALUE` and returns -1. -/
def glGetUniformLocation (program : Nat) (name : String) (gl : GLShaderContext R) : Int :=
  if program = 0 then -1 else gl.uniformLocation program name

/-- Whether an upload of the given kind to `location` is carried out: OpenGL raises
`GL_INVALID_OPERATION` and changes nothing when no program is in use, when the program in use
has no uniform at `location` or one of another kind, and it silently ignores location -1. -/
def accepts (kind : UniformKind) (location : Int) (gl : GLShaderContext R) : Bool :=
  decide (gl.currentProgram ≠ 0) && decide (location ≠ -1) &&
    decide (gl.uniformKind gl.currentProgram location = some kind)

/-- `glUniform4fv(location, 1, v)`: sets a uniform of the program in use. -/
def glUniform4fv (location : Int) (v : vec4 R) (gl : GLShaderContext R) : GLShaderContext R :=
  { gl with
    vec4Uniform :=
      if gl.accepts UniformKind.vec4 location then
        Function.update gl.vec4Uniform (gl.currentProgram, location) v
      else gl.vec4Uniform }

/-- `glUniform1f(location, f)`: sets a uniform of the program in use. -/
def glUniform1f (location : Int) (f : R) (gl : GLShaderContext R) : GLShaderContext R :=
  { gl with
    floatUniform :=
      if gl.accepts UniformKind.float location then
        Function.update gl.floatUniform (gl.currentProgram, location) f
      else gl.floatUniform }

/-- `glUniform1i(location, i)`: sets a uniform of the program in use. -/
def glUniform1i (location : Int) (i : Int) (gl : GLShaderContext R) : GLShaderContext R :=
  { gl with
    intUniform :=
      if gl.accepts UniformKind.int location then
        Function.update gl.intUniform (gl.currentProgram, location) i
      else gl.intUniform }

/-- `glUniformMatrix4fv(location, 1, GL_FALSE, m)`: sets a uniform of the program in use. -/
def glUniformMatrix4fv (location : Int) (m : matrix4 R) (gl : GLShaderContext R) :
    GLShaderContext R :=
  { gl with
    matrixUniform :=
      if gl.accepts UniformKind.mat4 location then
        Function.update gl.matrixUniform (gl.currentProgram, location) m
      else gl.matrixUniform }

end GLShaderContext

/-- State of a `RenderStateGL2` object (members of `RenderState` and `RenderStateGL2` used by
the functions below) together with the OpenGL context it drives. `m_matrix` is the array
`m_matrix[3]` and `m_matrixStack` the array of vectors `m_matrixStack[3]`, both indexed by the
matrix mode. -/
structure RenderStateGL2 (R : Type) where
  m_drawNormals : Bool
  m_projection : Bool
  m_wireframe : Bool
  m_bgColor : vec4 R
  m_ambient0 : vec4 R
  m_diffuse0 : vec4 R
  m_specular0 : vec4 R
  m_light0_pos : vec4 R
  m_vertexShader : Nat
  m_pixelShader : Nat
  m_program : Nat
  m_modelViewMatrixLoc : Int
  m_projMatrixLoc : Int
  m_positionAttr : Int
  m_normalAttr : Int
  m_texCoordsAttr : Int
  m_matrixMode : MatrixMode
  m_matrix : MatrixMode → matrix4 R
  m_matrixStack : MatrixMode → List (matrix4 R)
  m_materialStack : List (Material R)
  gl : GLShaderContext R

namespace RenderStateGL2

variable {R : Type} [Field R]

/-- `RenderStateGL2::setMatrixMode` (85-88). -/
def setMatrixMode (newMode : MatrixMode) (s : RenderStateGL2 R) : RenderStateGL2 R :=
  { s with m_matrixMode := newMode }

/-- `RenderStateGL2::loadIdentity` (90-94). -/
def loadIdentity (s : RenderStateGL2 R) : RenderStateGL2 R :=
  let i := s.m_matrixMode
  { s with m_matrix := Function.update s.m_matrix i 1 }

/-- `RenderStateGL2::multiplyMatrix` (96-100). -/
def multiplyMatrix (m : matrix4 R) (s : RenderStateGL2 R) : RenderStateGL2 R :=
  let i := s.m_matrixMode
  { s with m_matrix := Function.update s.m_matrix i (s.m_matrix i * m) }

/-- `RenderStateGL2::pushMatrix` (102-106). -/
def pushMatrix (s : RenderStateGL2 R) : RenderStateGL2 R :=
  let i := s.m_matrixMode
  { s with m_matrixStack := Function.update s.m_matrixStack i (s.m_matrix i :: s.m_matrixStack i) }

/-- `RenderStateGL2::popMatrix` (108-113); `back()` on an empty vector has no defined result. -/
def popMatrix (s : RenderStateGL2 R) : Option (RenderStateGL2 R) :=
  let i := s.m_matrixMode
  match s.m_matrixStack i with
  | [] => none
  | top :: rest =>
    some { s with m_matrix := Function.update s.m_matrix i top
                  m_matrixStack := Function.update s.m_matrixStack i rest }

/-- `RenderStateGL2::translate` (115-118). -/
def translate (L : Matrix4Lib R) (dx dy dz : R) (s : RenderStateGL2 R) : RenderStateGL2 R :=
  multiplyMatrix (L.translate dx dy dz) s

/-- `RenderStateGL2::rotate` (120-123). -/
def rotate (L : Matrix4Lib R) (angle rx ry rz : R) (s : RenderStateGL2 R) : RenderStateGL2 R :=
  multiplyMatrix (L.rotate angle rx ry rz) s

/-- `RenderStateGL2::scale` (125-128). -/
def scale (L : Matrix4Lib R) (sx sy sz : R) (s : RenderStateGL2 R) : RenderStateGL2 R :=
  multiplyMatrix (L.scale sx sy sz) s

/-- `RenderStateGL2::currentMatrix` (130-133). -/
def currentMatrix (s : RenderStateGL2 R) : matrix4 R :=
  s.m_matrix s.m_matrixMode

/-- `RenderStateGL2::setUniformValue(string, const vec4 &)` (327-331): the location is looked
up in `m_program`, the upload goes to the program in use. -/
def setUniformValue (name : String) (v : vec4 R) (s : RenderStateGL2 R) : RenderStateGL2 R :=
  let location := s.gl.glGetUniformLocation s.m_program name
  { s with gl := s.gl.glUniform4fv location v }

/-- `RenderStateGL2::setUniformValue(string, float)` (333-337). -/
def setUniformValueFloat (name : String) (f : R) (s : RenderStateGL2 R) : RenderStateGL2 R :=
  let location := s.gl.glGetUniformLocation s.m_program name
  { s with gl := s.gl.glUniform1f location f }

/-- `RenderStateGL2::setUniformValue(string, int)` (339-343). -/
def setUniformValueInt (name : String) (i : Int) (s : RenderStateGL2 R) : RenderStateGL2 R :=
  let location := s.gl.glGetUniformLocation s.m_program name
  { s with gl := s.gl.glUniform1i location i }

/-- `RenderStateGL2::beginApplyMaterial` (150-167). The call `glActiveTexture(GL_TEXTURE_2D)`
passes a value that is not a texture unit, so it selects nothing and unit 0 stays active. -/
def beginApplyMaterial (m : Material R) (s : RenderStateGL2 R) : RenderStateGL2 R :=
  let s := setUniformValue "u_material_ambient" m.ambient s
  let s := setUniformValue "u_material_diffuse" m.diffuse s
  let s := setUniformValue "u_material_specular" m.specular s
  let s := setUniformValueFloat "u_material_shine" m.shine s
  if m.texture ≠ 0 then
    let s := { s with gl := { s.gl with boundTexture2D := m.texture } }
    let s := setUniformValueInt "u_material_texture" 0 s
    setUniformValueInt "u_has_texture" 1 s
  else
    setUniformValueInt "u_has_texture" 0 s

/-- `RenderStateGL2::endApplyMaterial` (169-173). -/
def endApplyMaterial (m : Material R) (s : RenderStateGL2 R) : RenderStateGL2 R :=
  if m.texture ≠ 0 then
    { s with gl := { s.gl with boundTexture2D := 0 } }
  else
    s

/-- `RenderStateGL2::pushMaterial` (135-139). -/
def pushMaterial (m : Material R) (s : RenderStateGL2 R) : RenderStateGL2 R :=
  beginApplyMaterial m { s with m_materialStack := m :: s.m_materialStack }

/-- `RenderStateGL2::popMaterial` (141-148); `back()` on an empty vector has no defined
result. -/
def popMaterial (s : RenderStateGL2 R) : Option (RenderStateGL2 R) :=
  match s.m_materialStack with
  | [] => none
  | m :: rest =>
    let s1 := endApplyMaterial m { s with m_materialStack := rest }
    match s1.m_materialStack with
    | [] => some s1
    | top :: _ => some (beginApplyMaterial top s1)

/-- `RenderStateGL2::setupViewport` (202-215). -/
def setupViewport (L : Matrix4Lib R) (w h : Int) (s : RenderStateGL2 R) : RenderStateGL2 R :=
  let s := { s with gl := { s.gl with viewport := (0, 0, w, h) } }
  let s := setMatrixMode MatrixMode.Projection s
  let s := loadIdentity s
  let r : R := (w : R) / (h : R)
  let s :=
    if s.m_projection then
      multiplyMatrix (L.perspective 45.0 r 0.1 100.0) s
    else if w ≤ h then
      multiplyMatrix (L.ortho (-1.0) 1.0 (-1.0 / r) (1.0 / r) (-10.0) 10.0) s
    else
      multiplyMatrix (L.ortho (-1.0 * r) (1.0 * r) (-1.0) 1.0 (-10.0) 10.0) s
  setMatrixMode MatrixMode.ModelView s

/-- `RenderStateGL2::beginFrame` (175-191); `initShaders()` has an empty body, and
`m_program` is 0 or the program linked by `loadShaders`, which `glUseProgram` accepts. -/
def beginFrame (L : Matrix4Lib R) (w h : Int) (s : RenderStateGL2 R) : RenderStateGL2 R :=
  let s := { s with gl := { s.gl with enableStack := s.gl.depthTest :: s.gl.enableStack } }
  let s := { s with gl := { s.gl with currentProgram := s.m_program } }
  let s := { s with gl := { s.gl with depthTest := true } }
  let s := setUniformValue "u_light_ambient" s.m_ambient0 s
  let s := setUniformValue "u_light_diffuse" s.m_diffuse0 s
  let s := setUniformValue "u_light_specular" s.m_specular0 s
  let s := setUniformValue "u_light_pos" s.m_light0_pos s
  let s := setupViewport L w h s
  let s := setMatrixMode MatrixMode.ModelView s
  let s := pushMatrix s
  let s := loadIdentity s
  { s with gl := { s.gl with clearColor := s.m_bgColor, cleared := true } }

/-- `RenderStateGL2::endFrame` (193-200); `glPopAttrib` on an empty attribute stack only raises
an OpenGL error and changes nothing. -/
def endFrame (s : RenderStateGL2 R) : Option (RenderStateGL2 R) :=
  let s := setMatrixMode MatrixMode.ModelView s
  match popMatrix s with
  | none => none
  | some s =>
    let s := { s with gl := { s.gl with currentProgram := 0 } }
    match s.gl.enableStack with
    | [] => some s
    | saved :: rest => some { s with gl := { s.gl with depthTest := saved, enableStack := rest } }

end RenderStateGL2

/-! ## Sequences of material calls and the material state read back from the pipeline -/

/-- A call of the material interface of `RenderState` (`RenderState.h` 71-72). -/
inductive MaterialCall (R : Type) where
  | pushMaterial (m : Material R)
  | popMaterial

namespace RenderStateGL1

variable {R : Type} [Field R]

/-- Performs the calls in order; no result as soon as one `popMaterial` meets an empty stack. -/
def runMaterialCalls : List (MaterialCall R) → RenderStateGL1 R → Option (RenderStateGL1 R)
  | [], s => some s
  | MaterialCall.pushMaterial m :: cs, s => runMaterialCalls cs (pushMaterial m s)
  | MaterialCall.popMaterial :: cs, s =>
    match popMaterial s with
    | none => none
    | some s1 => runMaterialCalls cs s1

/-- The material the fixed-function pipeline currently renders with: the `GL_FRONT_AND_BACK`
material parameters, and the bound 2D texture when `GL_TEXTURE_2D` is enabled (0 = no texture). -/
def appliedMaterial (s : RenderStateGL1 R) : Material R :=
  { ambient := s.gl.materialAmbient
    diffuse := s.gl.materialDiffuse
    specular := s.gl.materialSpecular
    shine := s.gl.materialShininess
    texture := if s.gl.texture2D then s.gl.boundTexture2D else 0 }

end RenderStateGL1

namespace RenderStateGL2

variable {R : Type} [Field R]

/-- Performs the calls in order; no result as soon as one `popMaterial` meets an empty stack. -/
def runMaterialCalls : List (MaterialCall R) → RenderStateGL2 R → Option (RenderStateGL2 R)
  | [], s => some s
  | MaterialCall.pushMaterial m :: cs, s => runMaterialCalls cs (pushMaterial m s)
  | MaterialCall.popMaterial :: cs, s =>
    match popMaterial s with
    | none => none
    | some s1 => runMaterialCalls cs s1

/-- The material the shader pipeline currently renders with: the values of the `u_material_*`
uniforms of the program in use, and the bound 2D texture when its `u_has_texture` is set
(0 = no texture). -/
def appliedMaterial (s : RenderStateGL2 R) : Material R :=
  let p := s.gl.currentProgram
  { ambient := s.gl.vec4Uniform (p, s.gl.glGetUniformLocation p "u_material_ambient")
    diffuse := s.gl.vec4Uniform (p, s.gl.glGetUniformLocation p "u_material_diffuse")
    specular := s.gl.vec4Uniform (p, s.gl.glGetUniformLocation p "u_material_specular")
    shine := s.gl.floatUniform (p, s.gl.glGetUniformLocation p "u_material_shine")
    texture :=
      if s.gl.intUniform (p, s.gl.glGetUniformLocation p "u_has_texture") ≠ 0 then
        s.gl.boundTexture2D
      else 0 }

/-- The material uniforms of `s` can be uploaded: `m_program` is a program object and it is the
program in use (as between `beginFrame` and `endFrame` after a successful `init`), and the names
`u_material_ambient`, `u_material_diffuse`, `u_material_specular`, `u_material_shine` and
`u_has_texture` are active uniforms of it, of the kind of their upload; the three colours have
three different locations. -/
structure MaterialUniformsActive (s : RenderStateGL2 R) : Prop where
  program : s.m_program ≠ 0
  inUse : s.gl.currentProgram = s.m_program
  ambient : s.gl.accepts UniformKind.vec4
    (s.gl.uniformLocation s.m_program "u_material_ambient") = true
  diffuse : s.gl.accepts UniformKind.vec4
    (s.gl.uniformLocation s.m_program "u_material_diffuse") = true
  specular : s.gl.accepts UniformKind.vec4
    (s.gl.uniformLocation s.m_program "u_material_specular") = true
  shine : s.gl.accepts UniformKind.float
    (s.gl.uniformLocation s.m_program "u_material_shine") = true
  hasTexture : s.gl.accepts UniformKind.int
    (s.gl.uniformLocation s.m_program "u_has_texture") = true
  ambient_ne_diffuse : s.gl.uniformLocation s.m_program "u_material_ambient"
    ≠ s.gl.uniformLocation s.m_program "u_material_diffuse"
  ambient_ne_specular : s.gl.uniformLocation s.m_program "u_material_ambient"
    ≠ s.gl.uniformLocation s.m_program "u_material_specular"
  diffuse_ne_specular : s.gl.uniformLocation s.m_program "u_material_diffuse"
    ≠ s.gl.uniformLocation s.m_program "u_material_specular"

/-- The applied material is the top of the stack whenever the stack is not empty. -/
def TopApplied (s : RenderStateGL2 R) : Prop :=
  ∀ top rest, s.m_materialStack = top :: rest → appliedMaterial s = top

end RenderStateGL2

/-- A textured material over the rationals (texture name 5). -/
def texturedMaterial : Material ℚ :=
  { ambient := ⟨1, 0, 0, 1⟩, diffuse := ⟨1, 0, 0, 1⟩, specular := ⟨1, 1, 1, 1⟩,
    shine := 20, texture := 5 }

/-- The debug material of `Scene.cpp` (31-32), which has no texture. -/
def debugMaterial {R : Type} [Field R] : Material R :=
  { ambient := ⟨0.2, 0.2, 0.2, 1.0⟩, diffuse := ⟨1.0, 4.0 / 6.0, 0.0, 1.0⟩,
    specular := ⟨0.2, 0.2, 0.2, 1.0⟩, shine := 20.0, texture := 0 }

/-! ## Scene (`Scene.cpp`) -/

/-- `Scene::Item` (declared in `Scene.h`): the enumerators handled by `Scene::itemText`. -/
inductive Item where
  | SCENE
  | LETTER_P
  | LETTER_A
  | LETTER_S
  | DRAGON
  | DRAGON_UPPER
  | DRAGON_HEAD
  | DRAGON_TONGUE
  | DRAGON_JOINT
  | DRAGON_BODY
  | DRAGON_CHEST
  | DRAGON_PAWS
  | DRAGON_PAW
  | DRAGON_WING
  | DRAGON_WING_OUTER
  | DRAGON_WING_PART
  | DRAGON_WING_MEMBRANE
  | DRAGON_TAIL
  | DRAGON_TAIL_END
  deriving DecidableEq, Repr

/-- The draw methods of `Dragon` that `Scene::drawItem` and the `drawDragonHolding*` functions
call (`Dragon.cpp` is not among the sources). -/
inductive DragonMethod where
  | draw
  | drawUpper
  | drawHead
  | drawTongue
  | drawJoint
  | drawBody
  | drawChest
  | drawPaws
  | drawPaw
  | drawWing
  | drawWingOuter
  | drawWingPart
  | drawWingMembrane
  | drawTail
  | drawTailEnd
  deriving DecidableEq, Repr

/-- The members of a `Dragon` that `Scene.cpp` reads or sets through `alpha()`, `beta()`,
`frontLegsAngle()`, `tongueMaterial()`, `scalesMaterial()`, `wingMaterial()` and
`setDetailLevel()`. -/
structure Dragon (R : Type) where
  alpha : R
  beta : R
  frontLegsAngle : R
  tongueMaterial : Material R
  scalesMaterial : Material R
  wingMaterial : Material R
  detailLevel : Int
  deriving DecidableEq, Repr

/-- `Dragon::setDetailLevel`. -/
def Dragon.setDetailLevel {R : Type} (level : Int) (d : Dragon R) : Dragon R :=
  { d with detailLevel := level }

/-- `Scene::Camera`. -/
inductive Camera where
  | Camera_Static
  | Camera_Jumping
  | Camera_Flying
  deriving DecidableEq, Repr

/-- State of a `Scene` object. `m_dragons` holds the three dragons pushed by the constructor
(`m_dragons[0..2]`); `m_started` is the clock reading taken by `reset()`; `floorMaterial` is the
file-level static whose texture `init()` sets. -/
structure Scene (R : Type) where
  m_camera : Camera
  m_exportQueued : Bool
  m_sigma : R
  m_delta : vec3 R
  m_theta : vec3 R
  m_thetaCamera : vec3 R
  m_selected : Int
  m_detailLevel : Int
  m_started : R
  m_debugDragon : Dragon R
  m_dragons : Fin 3 → Dragon R
  floorMaterial : Material R

/-- A call made on the `RenderState` interface (through the forwarding members of
`StateObject`, `RenderState.h` 89-110) or on a `Dragon`. -/
inductive Call (R : Type) where
  | pushMatrix
  | popMatrix
  | translate (dx dy dz : R)
  | rotate (angle rx ry rz : R)
  | scale (sx sy sz : R)
  | pushMaterial (m : Material R)
  | popMaterial
  | drawMesh (name : String)
  | dragon (d : Dragon R) (method : DragonMethod)

namespace Scene

variable {R : Type} [Field R]

/-- `Scene::drawFloor` (310-315): the calls it makes, in order. -/
def drawFloor (sc : Scene R) : List (Call R) :=
  [ Call.pushMaterial sc.floorMaterial,
    Call.drawMesh "floor",
    Call.popMaterial ]

/-- `Scene::drawDragonHoldingA` (317-334). -/
def drawDragonHoldingA (d : Dragon R) : List (Call R) :=
  [ Call.pushMatrix,
      Call.pushMatrix,
        Call.rotate 45.0 0.0 0.0 1.0,
        Call.dragon d DragonMethod.draw,
      Call.popMatrix,
      Call.pushMatrix,
        Call.translate (1.0 / 3.0) (0.2 / 3.0) 0.0,
        Call.rotate 15.0 0.0 1.0 0.0,
        Call.rotate (-d.frontLegsAngle) 0.0 0.0 1.0,
        Call.scale (2.0 / 3.0) (2.0 / 3.0) (1.0 / 3.0),
        Call.pushMaterial d.tongueMaterial,
        Call.drawMesh "letter_a",
        Call.popMaterial,
      Call.popMatrix,
    Call.popMatrix ]

/-- `Scene::drawDragonHoldingP` (336-351). -/
def drawDragonHoldingP (d : Dragon R) : List (Call R) :=
  [ Call.pushMatrix,
      Call.dragon d DragonMethod.draw,
      Call.pushMatrix,
        Call.translate 0.08 (-0.13) 0.0,
        Call.rotate (-d.frontLegsAngle + 90.0) 0.0 0.0 1.0,
        Call.translate 0.2 (-0.1) 0.0,
        Call.rotate (-170) 0.0 0.0 1.0,
        Call.scale 1.0 1.0 0.5,
        Call.pushMaterial d.tongueMaterial,
        Call.drawMesh "letter_p",
        Call.popMaterial,
      Call.popMatrix,
    Call.popMatrix ]

/-- `Scene::drawDragonHoldingS` (353-368). -/
def drawDragonHoldingS (d : Dragon R) : List (Call R) :=
  [ Call.pushMatrix,
      Call.dragon d DragonMethod.draw,
      Call.pushMatrix,
        Call.translate 0.26 (-0.25) 0.0,
        Call.rotate (180.0 - d.frontLegsAngle) 0.0 0.0 1.0,
        Call.translate (-0.4) 0.1 0.0,
        Call.scale 1.0 1.0 0.5,
        Call.pushMaterial d.tongueMaterial,
        Call.drawMesh "letter_s",
        Call.popMaterial,
      Call.popMatrix,
    Call.popMatrix ]

/-- `Scene::drawScene` (275-308). Each dragon is given the scene's detail level before it is
drawn. -/
def drawScene (sc : Scene R) : List (Call R) :=
  let da := (sc.m_dragons 0).setDetailLevel sc.m_detailLevel
  let dp := (sc.m_dragons 1).setDetailLevel sc.m_detailLevel
  let ds := (sc.m_dragons 2).setDetailLevel sc.m_detailLevel
  drawFloor sc ++
  [ Call.pushMatrix,
      Call.translate 0.0 (2.0 + 0.6 * (sc.m_dragons 0).alpha) 0.0,
      Call.scale 3.0 3.0 3.0 ] ++
      drawDragonHoldingA da ++
  [ Call.popMatrix,
    Call.pushMatrix,
      Call.translate (-(sc.m_dragons 1).beta) (sc.m_dragons 1).beta (sc.m_dragons 1).beta,
      Call.rotate (sc.m_dragons 1).alpha 0.0 1.0 0.0,
      Call.translate 4.0 0.0 4.0,
      Call.rotate 60.0 0.0 1.0 0.0,
      Call.scale 1.5 1.5 1.5 ] ++
      drawDragonHoldingP dp ++
  [ Call.popMatrix,
    Call.pushMatrix,
      Call.translate 0.0 (sc.m_dragons 2).beta 0.0,
      Call.rotate (-(sc.m_dragons 2).alpha) 0.0 1.0 0.0,
      Call.translate 3.0 0.0 3.0,
      Call.rotate (-120.0) 0.0 1.0 0.0,
      Call.scale 1.5 1.5 1.5 ] ++
      drawDragonHoldingS ds ++
  [ Call.popMatrix ]

/-- The `switch(item)` of `Scene::drawItem` (155-211); it has no case for `SCENE`. -/
def drawItemSwitch (sc : Scene R) : Item → List (Call R)
  | Item.LETTER_P => [Call.drawMesh "letter_p"]
  | Item.LETTER_A => [Call.drawMesh "letter_a"]
  | Item.LETTER_S => [Call.drawMesh "letter_s"]
  | Item.DRAGON => [Call.dragon sc.m_debugDragon DragonMethod.draw]
  | Item.DRAGON_UPPER => [Call.dragon sc.m_debugDragon DragonMethod.drawUpper]
  | Item.DRAGON_HEAD => [Call.dragon sc.m_debugDragon DragonMethod.drawHead]
  | Item.DRAGON_TONGUE => [Call.dragon sc.m_debugDragon DragonMethod.drawTongue]
  | Item.DRAGON_JOINT => [Call.dragon sc.m_debugDragon DragonMethod.drawJoint]
  | Item.DRAGON_BODY => [Call.dragon sc.m_debugDragon DragonMethod.drawBody]
  | Item.DRAGON_CHEST => [Call.dragon sc.m_debugDragon DragonMethod.drawChest]
  | Item.DRAGON_PAWS => [Call.dragon sc.m_debugDragon DragonMethod.drawPaws]
  | Item.DRAGON_PAW => [Call.dragon sc.m_debugDragon DragonMethod.drawPaw]
  | Item.DRAGON_WING => [Call.dragon sc.m_debugDragon DragonMethod.drawWing]
  | Item.DRAGON_WING_OUTER => [Call.dragon sc.m_debugDragon DragonMethod.drawWingOuter]
  | Item.DRAGON_WING_PART => [Call.dragon sc.m_debugDragon DragonMethod.drawWingPart]
  | Item.DRAGON_WING_MEMBRANE => [Call.dragon sc.m_debugDragon DragonMethod.drawWingMembrane]
  | Item.DRAGON_TAIL => [Call.dragon sc.m_debugDragon DragonMethod.drawTail]
  | Item.DRAGON_TAIL_END => [Call.dragon sc.m_debugDragon DragonMethod.drawTailEnd]
  | Item.SCENE => []

/-- `Scene::drawItem` (145-215). -/
def drawItem (sc : Scene R) (item : Item) : List (Call R) :=
  [ Call.pushMatrix ] ++
  (if item = Item.SCENE then
    drawScene sc
  else
    [ Call.pushMaterial debugMaterial ] ++ drawItemSwitch sc item ++ [ Call.popMaterial ]) ++
  [ Call.popMatrix ]

/-- `Scene::selectNext` (370-374); `LAST` is the enumerator `Scene::LAST`. -/
def selectNext (LAST : Int) (sc : Scene R) : Scene R :=
  if sc.m_selected < LAST then { sc with m_selected := sc.m_selected + 1 } else sc

/-- `Scene::selectPrevious` (376-380); `SCENE` is the value of the enumerator `Scene::SCENE`. -/
def selectPrevious (SCENE : Int) (sc : Scene R) : Scene R :=
  if sc.m_selected > SCENE then { sc with m_selected := sc.m_selected - 1 } else sc

end Scene

/-- A selection call. -/
inductive SelectCall where
  | next
  | previous
  deriving DecidableEq, Repr

/-- Performs a sequence of `selectNext()` / `selectPrevious()` calls on a `Scene`. -/
def Scene.runSelect {R : Type} [Field R] (SCENE LAST : Int) :
    List SelectCall → Scene R → Scene R
  | [], sc => sc
  | SelectCall.next :: cs, sc => Scene.runSelect SCENE LAST cs (Scene.selectNext LAST sc)
  | SelectCall.previous :: cs, sc =>
    Scene.runSelect SCENE LAST cs (Scene.selectPrevious SCENE sc)

/-! ## DragonScene (`DragonScene.cpp`) -/

/-- The members of a `DragonScene` written by `reset`, `select_next`, `select_previous` and
`keyReleaseEvent`, and the number of `invalidated()` signals emitted so far. -/
structure DragonScene where
  m_selected : Int
  m_drawNormals : Bool
  m_detailLevel : Int
  invalidated : Nat
  deriving DecidableEq, Repr

namespace DragonScene

/-- `DragonScene::select_next` (228-235). -/
def select_next (LAST : Int) (sc : DragonScene) : DragonScene :=
  if sc.m_selected < LAST then
    { sc with m_selected := sc.m_selected + 1, invalidated := sc.invalidated + 1 }
  else sc

/-- `DragonScene::select_previous` (237-244). -/
def select_previous (SCENE : Int) (sc : DragonScene) : DragonScene :=
  if sc.m_selected > SCENE then
    { sc with m_selected := sc.m_selected - 1, invalidated := sc.invalidated + 1 }
  else sc

/-- Performs a sequence of `select_next()` / `select_previous()` calls on a `DragonScene`. -/
def runSelect (SCENE LAST : Int) : List SelectCall → DragonScene → DragonScene
  | [], sc => sc
  | SelectCall.next :: cs, sc => runSelect SCENE LAST cs (select_next LAST sc)
  | SelectCall.previous :: cs, sc => runSelect SCENE LAST cs (select_previous SCENE sc)

end DragonScene

/-! ## Running a sequence of calls on the shader backend -/

/-- The code reached from `Scene.cpp` that is not among the sources, as it acts on the shader
backend: the draw methods of `Dragon`, and `RenderState::drawMesh(string)` (registry lookup,
then `Mesh::draw`). -/
structure Externals (R : Type) where
  dragonDraw : Dragon R → DragonMethod → RenderStateGL2 R → RenderStateGL2 R
  meshDraw : String → RenderStateGL2 R → RenderStateGL2 R

/-- The two states have the same selected matrix mode, current matrices, saved matrix stacks
and material stack. -/
def SameStacks {R : Type} (s1 s : RenderStateGL2 R) : Prop :=
  s1.m_matrixMode = s.m_matrixMode ∧ s1.m_matrix = s.m_matrix ∧
    s1.m_matrixStack = s.m_matrixStack ∧ s1.m_materialStack = s.m_materialStack

/-- Every `Dragon` draw method and `drawMesh` leave the matrix and material stacks (and the
selected matrix mode) as they found them. -/
def Externals.StackNeutral {R : Type} (X : Externals R) : Prop :=
  (∀ d m s, SameStacks (X.dragonDraw d m s) s) ∧ (∀ n s, SameStacks (X.meshDraw n s) s)

/-- Externals that draw nothing. -/
def Externals.idle {R : Type} : Externals R :=
  { dragonDraw := fun _ _ s => s, meshDraw := fun _ s => s }

namespace Call

variable {R : Type} [Field R]

/-- One call performed on the shader backend. -/
def exec (L : Matrix4Lib R) (X : Externals R) :
    Call R → RenderStateGL2 R → Option (RenderStateGL2 R)
  | Call.pushMatrix, s => some (RenderStateGL2.pushMatrix s)
  | Call.popMatrix, s => RenderStateGL2.popMatrix s
  | Call.translate dx dy dz, s => some (RenderStateGL2.translate L dx dy dz s)
  | Call.rotate angle rx ry rz, s => some (RenderStateGL2.rotate L angle rx ry rz s)
  | Call.scale sx sy sz, s => some (RenderStateGL2.scale L sx sy sz s)
  | Call.pushMaterial m, s => some (RenderStateGL2.pushMaterial m s)
  | Call.popMaterial, s => RenderStateGL2.popMaterial s
  | Call.drawMesh name, s => some (X.meshDraw name s)
  | Call.dragon d method, s => some (X.dragonDraw d method s)

/-- The calls performed in order; no result as soon as one of them has none. -/
def execAll (L : Matrix4Lib R) (X : Externals R) :
    List (Call R) → RenderStateGL2 R → Option (RenderStateGL2 R)
  | [], s => some s
  | c :: cs, s =>
    match exec L X c s with
    | none => none
    | some s1 => execAll L X cs s1

/-- The call is `pushMatrix`. -/
def isPushMatrix : Call R → Bool
  | Call.pushMatrix => true
  | _ => false

/-- The call is `popMatrix`. -/
def isPopMatrix : Call R → Bool
  | Call.popMatrix => true
  | _ => false

/-- The call is `pushMaterial`. -/
def isPushMaterial : Call R → Bool
  | Call.pushMaterial _ => true
  | _ => false

/-- The call is `popMaterial`. -/
def isPopMaterial : Call R → Bool
  | Call.popMaterial => true
  | _ => false

/-- Walks a call sequence with the number `dm` of matrices and `dk` of materials pushed and not
yet popped: no pop at depth 0, no change of the current matrix at matrix depth 0, and both
depths 0 at the end. -/
def nested : Nat → Nat → List (Call R) → Bool
  | dm, dk, [] => dm == 0 && dk == 0
  | dm, dk, Call.pushMatrix :: cs => nested (dm + 1) dk cs
  | 0, _, Call.popMatrix :: _ => false
  | dm + 1, dk, Call.popMatrix :: cs => nested dm dk cs
  | 0, _, Call.translate _ _ _ :: _ => false
  | dm + 1, dk, Call.translate _ _ _ :: cs => nested (dm + 1) dk cs
  | 0, _, Call.rotate _ _ _ _ :: _ => false
  | dm + 1, dk, Call.rotate _ _ _ _ :: cs => nested (dm + 1) dk cs
  | 0, _, Call.scale _ _ _ :: _ => false
  | dm + 1, dk, Call.scale _ _ _ :: cs => nested (dm + 1) dk cs
  | dm, dk, Call.pushMaterial _ :: cs => nested dm (dk + 1) cs
  | _, 0, Call.popMaterial :: _ => false
  | dm, dk + 1, Call.popMaterial :: cs => nested dm dk cs
  | dm, dk, Call.drawMesh _ :: cs => nested dm dk cs
  | dm, dk, Call.dragon _ _ :: cs => nested dm dk cs

end Call

/-- Strict stack discipline of a call sequence `tr`: as many `popMatrix` as `pushMatrix` and as
many `popMaterial` as `pushMaterial`; in no prefix more pops than pushes (never below the depth
at entry); and from every state the sequence runs to completion and returns with the selected
mode, all current matrices, all saved matrix stacks and the material stack as at entry. -/
def StackDisciplined {R : Type} [Field R] (L : Matrix4Lib R) (X : Externals R)
    (tr : List (Call R)) : Prop :=
  tr.countP Call.isPopMatrix = tr.countP Call.isPushMatrix ∧
  tr.countP Call.isPopMaterial = tr.countP Call.isPushMaterial ∧
  (∀ n, (tr.take n).countP Call.isPopMatrix ≤ (tr.take n).countP Call.isPushMatrix) ∧
  (∀ n, (tr.take n).countP Call.isPopMaterial ≤ (tr.take n).countP Call.isPushMaterial) ∧
  ∀ s : RenderStateGL2 R, ∃ s1, Call.execAll L X tr s = some s1 ∧ SameStacks s1 s ∧
    RenderStateGL2.currentMatrix s1 = RenderStateGL2.currentMatrix s

/-- Relation between the state `s0` at entry of a call sequence and the state `s1` after a
prefix that has `dm` matrices and `dk` materials pushed and not yet popped: only the selected
mode's current matrix `cur` and saved stack (`pushed` on top of the entry stack) and the
material stack (`pm` on top of the entry stack) may differ, and the oldest matrix of
`cur :: pushed` is the current matrix at entry. -/
def Call.Frame {R : Type} (dm dk : Nat) (s0 s1 : RenderStateGL2 R) : Prop :=
  ∃ (cur : matrix4 R) (pushed : List (matrix4 R)) (pm : List (Material R)),
    s1.m_matrixMode = s0.m_matrixMode ∧
    s1.m_matrix = Function.update s0.m_matrix s0.m_matrixMode cur ∧
    s1.m_matrixStack = Function.update s0.m_matrixStack s0.m_matrixMode
      (pushed ++ s0.m_matrixStack s0.m_matrixMode) ∧
    s1.m_materialStack = pm ++ s0.m_materialStack ∧
    pushed.length = dm ∧ pm.length = dk ∧
    (cur :: pushed).getLast? = some (s0.m_matrix s0.m_matrixMode)

/-! ## Concrete states over the rationals

Used to evaluate the definitions above and to instantiate the theorems below. -/

/-- A concrete matrix library over `ℚ`: `translate`, `scale`, `ortho` and `glOrtho` are the usual
OpenGL matrices; `rotate`, `perspective` and `gluPerspective`, whose entries need trigonometric
functions, are stood in for by matrices that record their arguments. -/
def sampleLib : Matrix4Lib ℚ :=
  { translate := fun dx dy dz => !![1, 0, 0, dx; 0, 1, 0, dy; 0, 0, 1, dz; 0, 0, 0, 1]
    rotate := fun angle rx ry rz => !![angle, rx, ry, rz; 0, 1, 0, 0; 0, 0, 1, 0; 0, 0, 0, 1]
    scale := fun sx sy sz => !![sx, 0, 0, 0; 0, sy, 0, 0; 0, 0, sz, 0; 0, 0, 0, 1]
    perspective := fun fovy aspect near far =>
      !![fovy, aspect, near, far; 0, 1, 0, 0; 0, 0, 1, 0; 0, 0, -1, 0]
    ortho := fun l r b t n f =>
      !![2 / (r - l), 0, 0, -((r + l) / (r - l)); 0, 2 / (t - b), 0, -((t + b) / (t - b));
         0, 0, -2 / (f - n), -((f + n) / (f - n)); 0, 0, 0, 1]
    gluPerspective := fun fovy aspect near far =>
      !![fovy, aspect, near, far; 0, 1, 0, 0; 0, 0, 1, 0; 0, 0, -1, 0]
    glOrtho := fun l r b t n f =>
      !![2 / (r - l), 0, 0, -((r + l) / (r - l)); 0, 2 / (t - b), 0, -((t + b) / (t - b));
         0, 0, -2 / (f - n), -((f + n) / (f - n)); 0, 0, 0, 1] }

/-- A fixed-function OpenGL context in its initial state (identity matrices, empty stacks,
everything disabled, default material and light parameters). -/
def GLFixedContext.initial : GLFixedContext ℚ :=
  { matrixMode := MatrixMode.ModelView
    matrix := fun _ => 1
    matrixStack := fun _ => []
    maxStackDepth := fun m => if m = MatrixMode.ModelView then 32 else 2
    error := none
    materialAmbient := ⟨1 / 5, 1 / 5, 1 / 5, 1⟩
    materialDiffuse := ⟨4 / 5, 4 / 5, 4 / 5, 1⟩
    materialSpecular := ⟨0, 0, 0, 1⟩
    materialShininess := 0
    texture2D := false
    boundTexture2D := 0
    depthTest := false
    normalize := false
    lighting := false
    light0 := false
    smoothShading := true
    light0Position := ⟨0, 0, 1, 0⟩
    light0Ambient := ⟨0, 0, 0, 1⟩
    light0Diffuse := ⟨1, 1, 1, 1⟩
    light0Specular := ⟨1, 1, 1, 1⟩
    polygonModeLine := false
    viewport := (0, 0, 0, 0)
    clearColor := ⟨0, 0, 0, 0⟩
    cleared := false }

/-- `RenderStateGL1::RenderStateGL1()` (28-34) on a fresh context; the members set by the base
class constructor (`RenderState.cpp`, not among the sources) are parameters. -/
def RenderStateGL1.constructed (drawNormals projection wireframe : Bool) (bgColor : vec4 ℚ) :
    RenderStateGL1 ℚ :=
  { m_drawNormals := drawNormals
    m_projection := projection
    m_wireframe := wireframe
    m_bgColor := bgColor
    m_ambient0 := ⟨1, 1, 1, 1⟩
    m_diffuse0 := ⟨1, 1, 1, 1⟩
    m_specular0 := ⟨1, 1, 1, 1⟩
    m_light0_pos := ⟨0, 1, 1, 0⟩
    m_materialStack := []
    gl := GLFixedContext.initial }

/-- `RenderStateGL2::RenderStateGL2()` (29-47) on a fresh context (no program object, no
program in use); the members set by the base class constructor are parameters. -/
def RenderStateGL2.constructed (drawNormals projection wireframe : Bool) (bgColor : vec4 ℚ) :
    RenderStateGL2 ℚ :=
  { m_drawNormals := drawNormals
    m_projection := projection
    m_wireframe := wireframe
    m_bgColor := bgColor
    m_ambient0 := ⟨1, 1, 1, 1⟩
    m_diffuse0 := ⟨1, 1, 1, 1⟩
    m_specular0 := ⟨1, 1, 1, 1⟩
    m_light0_pos := ⟨0, 1, 1, 0⟩
    m_vertexShader := 0
    m_pixelShader := 0
    m_program := 0
    m_modelViewMatrixLoc := -1
    m_projMatrixLoc := -1
    m_positionAttr := -1
    m_normalAttr := -1
    m_texCoordsAttr := -1
    m_matrixMode := MatrixMode.ModelView
    m_matrix := fun _ => 1
    m_matrixStack := fun _ => []
    m_materialStack := []
    gl :=
      { uniformLocation := fun _ _ => -1
        uniformKind := fun _ _ => none
        vec4Uniform := fun _ => ⟨0, 0, 0, 0⟩
        floatUniform := fun _ => 0
        intUniform := fun _ => 0
        matrixUniform := fun _ => 0
        boundTexture2D := 0
        depthTest := false
        enableStack := []
        currentProgram := 0
        viewport := (0, 0, 0, 0)
        clearColor := ⟨0, 0, 0, 0⟩
        cleared := false } }

/-- A dragon with a sample pose. -/
def sampleDragon : Dragon ℚ :=
  { alpha := -1
    beta := 6 / 5
    frontLegsAngle := 95
    tongueMaterial := debugMaterial
    scalesMaterial := texturedMaterial
    wingMaterial := texturedMaterial
    detailLevel := 4 }

/-- A scene in the state left by `Scene::reset()` (96-106), with sample dragons. -/
def sampleScene : Scene ℚ :=
  { m_camera := Camera.Camera_Static
    m_exportQueued := false
    m_sigma := 2 / 5
    m_delta := ⟨0, -1 / 2, -5⟩
    m_theta := ⟨21, -37, 0⟩
    m_thetaCamera := ⟨0, 0, 0⟩
    m_selected := 0
    m_detailLevel := 4
    m_started := 0
    m_debugDragon := sampleDragon
    m_dragons := fun _ => sampleDragon
    floorMaterial := texturedMaterial }

/-- A `DragonScene` in the state left by `DragonScene::reset()` (83-89), `SCENE` being 0. -/
def sampleDragonScene : DragonScene :=
  { m_selected := 0, m_drawNormals := false, m_detailLevel := 3, invalidated := 1 }

/-- A freshly constructed fixed-function backend in perspective mode. -/
def sampleGL1 : RenderStateGL1 ℚ :=
  RenderStateGL1.constructed false true false ⟨0, 0, 0, 1⟩

/-- A freshly constructed shader backend in perspective mode. -/
def sampleGL2 : RenderStateGL2 ℚ :=
  RenderStateGL2.constructed false true false ⟨0, 0, 0, 1⟩

/-- The fixed-function backend after `setMatrixMode(Projection); multiplyMatrix(S)` with `S` the
scaling by 2: the Projection matrix is `S`, the ModelView matrix is the identity. -/
def projectionScaledGL1 : RenderStateGL1 ℚ :=
  RenderStateGL1.multiplyMatrix (sampleLib.scale 2 2 2)
    (RenderStateGL1.setMatrixMode MatrixMode.Projection sampleGL1)

/-- A fixed-function backend on a context in which an earlier renderer has left depth test,
normalisation, lighting and light 0 enabled. -/
def flagsOnGL1 : RenderStateGL1 ℚ :=
  { sampleGL1 with
    gl := { GLFixedContext.initial with
            depthTest := true, normalize := true, lighting := true, light0 := true } }

/-- The shader backend with one matrix saved on the ModelView stack (`pushMatrix()` on a freshly
constructed backend). -/
def pushedGL2 : RenderStateGL2 ℚ :=
  RenderStateGL2.pushMatrix sampleGL2

/-- The methods `draw` and `drawNormals` of a `Mesh` (declared in `Mesh.h`; their code is not
among the sources) as they act on a state of type `S`. The arguments `m_output`, `this` and
`m_meshOutput` of `Mesh::draw` all come from the render state. -/
structure MeshOps (Mesh S : Type) where
  draw : Mesh → S → S
  drawNormals : Mesh → S → S

/-- `RenderStateGL1::drawMesh(Mesh *m)` (41-48); a null pointer is `none`. -/
def RenderStateGL1.drawMesh {R Mesh : Type} (ops : MeshOps Mesh (RenderStateGL1 R))
    (m : Option Mesh) (s : RenderStateGL1 R) : RenderStateGL1 R :=
  match m with
  | none => s
  | some mesh =>
    let s := ops.draw mesh s
    if s.m_drawNormals then ops.drawNormals mesh s else s

/-- `RenderStateGL2::drawMesh(Mesh *m)` (64-75); a null pointer is `none`. -/
def RenderStateGL2.drawMesh {R Mesh : Type} (ops : MeshOps Mesh (RenderStateGL2 R))
    (m : Option Mesh) (s : RenderStateGL2 R) : RenderStateGL2 R :=
  match m with
  | none => s
  | some mesh =>
    let s := { s with gl := s.gl.glUniformMatrix4fv s.m_modelViewMatrixLoc
                        (s.m_matrix MatrixMode.ModelView) }
    let s := { s with gl := s.gl.glUniformMatrix4fv s.m_projMatrixLoc
                        (s.m_matrix MatrixMode.Projection) }
    let s := ops.draw mesh s
    if s.m_drawNormals then ops.drawNormals mesh s else s

/-- `DragonScene::drawMesh(Mesh *m)` (257-264), acting on the scene together with the OpenGL
context it draws into; a null pointer is `none`. -/
def DragonScene.drawMesh {Mesh G : Type} (ops : MeshOps Mesh (DragonScene × G))
    (m : Option Mesh) (s : DragonScene × G) : DragonScene × G :=
  match m with
  | none => s
  | some mesh =>
    let s := ops.draw mesh s
    if s.1.m_drawNormals then ops.drawNormals mesh s else s

/-! ## `Scene::draw` and export -/

/-- `vec3 operator+` (`Vertex.h`): componentwise sum. -/
def vec3.add {R : Type} [Add R] (a b : vec3 R) : vec3 R :=
  ⟨a.x + b.x, a.y + b.y, a.z + b.z⟩

namespace Scene

variable {R : Type} [Field R]

/-- `Scene::itemText` (229-273); the final `return "UNKNOWN"` is reached by no enumerator. -/
def itemText : Item → String
  | Item.LETTER_P => "LETTER_P"
  | Item.LETTER_A => "LETTER_A"
  | Item.LETTER_S => "LETTER_S"
  | Item.DRAGON => "DRAGON"
  | Item.DRAGON_UPPER => "DRAGON_UPPER"
  | Item.DRAGON_HEAD => "DRAGON_HEAD"
  | Item.DRAGON_TONGUE => "DRAGON_TONGUE"
  | Item.DRAGON_JOINT => "DRAGON_JOINT"
  | Item.DRAGON_BODY => "DRAGON_BODY"
  | Item.DRAGON_CHEST => "DRAGON_CHEST"
  | Item.DRAGON_PAWS => "DRAGON_PAWS"
  | Item.DRAGON_PAW => "DRAGON_PAW"
  | Item.DRAGON_WING => "DRAGON_WING"
  | Item.DRAGON_WING_OUTER => "DRAGON_WING_OUTER"
  | Item.DRAGON_WING_PART => "DRAGON_WING_PART"
  | Item.DRAGON_WING_MEMBRANE => "DRAGON_WING_MEMBRANE"
  | Item.DRAGON_TAIL => "DRAGON_TAIL"
  | Item.DRAGON_TAIL_END => "DRAGON_TAIL_END"
  | Item.SCENE => "SCENE"

/-- The scene after `Scene::drawItem(item)`: `drawScene` has given the three dragons the
scene's detail level (`setDetailLevel`, lines 283, 294, 305); nothing else is written. -/
def afterDrawItem (sc : Scene R) (item : Item) : Scene R :=
  if item = Item.SCENE then
    { sc with m_dragons := fun k => (sc.m_dragons k).setDetailLevel sc.m_detailLevel }
  else sc

/-- Lines 126-133 of `Scene::draw`: the camera transform applied before item `i` is drawn. -/
def cameraTransform (sc : Scene R) (i : Item) : List (Call R) :=
  let rot := if i = Item.SCENE then sc.m_theta.add sc.m_thetaCamera else sc.m_theta
  [ Call.translate sc.m_delta.x sc.m_delta.y sc.m_delta.z,
    Call.rotate rot.x 1.0 0.0 0.0,
    Call.rotate rot.y 0.0 1.0 0.0,
    Call.rotate rot.z 0.0 0.0 1.0,
    Call.scale sc.m_sigma sc.m_sigma sc.m_sigma ]

/-- `Scene::exportCurrentItem` (224-227). -/
def exportCurrentItem (sc : Scene R) : Scene R :=
  { sc with m_exportQueued := true }

end Scene

/-- A call made by `Scene::draw`: a call of the matrix, material and mesh interface, or one of
the two export calls of `RenderState` (`RenderState.h` 31-32). -/
inductive DrawCall (R : Type) where
  | call (c : Call R)
  | beginExportMesh (path : String)
  | endExportMesh

namespace Scene

variable {R : Type} [Field R]

/-- `Scene::exportItem` (217-222). -/
def exportItem (sc : Scene R) (item : Item) (path : String) : List (DrawCall R) :=
  [ DrawCall.beginExportMesh path ] ++
  (drawItem sc item).map DrawCall.call ++
  [ DrawCall.endExportMesh ]

/-- `Scene::draw` (123-143): the calls it makes, in order, and the scene it leaves. `toItem` is
the cast `(Item)m_selected`, which depends on the numbering of the enumeration in `Scene.h`. -/
def draw (toItem : Int → Item) (sc : Scene R) : List (DrawCall R) × Scene R :=
  let i := toItem sc.m_selected
  let calls := (cameraTransform sc i ++ drawItem sc i).map DrawCall.call
  let sc := afterDrawItem sc i
  if sc.m_exportQueued then
    (calls ++ exportItem sc i ("meshes/" ++ itemText i ++ ".obj"),
      { afterDrawItem sc i with m_exportQueued := false })
  else
    (calls, sc)

end Scene

/-- The call is `beginExportMesh`. -/
def DrawCall.isBeginExport {R : Type} : DrawCall R → Bool
  | DrawCall.beginExportMesh _ => true
  | _ => false

/-- The call is `endExportMesh`. -/
def DrawCall.isEndExport {R : Type} : DrawCall R → Bool
  | DrawCall.endExportMesh => true
  | _ => false

/-- An enumeration numbering with `SCENE = 0`, followed by the enumerators in the order of
`Scene::itemText`. -/
def sampleToItem : Int → Item
  | 1 => Item.LETTER_P
  | 2 => Item.LETTER_A
  | 3 => Item.LETTER_S
  | 4 => Item.DRAGON
  | 5 => Item.DRAGON_UPPER
  | 6 => Item.DRAGON_HEAD
  | 7 => Item.DRAGON_TONGUE
  | 8 => Item.DRAGON_JOINT
  | 9 => Item.DRAGON_BODY
  | 10 => Item.DRAGON_CHEST
  | 11 => Item.DRAGON_PAWS
  | 12 => Item.DRAGON_PAW
  | 13 => Item.DRAGON_WING
  | 14 => Item.DRAGON_WING_OUTER
  | 15 => Item.DRAGON_WING_PART
  | 16 => Item.DRAGON_WING_MEMBRANE
  | 17 => Item.DRAGON_TAIL
  | 18 => Item.DRAGON_TAIL_END
  | _ => Item.SCENE

/-! ## Geometry submitted while drawing, and export -/

/-- A geometry submission: the mesh drawn, the ModelView matrix current at that moment and the
material on top of the material stack (if any). -/
structure Submission (R : Type) where
  mesh : String
  modelView : matrix4 R
  material : Option (Material R)

/-- The geometry a `Dragon` draw method submits through `drawMesh` (`Dragon.cpp` is not among
the sources), as a function of the dragon, the method and the render state it is called in. -/
structure DragonGeometry (R : Type) where
  submits : Dragon R → DragonMethod → RenderStateGL2 R → List (Submission R)

/-- The `Dragon` draw methods are deterministic: what they submit depends on the render state
only through the selected mode, the matrices, the matrix stacks and the material stack. -/
def DragonGeometry.Deterministic {R : Type} (G : DragonGeometry R) : Prop :=
  ∀ d m s1 s2, SameStacks s1 s2 → G.submits d m s1 = G.submits d m s2

/-- A dragon geometry that submits one mesh per draw method, under the current ModelView matrix
and top material. -/
def DragonGeometry.single {R : Type} : DragonGeometry R :=
  { submits := fun _ _ s =>
      [⟨"dragon", s.m_matrix MatrixMode.ModelView, s.m_materialStack.head?⟩] }

namespace Call

variable {R : Type} [Field R]

/-- The geometry submitted by one call made in state `s`. -/
def submits (G : DragonGeometry R) : Call R → RenderStateGL2 R → List (Submission R)
  | Call.drawMesh name, s => [⟨name, s.m_matrix MatrixMode.ModelView, s.m_materialStack.head?⟩]
  | Call.dragon d method, s => G.submits d method s
  | _, _ => []

/-- The geometry submitted by a call sequence run from state `s`, in order. -/
def submitsAll (L : Matrix4Lib R) (X : Externals R) (G : DragonGeometry R) :
    List (Call R) → RenderStateGL2 R → List (Submission R)
  | [], _ => []
  | c :: cs, s =>
    submits G c s ++
      (match exec L X c s with
      | none => []
      | some s1 => submitsAll L X G cs s1)

end Call

/-- Modelled from the spec: `RenderState::beginExportMesh`, `RenderState::endExportMesh` and
`RenderState::drawMesh(string)` are defined in `RenderState.cpp`, which is not among the
sources. The render state together with the export members `m_exporting` and `m_exportPath`
(`RenderState.h` 84-85), the geometry drawn normally (`rasterized`), the geometry appended to
the mesh being exported (`accumulated`) and the files written so far (`written`). -/
structure DrawState (R : Type) where
  rs : RenderStateGL2 R
  m_exporting : Bool
  m_exportPath : String
  rasterized : List (Submission R)
  accumulated : List (Submission R)
  written : List (String × List (Submission R))

namespace DrawCall

variable {R : Type} [Field R]

/-- Modelled from the spec: one call of `Scene::draw` performed on the draw state. Between
`beginExportMesh(path)` and `endExportMesh()` the geometry of every `drawMesh` is appended to the
exported mesh instead of being drawn; `endExportMesh()` writes the accumulated geometry to
`path` and restores normal drawing. -/
def exec (L : Matrix4Lib R) (X : Externals R) (G : DragonGeometry R) :
    DrawCall R → DrawState R → Option (DrawState R)
  | DrawCall.call c, st =>
    match Call.exec L X c st.rs with
    | none => none
    | some rs1 =>
      if st.m_exporting then
        some { st with rs := rs1, accumulated := st.accumulated ++ Call.submits G c st.rs }
      else
        some { st with rs := rs1, rasterized := st.rasterized ++ Call.submits G c st.rs }
  | DrawCall.beginExportMesh path, st =>
    some { st with m_exporting := true, m_exportPath := path, accumulated := [] }
  | DrawCall.endExportMesh, st =>
    some { st with m_exporting := false
                   written := st.written ++ [(st.m_exportPath, st.accumulated)]
                   accumulated := [] }

/-- The calls performed in order; no result as soon as one of them has none. -/
def execAll (L : Matrix4Lib R) (X : Externals R) (G : DragonGeometry R) :
    List (DrawCall R) → DrawState R → Option (DrawState R)
  | [], st => some st
  | c :: cs, st =>
    match exec L X G c st with
    | none => none
    | some st1 => execAll L X G cs st1

end DrawCall

/-- A draw state around a freshly constructed shader backend: not exporting, nothing drawn or
written yet. -/
def sampleDrawState : DrawState ℚ :=
  { rs := sampleGL2, m_exporting := false, m_exportPath := "", rasterized := [],
    accumulated := [], written := [] }

/-! ## Sequences of matrix operations -/

/-- A matrix operation of the `RenderState` interface (`RenderState.h` 53-60) that acts on the
selected matrix mode. -/
inductive MatrixOp (R : Type) where
  | loadIdentity
  | multiplyMatrix (m : matrix4 R)
  | pushMatrix
  | popMatrix
  | translate (dx dy dz : R)
  | rotate (angle rx ry rz : R)
  | scale (sx sy sz : R)

namespace MatrixOp

variable {R : Type} [Field R]

/-- One matrix operation performed on the shader backend. -/
def exec (L : Matrix4Lib R) : MatrixOp R → RenderStateGL2 R → Option (RenderStateGL2 R)
  | MatrixOp.loadIdentity, s => some (RenderStateGL2.loadIdentity s)
  | MatrixOp.multiplyMatrix m, s => some (RenderStateGL2.multiplyMatrix m s)
  | MatrixOp.pushMatrix, s => some (RenderStateGL2.pushMatrix s)
  | MatrixOp.popMatrix, s => RenderStateGL2.popMatrix s
  | MatrixOp.translate dx dy dz, s => some (RenderStateGL2.translate L dx dy dz s)
  | MatrixOp.rotate angle rx ry rz, s => some (RenderStateGL2.rotate L angle rx ry rz s)
  | MatrixOp.scale sx sy sz, s => some (RenderStateGL2.scale L sx sy sz s)

/-- The operations performed in order; no result as soon as one of them has none. -/
def execAll (L : Matrix4Lib R) : List (MatrixOp R) → RenderStateGL2 R → Option (RenderStateGL2 R)
  | [], s => some s
  | op :: ops, s =>
    match exec L op s with
    | none => none
    | some s1 => execAll L ops s1

/-- The sequence is stack-balanced from depth `d`: no `popMatrix` at depth 0 and depth 0 at the
end. The current matrix may be changed at any depth. -/
def balanced : Nat → List (MatrixOp R) → Bool
  | d, [] => d == 0
  | d, MatrixOp.pushMatrix :: ops => balanced (d + 1) ops
  | 0, MatrixOp.popMatrix :: _ => false
  | d + 1, MatrixOp.popMatrix :: ops => balanced d ops
  | d, MatrixOp.loadIdentity :: ops => balanced d ops
  | d, MatrixOp.multiplyMatrix _ :: ops => balanced d ops
  | d, MatrixOp.translate _ _ _ :: ops => balanced d ops
  | d, MatrixOp.rotate _ _ _ _ :: ops => balanced d ops
  | d, MatrixOp.scale _ _ _ :: ops => balanced d ops

/-- After a prefix with `d` matrices pushed and not yet popped, run from `s0`: the selected mode
is unchanged, only its current matrix and saved stack may differ from those of `s0`, and the
saved stack is that of `s0` with `d` matrices on top. -/
def Within (d : Nat) (s0 s1 : RenderStateGL2 R) : Prop :=
  ∃ (cur : matrix4 R) (pushed : List (matrix4 R)),
    s1.m_matrixMode = s0.m_matrixMode ∧
    s1.m_matrix = Function.update s0.m_matrix s0.m_matrixMode cur ∧
    s1.m_matrixStack = Function.update s0.m_matrixStack s0.m_matrixMode
      (pushed ++ s0.m_matrixStack s0.m_matrixMode) ∧
    s1.m_materialStack = s0.m_materialStack ∧ s1.gl = s0.gl ∧
    pushed.length = d

end MatrixOp

/-- The camera transform of the sample scene followed by a pushed and popped translation, as
matrix operations. -/
def sampleOps : List (MatrixOp ℚ) :=
  [ MatrixOp.translate 0 (-1 / 2) (-5),
    MatrixOp.rotate 21 1 0 0,
    MatrixOp.scale (2 / 5) (2 / 5) (2 / 5),
    MatrixOp.pushMatrix,
    MatrixOp.translate 0 2 0,
    MatrixOp.popMatrix ]

/-! ## Procedural animation (`Scene::animate`, `DragonScene::animate`) -/

/-- The C library function `fmod(x, y)` for `y ≠ 0`: `x - y * q` with `q` the quotient `x / y`
truncated toward zero. -/
def fmod {α : Type} [LinearOrderedField α] [FloorRing α] (x y : α) : α :=
  x - y * (if 0 ≤ x / y then (⌊x / y⌋ : α) else (⌈x / y⌉ : α))

/-- The `switch(m_camera)` of `Scene::animate` (426-438): the value assigned to
`m_thetaCamera.y`. `none` stands for a value of `m_camera` that is none of the three
enumerators; it takes the `default:` label, which is also the one of `Camera_Static`. -/
def Scene.cameraYaw {R : Type} [Field R] (mode : Option Camera) (angle : R) : R :=
  match mode with
  | some Camera.Camera_Jumping => angle
  | some Camera.Camera_Flying => -angle
  | _ => 0.0

/-- `Scene::animate` (407-439). `now` is the value returned by `currentTime()`, and
`dragonAnimate` is `Dragon::animate(t)` (`Dragon.cpp` is not among the sources); `setAlpha` and
`setBeta` write the members read by `alpha()` and `beta()`. -/
noncomputable def Scene.animate (dragonAnimate : ℝ → Dragon ℝ → Dragon ℝ) (now : ℝ)
    (sc : Scene ℝ) : Scene ℝ :=
  let t := now - sc.m_started
  let angle := fmod (t * 45.0) 360.0
  let d0 := { dragonAnimate t (sc.m_dragons 0) with
              alpha := Real.cos (t * 3.5 + Real.pi) }
  let d1 := { dragonAnimate t (sc.m_dragons 1) with
              alpha := angle
              beta := Real.cos (t * 3.5) * Real.cos t * Real.cos t }
  let d2 := { dragonAnimate t (sc.m_dragons 2) with
              alpha := angle
              beta := 1.20 * Real.sqrt |Real.cos (5.0 * t) - Real.cos (6.0 * t)
                        + Real.cos (7.0 * t)| }
  { sc with
    m_dragons := ![d0, d1, d2]
    m_thetaCamera := { sc.m_thetaCamera with y := Scene.cameraYaw (some sc.m_camera) angle } }

/-- The pose members of the `Dragon` objects of `DragonScene` that `DragonScene.cpp` writes
(the class is declared in `Dragon.h`). -/
structure DragonPose (R : Type) where
  theta_jaw : R
  theta_head_y : R
  theta_head_z : R
  theta_neck : R
  theta_wing : R
  theta_wing_joint : R
  theta_front_legs : R
  theta_back_legs : R
  theta_tail : R
  theta_paw : R
  alpha : R
  beta : R

/-- `DragonScene::animateDragon` (341-351); `pow(x, 2.0)` is the square. -/
noncomputable def DragonScene.animateDragon (d : DragonPose ℝ) (t : ℝ) : DragonPose ℝ :=
  { d with
    theta_jaw := 10.0 * spaced_cos t 5.0 2.0 + 10.0
    theta_head_y := 45.0 * spaced_cos t 5.0 2.0
    theta_neck := 5.0 * Real.cos (t * 3.0)
    theta_wing := 45.0 * Real.cos (t * 3.5)
    theta_wing_joint := 60.0 - 30.0 * |Real.cos (t * 3.5) * Real.cos t|
    theta_front_legs := 10.0 * Real.cos (t * 3.0) + 40.0 + 45.0
    theta_back_legs := 10.0 * Real.cos (t * 3.0) + 80.0 + 45.0
    theta_tail := 15.0 * Real.cos ((t * 0.3) ^ 2) * Real.cos (6.0 * t * 0.3) }

/-- `DragonScene::animate` (266-315), acting on the scene and its three dragons; `t` is the
clock reading `(float)clock() / CLOCKS_PER_SEC`. -/
noncomputable def DragonScene.animate (t : ℝ)
    (st : DragonScene × (Fin 3 → DragonPose ℝ)) : DragonScene × (Fin 3 → DragonPose ℝ) :=
  let angle := fmod (t * 45.0) 360.0
  let d0 := { DragonScene.animateDragon (st.2 0) t with
              alpha := Real.cos (t * 3.5 + Real.pi)
              theta_head_z := -45.0
              theta_paw := 60.0 }
  let d1 := { DragonScene.animateDragon (st.2 1) t with
              alpha := angle
              beta := Real.cos (t * 3.5) * Real.cos t * Real.cos t
              theta_head_z := -30.0
              theta_neck := 30.0
              theta_paw := 60.0 }
  let d2 := { DragonScene.animateDragon (st.2 2) t with
              alpha := angle
              beta := 1.20 * Real.sqrt |Real.cos (5.0 * t) - Real.cos (6.0 * t)
                        + Real.cos (7.0 * t)|
              theta_wing := 0.0
              theta_wing_joint := 20.0
              theta_neck := 30.0
              theta_paw := 60.0
              theta_head_z := 60.0 * spaced_cos t 1.0 2.0 - 30.0
              theta_jaw := 10.0 * spaced_cos t 1.0 2.0 + 10.0 }
  ({ st.1 with invalidated := st.1.invalidated + 1 }, ![d0, d1, d2])

/-- A dragon pose with every member zero. -/
noncomputable def zeroPose : DragonPose ℝ :=
  { theta_jaw := 0, theta_head_y := 0, theta_head_z := 0, theta_neck := 0, theta_wing := 0,
    theta_wing_joint := 0, theta_front_legs := 0, theta_back_legs := 0, theta_tail := 0,
    theta_paw := 0, alpha := 0, beta := 0 }

/-- A `DragonScene` with three dragons in the zero pose. -/
noncomputable def restingDragons : DragonScene × (Fin 3 → DragonPose ℝ) :=
  (sampleDragonScene, fun _ => zeroPose)

/-- The same scene, the hovering dragon (dragon 0) having `beta = 1`. -/
noncomputable def swayedDragons : DragonScene × (Fin 3 → DragonPose ℝ) :=
  (sampleDragonScene, ![{ zeroPose with beta := 1 }, zeroPose, zeroPose])

/-- A dragon of `Scene` over the reals with a sample pose. -/
noncomputable def realDragon : Dragon ℝ :=
  { alpha := 0, beta := 0, frontLegsAngle := 95,
    tongueMaterial := debugMaterial, scalesMaterial := debugMaterial,
    wingMaterial := debugMaterial, detailLevel := 4 }

/-- A scene over the reals in the state left by `Scene::reset()` at clock reading 10. -/
noncomputable def realScene : Scene ℝ :=
  { m_camera := Camera.Camera_Static
    m_exportQueued := false
    m_sigma := 2 / 5
    m_delta := ⟨0, -1 / 2, -5⟩
    m_theta := ⟨21, -37, 0⟩
    m_thetaCamera := ⟨0, 0, 0⟩
    m_selected := 0
    m_detailLevel := 4
    m_started := 10
    m_debugDragon := realDragon
    m_dragons := fun _ => realDragon
    floorMaterial := debugMaterial }

/-! ## Shader loading (`RenderStateGL2.cpp` 217-321) -/

section WaveformLemmas

variable {α : Type} [LinearOrderedField α] [FloorRing α]

theorem sawtooth_eq_fract (t : α) : sawtooth t = Int.fract t := rfl

theorem periodPos_eq (t w a : α) (h : 0 < w + a) :
    periodPos t w a = (w + a) * sawtooth (t / (w + a)) := by
  unfold periodPos sawtooth
  have h0 : w + a ≠ 0 := ne_of_gt h
  field_simp

theorem periodPos_nonneg (t w a : α) (h : 0 < w + a) : 0 ≤ periodPos t w a := by
  rw [periodPos_eq t w a h, sawtooth_eq_fract]
  exact mul_nonneg h.le (Int.fract_nonneg _)

theorem periodPos_lt (t w a : α) (h : 0 < w + a) : periodPos t w a < w + a := by
  rw [periodPos_eq t w a h, sawtooth_eq_fract]
  calc (w + a) * Int.fract (t / (w + a)) < (w + a) * 1 :=
        mul_lt_mul_of_pos_left (Int.fract_lt_one _) h
    _ = w + a := mul_one _

theorem sawtooth_gt_iff (t w a : α) (h : 0 < w + a) :
    sawtooth (t / (w + a)) > w / (w + a) ↔ w < periodPos t w a := by
  rw [periodPos_eq t w a h, gt_iff_lt, div_lt_iff₀ h, mul_comm]

theorem spaced_rect_eq (t w a : α) (h : 0 < w + a) :
    spaced_rect t w a = if w < periodPos t w a then 1 else 0 := by
  unfold spaced_rect
  simp only [sawtooth_gt_iff t w a h]

/-- In the active window the shifted sawtooth is `(p - w) / (w + a)`. -/
theorem sawtooth_shift_active (x w a : α) (hw : 0 < w) (ha : 0 < a)
    (hp : w < periodPos x w a) :
    sawtooth ((x - w) / (w + a)) = (periodPos x w a - w) / (w + a) := by
  have h : 0 < w + a := add_pos hw ha
  have h0 : w + a ≠ 0 := ne_of_gt h
  have hlt := periodPos_lt x w a h
  rw [sawtooth_eq_fract]
  have hx : (x - w) / (w + a) = (periodPos x w a - w) / (w + a) + (⌊x / (w + a)⌋ : α) := by
    unfold periodPos
    field_simp
    ring
  rw [hx, Int.fract_add_int, Int.fract_eq_iff]
  refine ⟨div_nonneg (by linarith) h.le, ?_, 0, by simp⟩
  rw [div_lt_one h]
  linarith

theorem spaced_sawtooth_quiet (x w a : α) (hw : 0 < w) (ha : 0 < a)
    (hp : periodPos x w a ≤ w) : spaced_sawtooth x w a = 0 := by
  unfold spaced_sawtooth
  rw [spaced_rect_eq x w a (add_pos hw ha), if_neg (not_lt.mpr hp)]
  simp

theorem spaced_sawtooth_active (x w a : α) (hw : 0 < w) (ha : 0 < a)
    (hp : w < periodPos x w a) : spaced_sawtooth x w a = (periodPos x w a - w) / a := by
  unfold spaced_sawtooth
  have h : 0 < w + a := add_pos hw ha
  rw [spaced_rect_eq x w a h, if_pos hp, sawtooth_shift_active x w a hw ha hp]
  have h0 : w + a ≠ 0 := ne_of_gt h
  have ha0 : a ≠ 0 := ne_of_gt ha
  field_simp

/-- The sawtooth part of `spaced_sawtooth`, written with the fractional part of `x / (w + a)`. -/
theorem spaced_sawtooth_eq_max (x w a : α) (hw : 0 < w) (ha : 0 < a) :
    spaced_sawtooth x w a
      = max 0 (Int.fract (x / (w + a)) - w / (w + a)) * ((w + a) / a) := by
  have h : 0 < w + a := add_pos hw ha
  have h0 : w + a ≠ 0 := ne_of_gt h
  have ha0 : a ≠ 0 := ne_of_gt ha
  have hpe : Int.fract (x / (w + a)) = periodPos x w a / (w + a) := by
    rw [periodPos_eq x w a h, sawtooth_eq_fract]
    field_simp
  rcases le_or_lt (periodPos x w a) w with hp | hp
  · rw [spaced_sawtooth_quiet x w a hw ha hp, hpe, max_eq_left, zero_mul]
    rw [sub_nonpos]
    exact div_le_div_of_nonneg_right hp h.le
  · rw [spaced_sawtooth_active x w a hw ha hp, hpe, max_eq_right]
    · field_simp
    · rw [sub_nonneg]
      exact div_le_div_of_nonneg_right hp.le h.le

theorem spaced_sawtooth_nonneg (x w a : α) (hw : 0 < w) (ha : 0 < a) :
    0 ≤ spaced_sawtooth x w a := by
  rcases le_or_lt (periodPos x w a) w with hp | hp
  · rw [spaced_sawtooth_quiet x w a hw ha hp]
  · rw [spaced_sawtooth_active x w a hw ha hp]
    exact div_nonneg (by linarith) ha.le

theorem spaced_sawtooth_lt_one (x w a : α) (hw : 0 < w) (ha : 0 < a) :
    spaced_sawtooth x w a < 1 := by
  rcases le_or_lt (periodPos x w a) w with hp | hp
  · rw [spaced_sawtooth_quiet x w a hw ha hp]
    exact zero_lt_one
  · rw [spaced_sawtooth_active x w a hw ha hp, div_lt_one ha]
    have := periodPos_lt x w a (add_pos hw ha)
    linarith

theorem periodPos_window_start (w a : α) (hw : 0 < w) (ha : 0 < a) (k : ℤ) :
    periodPos ((k : α) * (w + a) + w) w a = w := by
  have h : 0 < w + a := add_pos hw ha
  have h0 : w + a ≠ 0 := ne_of_gt h
  have hfl : ⌊((k : α) * (w + a) + w) / (w + a)⌋ = k := by
    rw [Int.floor_eq_iff]
    constructor
    · rw [le_div_iff₀ h]
      linarith
    · rw [div_lt_iff₀ h]
      linarith
  unfold periodPos
  rw [hfl]
  ring

end WaveformLemmas

/-- The cosine pulse as a function of the fractional part of `t / (w + a)`. -/
theorem spaced_cos_eq_comp_fract (t w a : ℝ) (hw : 0 < w) (ha : 0 < a) :
    spaced_cos t w a
      = ((fun u : ℝ => Real.cos (2 * Real.pi * (max 0 (u - w / (w + a)) * ((w + a) / a))
            + Real.pi / 2)) ∘ Int.fract) (t / (w + a)) := by
  unfold spaced_cos
  rw [spaced_sawtooth_eq_max t w a hw ha]
  rfl

theorem spaced_cos_continuous (w a : ℝ) (hw : 0 < w) (ha : 0 < a) :
    Continuous (fun t => spaced_cos t w a) := by
  have h : 0 < w + a := add_pos hw ha
  have h0 : w + a ≠ 0 := ne_of_gt h
  have ha0 : a ≠ 0 := ne_of_gt ha
  have hfun : (fun t => spaced_cos t w a)
      = ((fun u : ℝ => Real.cos (2 * Real.pi * (max 0 (u - w / (w + a)) * ((w + a) / a))
            + Real.pi / 2)) ∘ Int.fract) ∘ (fun t : ℝ => t / (w + a)) := by
    funext t
    exact spaced_cos_eq_comp_fract t w a hw ha
  rw [hfun]
  refine Continuous.comp (ContinuousOn.comp_fract'' ?_ ?_) (continuous_id.div_const _)
  · apply Continuous.continuousOn
    fun_prop
  · have hc : 0 < w / (w + a) := div_pos hw h
    have e0 : max 0 ((0 : ℝ) - w / (w + a)) = 0 := max_eq_left (by linarith)
    have h1 : (0 : ℝ) ≤ 1 - w / (w + a) := by
      rw [sub_nonneg, div_le_one h]
      linarith
    have e1 : max 0 ((1 : ℝ) - w / (w + a)) * ((w + a) / a) = 1 := by
      rw [max_eq_right h1]
      field_simp
    simp only [e0, e1, zero_mul, mul_zero, zero_add, mul_one]
    rw [Real.cos_pi_div_two, add_comm, Real.cos_add_two_pi, Real.cos_pi_div_two]

/-! ## Claims about the waveform library -/

/-- C8: `sawtooth(t) = t - floor(t)`, its value lies in `[0, 1)` and it has period 1, for every
`t` of an exact ordered field (in particular every real `t`, negative ones included). -/
theorem sawtooth_spec {α : Type} [LinearOrderedField α] [FloorRing α] (t : α) :
    sawtooth t = t - (⌊t⌋ : α) ∧ 0 ≤ sawtooth t ∧ sawtooth t < 1 ∧
      sawtooth (t + 1) = sawtooth t := by
  refine ⟨rfl, ?_, ?_, ?_⟩
  · rw [sawtooth_eq_fract]; exact Int.fract_nonneg t
  · rw [sawtooth_eq_fract]; exact Int.fract_lt_one t
  · rw [sawtooth_eq_fract, sawtooth_eq_fract]; exact Int.fract_add_one t

/-- C5: for `w, a > 0`, `spaced_rect(t, w, a)` is exactly 0 or 1; with `p` the position of `t`
inside its period (`0 ≤ p < w + a`), it is 1 iff `w < p < w + a`, and 0 when `0 ≤ p ≤ w`, in
particular at the boundary `p = w`. -/
theorem spaced_rect_spec {α : Type} [LinearOrderedField α] [FloorRing α] (t w a : α)
    (hw : 0 < w) (ha : 0 < a) :
    (spaced_rect t w a = 0 ∨ spaced_rect t w a = 1) ∧
    (0 ≤ periodPos t w a ∧ periodPos t w a < w + a) ∧
    (spaced_rect t w a = 1 ↔ w < periodPos t w a ∧ periodPos t w a < w + a) ∧
    (0 ≤ periodPos t w a ∧ periodPos t w a ≤ w → spaced_rect t w a = 0) ∧
    (periodPos t w a = w → spaced_rect t w a = 0) := by
  have h : 0 < w + a := add_pos hw ha
  have hlt := periodPos_lt t w a h
  have hnn := periodPos_nonneg t w a h
  rw [spaced_rect_eq t w a h]
  refine ⟨?_, ⟨hnn, hlt⟩, ?_, ?_, ?_⟩
  · by_cases hp : w < periodPos t w a
    · right; rw [if_pos hp]
    · left; rw [if_neg hp]
  · constructor
    · intro h1
      by_cases hp : w < periodPos t w a
      · exact ⟨hp, hlt⟩
      · rw [if_neg hp] at h1
        exact absurd h1 zero_ne_one
    · rintro ⟨hp, _⟩
      rw [if_pos hp]
  · rintro ⟨_, hp⟩
    rw [if_neg (not_lt.mpr hp)]
  · intro hp
    rw [if_neg (not_lt.mpr hp.le)]

/-- Witness for C5 at `t = 11/2`, `w = 5`, `a = 2` over the rationals. -/
theorem spaced_rect_spec_witness :
    (0 : ℚ) < 5 ∧ (0 : ℚ) < 2 ∧
    ((spaced_rect (11 / 2 : ℚ) 5 2 = 0 ∨ spaced_rect (11 / 2 : ℚ) 5 2 = 1) ∧
    (0 ≤ periodPos (11 / 2 : ℚ) 5 2 ∧ periodPos (11 / 2 : ℚ) 5 2 < 5 + 2) ∧
    (spaced_rect (11 / 2 : ℚ) 5 2 = 1 ↔
      5 < periodPos (11 / 2 : ℚ) 5 2 ∧ periodPos (11 / 2 : ℚ) 5 2 < 5 + 2) ∧
    (0 ≤ periodPos (11 / 2 : ℚ) 5 2 ∧ periodPos (11 / 2 : ℚ) 5 2 ≤ 5 →
      spaced_rect (11 / 2 : ℚ) 5 2 = 0) ∧
    (periodPos (11 / 2 : ℚ) 5 2 = 5 → spaced_rect (11 / 2 : ℚ) 5 2 = 0)) :=
  ⟨by norm_num, by norm_num, spaced_rect_spec (11 / 2) 5 2 (by norm_num) (by norm_num)⟩

/-- C6: for `w, a > 0`, `spaced_sawtooth(x, w, a)` is the product
`spaced_rect * sawtooth((x-w)/(w+a)) * (w+a)/a`; it is 0 when `p ≤ w`, equals `(p - w)/a` when
`w < p < w + a`, and always lies in `[0, 1)`. -/
theorem spaced_sawtooth_spec {α : Type} [LinearOrderedField α] [FloorRing α] (x w a : α)
    (hw : 0 < w) (ha : 0 < a) :
    spaced_sawtooth x w a
      = spaced_rect x w a * sawtooth ((x - w) / (w + a)) * ((w + a) / a) ∧
    (periodPos x w a ≤ w → spaced_sawtooth x w a = 0) ∧
    (w < periodPos x w a → periodPos x w a < w + a →
      spaced_sawtooth x w a = (periodPos x w a - w) / a) ∧
    0 ≤ spaced_sawtooth x w a ∧ spaced_sawtooth x w a < 1 :=
  ⟨rfl, spaced_sawtooth_quiet x w a hw ha,
    fun hp _ => spaced_sawtooth_active x w a hw ha hp,
    spaced_sawtooth_nonneg x w a hw ha, spaced_sawtooth_lt_one x w a hw ha⟩

/-- Witness for C6 at `x = 6`, `w = 5`, `a = 2` over the rationals. -/
theorem spaced_sawtooth_spec_witness :
    (0 : ℚ) < 5 ∧ (0 : ℚ) < 2 ∧
    (spaced_sawtooth (6 : ℚ) 5 2
      = spaced_rect (6 : ℚ) 5 2 * sawtooth (((6 : ℚ) - 5) / (5 + 2)) * ((5 + 2) / 2) ∧
    (periodPos (6 : ℚ) 5 2 ≤ 5 → spaced_sawtooth (6 : ℚ) 5 2 = 0) ∧
    (5 < periodPos (6 : ℚ) 5 2 → periodPos (6 : ℚ) 5 2 < 5 + 2 →
      spaced_sawtooth (6 : ℚ) 5 2 = (periodPos (6 : ℚ) 5 2 - 5) / 2) ∧
    0 ≤ spaced_sawtooth (6 : ℚ) 5 2 ∧ spaced_sawtooth (6 : ℚ) 5 2 < 1) :=
  ⟨by norm_num, by norm_num, spaced_sawtooth_spec 6 5 2 (by norm_num) (by norm_num)⟩

/-- C7: for `w, a > 0`, `spaced_cos(t, w, a)` is 0 for every `t` in a quiet window (`p ≤ w`) and
at the instants `t = k (w+a) + w` where an active window starts; as a function of `t` it is
continuous at every window start, at every window end `t = k (w+a)`, and at every `t`. -/
theorem spaced_cos_spec (w a : ℝ) (hw : 0 < w) (ha : 0 < a) :
    (∀ t : ℝ, periodPos t w a ≤ w → spaced_cos t w a = 0) ∧
    (∀ k : ℤ, spaced_cos ((k : ℝ) * (w + a) + w) w a = 0) ∧
    (∀ k : ℤ, ContinuousAt (fun t => spaced_cos t w a) ((k : ℝ) * (w + a) + w)) ∧
    (∀ k : ℤ, ContinuousAt (fun t => spaced_cos t w a) ((k : ℝ) * (w + a))) ∧
    Continuous (fun t => spaced_cos t w a) := by
  have hq : ∀ t : ℝ, periodPos t w a ≤ w → spaced_cos t w a = 0 := by
    intro t hp
    unfold spaced_cos
    rw [spaced_sawtooth_quiet t w a hw ha hp, mul_zero, zero_add, Real.cos_pi_div_two]
  have hc := spaced_cos_continuous w a hw ha
  exact ⟨hq, fun k => hq _ (le_of_eq (periodPos_window_start w a hw ha k)),
    fun k => hc.continuousAt, fun k => hc.continuousAt, hc⟩

/-- Witness for C7 with the body-joint window `w = 5`, `a = 2`. -/
theorem spaced_cos_spec_witness :
    (0 : ℝ) < 5 ∧ (0 : ℝ) < 2 ∧
    ((∀ t : ℝ, periodPos t 5 2 ≤ 5 → spaced_cos t 5 2 = 0) ∧
    (∀ k : ℤ, spaced_cos ((k : ℝ) * (5 + 2) + 5) 5 2 = 0) ∧
    (∀ k : ℤ, ContinuousAt (fun t => spaced_cos t 5 2) ((k : ℝ) * (5 + 2) + 5)) ∧
    (∀ k : ℤ, ContinuousAt (fun t => spaced_cos t 5 2) ((k : ℝ) * (5 + 2))) ∧
    Continuous (fun t => spaced_cos t 5 2)) :=
  ⟨by norm_num, by norm_num, spaced_cos_spec 5 2 (by norm_num) (by norm_num)⟩

/-! ## Material stack -/

namespace RenderStateGL2

variable {R : Type}

theorem accepts_iff (k : UniformKind) (l : Int) (gl : GLShaderContext R) :
    gl.accepts k l = true ↔
      gl.currentProgram ≠ 0 ∧ l ≠ -1 ∧ gl.uniformKind gl.currentProgram l = some k := by
  unfold GLShaderContext.accepts
  simp only [Bool.and_eq_true, decide_eq_true_eq, and_assoc]

/-- `beginApplyMaterial` writes neither a member of the object nor, in the context, the program
objects, the program in use, the attribute stack, the depth test or a matrix uniform. -/
theorem beginApplyMaterial_frame (m : Material R) (s : RenderStateGL2 R) :
    (beginApplyMaterial m s).m_program = s.m_program ∧
    (beginApplyMaterial m s).gl.currentProgram = s.gl.currentProgram ∧
    (beginApplyMaterial m s).gl.uniformLocation = s.gl.uniformLocation ∧
    (beginApplyMaterial m s).gl.uniformKind = s.gl.uniformKind ∧
    (beginApplyMaterial m s).gl.enableStack = s.gl.enableStack ∧
    (beginApplyMaterial m s).gl.depthTest = s.gl.depthTest ∧
    (beginApplyMaterial m s).gl.matrixUniform = s.gl.matrixUniform := by
  by_cases h : m.texture = 0 <;>
    simp [beginApplyMaterial, setUniformValue, setUniformValueFloat, setUniformValueInt,
      GLShaderContext.glUniform4fv, GLShaderContext.glUniform1f, GLShaderContext.glUniform1i, h]

theorem endApplyMaterial_frame (m : Material R) (s : RenderStateGL2 R) :
    (endApplyMaterial m s).m_program = s.m_program ∧
    (endApplyMaterial m s).gl.currentProgram = s.gl.currentProgram ∧
    (endApplyMaterial m s).gl.uniformLocation = s.gl.uniformLocation ∧
    (endApplyMaterial m s).gl.uniformKind = s.gl.uniformKind ∧
    (endApplyMaterial m s).gl.vec4Uniform = s.gl.vec4Uniform ∧
    (endApplyMaterial m s).gl.floatUniform = s.gl.floatUniform ∧
    (endApplyMaterial m s).gl.intUniform = s.gl.intUniform := by
  unfold endApplyMaterial
  split <;> exact ⟨rfl, rfl, rfl, rfl, rfl, rfl, rfl⟩

/-- Whether the material uniforms can be uploaded depends only on `m_program`, the program in
use and the program objects. -/
theorem materialUniformsActive_congr (s t : RenderStateGL2 R)
    (h1 : t.m_program = s.m_program) (h2 : t.gl.currentProgram = s.gl.currentProgram)
    (h3 : t.gl.uniformLocation = s.gl.uniformLocation)
    (h4 : t.gl.uniformKind = s.gl.uniformKind) (h : MaterialUniformsActive s) :
    MaterialUniformsActive t := by
  obtain ⟨hp, hu, ha, hd, hs, hsh, hh, n1, n2, n3⟩ := h
  have e : ∀ k l, t.gl.accepts k l = s.gl.accepts k l := by
    intro k l
    unfold GLShaderContext.accepts
    rw [h2, h4]
  exact ⟨by rw [h1]; exact hp, by rw [h1, h2]; exact hu, by rw [e, h1, h3]; exact ha,
    by rw [e, h1, h3]; exact hd, by rw [e, h1, h3]; exact hs, by rw [e, h1, h3]; exact hsh,
    by rw [e, h1, h3]; exact hh, by rw [h1, h3]; exact n1, by rw [h1, h3]; exact n2,
    by rw [h1, h3]; exact n3⟩

theorem materialUniformsActive_beginApplyMaterial (m : Material R) (s : RenderStateGL2 R)
    (h : MaterialUniformsActive s) : MaterialUniformsActive (beginApplyMaterial m s) := by
  obtain ⟨g1, g2, g3, g4, _⟩ := beginApplyMaterial_frame m s
  exact materialUniformsActive_congr s _ g1 g2 g3 g4 h

theorem materialUniformsActive_endApplyMaterial (m : Material R) (s : RenderStateGL2 R)
    (h : MaterialUniformsActive s) : MaterialUniformsActive (endApplyMaterial m s) := by
  obtain ⟨g1, g2, g3, g4, _⟩ := endApplyMaterial_frame m s
  exact materialUniformsActive_congr s _ g1 g2 g3 g4 h

/-- With the material uniforms active, `beginApplyMaterial(m)` makes `m` the applied
material. -/
theorem appliedMaterial_beginApplyMaterial (m : Material R) (s : RenderStateGL2 R)
    (h : MaterialUniformsActive s) :
    appliedMaterial (beginApplyMaterial m s) = m := by
  obtain ⟨hp, hu, ha, hd, hs, hsh, hh, n1, n2, n3⟩ := h
  obtain ⟨_, a2, a3⟩ := (accepts_iff _ _ _).mp ha
  obtain ⟨_, d2, d3⟩ := (accepts_iff _ _ _).mp hd
  obtain ⟨_, s2, s3⟩ := (accepts_iff _ _ _).mp hs
  obtain ⟨_, f2, f3⟩ := (accepts_iff _ _ _).mp hsh
  obtain ⟨_, t2, t3⟩ := (accepts_iff _ _ _).mp hh
  rw [hu] at a3 d3 s3 f3 t3
  unfold appliedMaterial beginApplyMaterial
  cases m with
  | mk aa ad asp ash atex =>
    by_cases ht : atex = 0 <;>
      simp [setUniformValue, setUniformValueFloat, setUniformValueInt,
        GLShaderContext.glUniform4fv, GLShaderContext.glUniform1f, GLShaderContext.glUniform1i,
        GLShaderContext.glGetUniformLocation, GLShaderContext.accepts, hp, hu, ht,
        a2, a3, d2, d3, s2, s3, f2, f3, t2, t3, n1, n2, n3, Function.update_apply]

theorem materialStack_beginApplyMaterial (m : Material R) (s : RenderStateGL2 R) :
    (beginApplyMaterial m s).m_materialStack = s.m_materialStack := by
  by_cases h : m.texture = 0 <;>
    simp [beginApplyMaterial, setUniformValue, setUniformValueFloat, setUniformValueInt, h]

theorem materialStack_endApplyMaterial (m : Material R) (s : RenderStateGL2 R) :
    (endApplyMaterial m s).m_materialStack = s.m_materialStack := by
  unfold endApplyMaterial
  split <;> rfl

theorem topApplied_pushMaterial (m : Material R) (s : RenderStateGL2 R)
    (ha : MaterialUniformsActive s) :
    TopApplied (pushMaterial m s) ∧ MaterialUniformsActive (pushMaterial m s) := by
  have ha1 : MaterialUniformsActive { s with m_materialStack := m :: s.m_materialStack } :=
    materialUniformsActive_congr s _ rfl rfl rfl rfl ha
  refine ⟨?_, materialUniformsActive_beginApplyMaterial m _ ha1⟩
  intro top rest h
  unfold pushMaterial at h ⊢
  rw [materialStack_beginApplyMaterial] at h
  rw [appliedMaterial_beginApplyMaterial m _ ha1]
  exact (List.cons.inj h).1

theorem topApplied_popMaterial (s s1 : RenderStateGL2 R) (ha : MaterialUniformsActive s)
    (h : popMaterial s = some s1) :
    TopApplied s1 ∧ MaterialUniformsActive s1 := by
  unfold popMaterial at h
  cases hs : s.m_materialStack with
  | nil => simp [hs] at h
  | cons m rest =>
    simp only [hs] at h
    have ha1 : MaterialUniformsActive (endApplyMaterial m { s with m_materialStack := rest }) :=
      materialUniformsActive_endApplyMaterial m _
        (materialUniformsActive_congr s _ rfl rfl rfl rfl ha)
    cases hr : rest with
    | nil =>
      simp only [materialStack_endApplyMaterial, hr] at h
      have := Option.some.inj h
      subst this
      refine ⟨?_, hr ▸ ha1⟩
      intro top tl htop
      rw [materialStack_endApplyMaterial] at htop
      simp at htop
    | cons top0 tl0 =>
      simp only [materialStack_endApplyMaterial, hr] at h
      have := Option.some.inj h
      subst this
      refine ⟨?_, materialUniformsActive_beginApplyMaterial top0 _ (hr ▸ ha1)⟩
      intro top tl htop
      rw [materialStack_beginApplyMaterial, materialStack_endApplyMaterial] at htop
      rw [appliedMaterial_beginApplyMaterial top0 _ (hr ▸ ha1)]
      exact (List.cons.inj htop).1

/-- Shader backend, with the material uniforms active (a successfully linked program in use):
after every sequence of material calls that never pops an empty stack, the applied material is
the top of the stack whenever the stack is not empty (whatever the pipeline held before a first
push). -/
theorem topApplied_runMaterialCalls (cs : List (MaterialCall R)) (s s1 : RenderStateGL2 R)
    (ha : MaterialUniformsActive s) (h0 : TopApplied s) (h : runMaterialCalls cs s = some s1) :
    TopApplied s1 := by
  induction cs generalizing s with
  | nil =>
    simp only [runMaterialCalls] at h
    exact Option.some.inj h ▸ h0
  | cons c cs ih =>
    cases c with
    | pushMaterial m =>
      simp only [runMaterialCalls] at h
      exact ih _ (topApplied_pushMaterial m s ha).2 (topApplied_pushMaterial m s ha).1 h
    | popMaterial =>
      simp only [runMaterialCalls] at h
      cases hp : popMaterial s with
      | none => simp [hp] at h
      | some s2 =>
        simp only [hp] at h
        exact ih _ (topApplied_popMaterial s s2 ha hp).2 (topApplied_popMaterial s s2 ha hp).1 h

end RenderStateGL2

/-- C1 (failing input, fixed-function backend): from every state, `pushMaterial(A)` with the
textured material `A` (texture 5) followed by `pushMaterial(B)` with the untextured debug
material `B` leaves `B` on top of the stack while `GL_TEXTURE_2D` is still enabled with texture 5
bound, so the material applied to the pipeline is not the top of the stack. -/
theorem gl1_untextured_push_keeps_outer_texture (s : RenderStateGL1 ℚ) :
    ∃ s1, RenderStateGL1.runMaterialCalls
        [MaterialCall.pushMaterial texturedMaterial, MaterialCall.pushMaterial debugMaterial] s
        = some s1 ∧
      s1.m_materialStack.head? = some debugMaterial ∧
      (debugMaterial : Material ℚ).texture = 0 ∧
      s1.gl.texture2D = true ∧ s1.gl.boundTexture2D = 5 ∧
      RenderStateGL1.appliedMaterial s1 ≠ debugMaterial := by
  refine ⟨_, rfl, rfl, rfl, rfl, rfl, ?_⟩
  intro h
  have := congrArg Material.texture h
  revert this
  simp [RenderStateGL1.appliedMaterial, RenderStateGL1.pushMaterial,
    RenderStateGL1.beginApplyMaterial, texturedMaterial, debugMaterial]

/-- Fixed-function backend, from a state with `GL_TEXTURE_2D` disabled: after
`pushMaterial(A); pushMaterial(B); popMaterial()` the applied material is `A`. -/
theorem gl1_push_push_pop_applies_outer {R : Type} (A B : Material R) (s : RenderStateGL1 R)
    (h : s.gl.texture2D = false) :
    ∃ s1, RenderStateGL1.runMaterialCalls
        [MaterialCall.pushMaterial A, MaterialCall.pushMaterial B, MaterialCall.popMaterial] s
        = some s1 ∧
      RenderStateGL1.appliedMaterial s1 = A ∧ s1.m_materialStack = A :: s.m_materialStack := by
  cases A with
  | mk aa ad asp ash atex =>
    cases B with
    | mk ba bd bsp bsh btex =>
      by_cases hA : atex = 0 <;> by_cases hB : btex = 0 <;>
        simp [RenderStateGL1.runMaterialCalls, RenderStateGL1.pushMaterial,
          RenderStateGL1.popMaterial, RenderStateGL1.beginApplyMaterial,
          RenderStateGL1.endApplyMaterial, RenderStateGL1.appliedMaterial, hA, hB, h]

/-- Shader backend with the material uniforms active, same calls: the applied material is the
top of the stack. -/
theorem gl2_untextured_push_applies_top (s : RenderStateGL2 ℚ)
    (h : RenderStateGL2.MaterialUniformsActive s) :
    RenderStateGL2.appliedMaterial
      (RenderStateGL2.pushMaterial debugMaterial (RenderStateGL2.pushMaterial texturedMaterial s))
      = debugMaterial :=
  RenderStateGL2.appliedMaterial_beginApplyMaterial _ _
    (RenderStateGL2.materialUniformsActive_congr
      (RenderStateGL2.pushMaterial texturedMaterial s) _ rfl rfl rfl rfl
      (RenderStateGL2.topApplied_pushMaterial texturedMaterial s h).2)

/-! ## Matrix stack of the shader backend -/

/-- C2: in the shader backend, for every state (every matrix mode, current matrix and saved
stack) and every matrix `M`, `pushMatrix(); multiplyMatrix(M); popMatrix()` returns, leaves
`currentMatrix()` and the saved stack of the selected mode as before; in fact the whole render
state is as before. -/
theorem gl2_push_multiply_pop {R : Type} [Field R] (s : RenderStateGL2 R) (M : matrix4 R) :
    ∃ s1, RenderStateGL2.popMatrix
        (RenderStateGL2.multiplyMatrix M (RenderStateGL2.pushMatrix s)) = some s1 ∧
      RenderStateGL2.currentMatrix s1 = RenderStateGL2.currentMatrix s ∧
      s1.m_matrixMode = s.m_matrixMode ∧
      s1.m_matrixStack s.m_matrixMode = s.m_matrixStack s.m_matrixMode ∧
      s1 = s := by
  have h : RenderStateGL2.popMatrix
      (RenderStateGL2.multiplyMatrix M (RenderStateGL2.pushMatrix s)) = some s := by
    cases s
    simp [RenderStateGL2.popMatrix, RenderStateGL2.multiplyMatrix, RenderStateGL2.pushMatrix]
  exact ⟨s, h, rfl, rfl, rfl, rfl⟩

/-! ## Viewport and projection set-up -/

/-- The upload of a `vec4` uniform leaves every member of the object and, in the context,
everything but the `vec4` uniforms as it was. -/
theorem RenderStateGL2.setUniformValue_frame {R : Type} (name : String) (v : vec4 R)
    (s : RenderStateGL2 R) :
    (RenderStateGL2.setUniformValue name v s).m_drawNormals = s.m_drawNormals ∧
    (RenderStateGL2.setUniformValue name v s).m_projection = s.m_projection ∧
    (RenderStateGL2.setUniformValue name v s).m_wireframe = s.m_wireframe ∧
    (RenderStateGL2.setUniformValue name v s).m_bgColor = s.m_bgColor ∧
    (RenderStateGL2.setUniformValue name v s).m_ambient0 = s.m_ambient0 ∧
    (RenderStateGL2.setUniformValue name v s).m_diffuse0 = s.m_diffuse0 ∧
    (RenderStateGL2.setUniformValue name v s).m_specular0 = s.m_specular0 ∧
    (RenderStateGL2.setUniformValue name v s).m_light0_pos = s.m_light0_pos ∧
    (RenderStateGL2.setUniformValue name v s).m_vertexShader = s.m_vertexShader ∧
    (RenderStateGL2.setUniformValue name v s).m_pixelShader = s.m_pixelShader ∧
    (RenderStateGL2.setUniformValue name v s).m_program = s.m_program ∧
    (RenderStateGL2.setUniformValue name v s).m_modelViewMatrixLoc = s.m_modelViewMatrixLoc ∧
    (RenderStateGL2.setUniformValue name v s).m_projMatrixLoc = s.m_projMatrixLoc ∧
    (RenderStateGL2.setUniformValue name v s).m_positionAttr = s.m_positionAttr ∧
    (RenderStateGL2.setUniformValue name v s).m_normalAttr = s.m_normalAttr ∧
    (RenderStateGL2.setUniformValue name v s).m_texCoordsAttr = s.m_texCoordsAttr ∧
    (RenderStateGL2.setUniformValue name v s).m_matrixMode = s.m_matrixMode ∧
    (RenderStateGL2.setUniformValue name v s).m_matrix = s.m_matrix ∧
    (RenderStateGL2.setUniformValue name v s).m_matrixStack = s.m_matrixStack ∧
    (RenderStateGL2.setUniformValue name v s).m_materialStack = s.m_materialStack ∧
    (RenderStateGL2.setUniformValue name v s).gl.uniformLocation = s.gl.uniformLocation ∧
    (RenderStateGL2.setUniformValue name v s).gl.uniformKind = s.gl.uniformKind ∧
    (RenderStateGL2.setUniformValue name v s).gl.floatUniform = s.gl.floatUniform ∧
    (RenderStateGL2.setUniformValue name v s).gl.intUniform = s.gl.intUniform ∧
    (RenderStateGL2.setUniformValue name v s).gl.matrixUniform = s.gl.matrixUniform ∧
    (RenderStateGL2.setUniformValue name v s).gl.boundTexture2D = s.gl.boundTexture2D ∧
    (RenderStateGL2.setUniformValue name v s).gl.depthTest = s.gl.depthTest ∧
    (RenderStateGL2.setUniformValue name v s).gl.enableStack = s.gl.enableStack ∧
    (RenderStateGL2.setUniformValue name v s).gl.currentProgram = s.gl.currentProgram ∧
    (RenderStateGL2.setUniformValue name v s).gl.viewport = s.gl.viewport ∧
    (RenderStateGL2.setUniformValue name v s).gl.clearColor = s.gl.clearColor ∧
    (RenderStateGL2.setUniformValue name v s).gl.cleared = s.gl.cleared :=
  ⟨rfl, rfl, rfl, rfl, rfl, rfl, rfl, rfl, rfl, rfl, rfl, rfl, rfl, rfl, rfl, rfl,
    rfl, rfl, rfl, rfl, rfl, rfl, rfl, rfl, rfl, rfl, rfl, rfl, rfl, rfl, rfl, rfl⟩

theorem glPushMatrix_matrix {R : Type} (gl : GLFixedContext R) :
    gl.glPushMatrix.matrix = gl.matrix ∧ gl.glPushMatrix.matrixMode = gl.matrixMode := by
  unfold GLFixedContext.glPushMatrix
  split <;> exact ⟨rfl, rfl⟩

section Viewport

variable {R : Type} [LinearOrderedField R]

theorem gl2_setupViewport_projection (L : Matrix4Lib R) (w h : Int) (s : RenderStateGL2 R) :
    (RenderStateGL2.setupViewport L w h s).m_matrix MatrixMode.Projection =
      if s.m_projection then L.perspective 45.0 ((w : R) / (h : R)) 0.1 100.0
      else if w ≤ h then
        L.ortho (-1.0) 1.0 (-1.0 / ((w : R) / (h : R))) (1.0 / ((w : R) / (h : R))) (-10.0) 10.0
      else
        L.ortho (-1.0 * ((w : R) / (h : R))) (1.0 * ((w : R) / (h : R))) (-1.0) 1.0
          (-10.0) 10.0 := by
  unfold RenderStateGL2.setupViewport
  simp only [RenderStateGL2.setMatrixMode, RenderStateGL2.loadIdentity,
    RenderStateGL2.multiplyMatrix]
  split_ifs <;> simp

theorem gl2_beginFrame_projection (L : Matrix4Lib R) (w h : Int) (s : RenderStateGL2 R) :
    (RenderStateGL2.beginFrame L w h s).m_matrix MatrixMode.Projection =
      (RenderStateGL2.setupViewport L w h s).m_matrix MatrixMode.Projection := by
  rw [gl2_setupViewport_projection]
  unfold RenderStateGL2.beginFrame RenderStateGL2.setupViewport
  simp only [RenderStateGL2.setMatrixMode, RenderStateGL2.loadIdentity,
    RenderStateGL2.multiplyMatrix, RenderStateGL2.pushMatrix,
    RenderStateGL2.setUniformValue_frame]
  split_ifs <;> simp

theorem gl1_setupViewport_projection (L : Matrix4Lib R) (w h : Int) (s : RenderStateGL1 R) :
    (RenderStateGL1.setupViewport L w h s).gl.matrix MatrixMode.Projection =
      if s.m_projection then L.perspective 45.0 ((w : R) / (h : R)) 0.1 100.0
      else if w ≤ h then
        L.ortho (-1.0) 1.0 (-1.0 / ((w : R) / (h : R))) (1.0 / ((w : R) / (h : R))) (-10.0) 10.0
      else
        L.ortho (-1.0 * ((w : R) / (h : R))) (1.0 * ((w : R) / (h : R))) (-1.0) 1.0
          (-10.0) 10.0 := by
  unfold RenderStateGL1.setupViewport
  simp only [RenderStateGL1.setMatrixMode, RenderStateGL1.loadIdentity,
    RenderStateGL1.multiplyMatrix, GLFixedContext.glMatrixMode, GLFixedContext.glLoadIdentity,
    GLFixedContext.glMultMatrixf]
  split_ifs <;> simp

theorem viewport_setupGLViewport_projection (L : Matrix4Lib R) (pm : Bool) (w h : Int)
    (gl : GLFixedContext R) :
    (SceneViewport.setupGLViewport L pm w h gl).matrix MatrixMode.Projection =
      if pm then L.gluPerspective 45.0 ((w : R) / (h : R)) 0.1 100.0
      else if w ≤ h then
        L.glOrtho (-1.0) 1.0 (-1.0 * (h : R) / (w : R)) (1.0 * (h : R) / (w : R)) (-10.0) 10.0
      else
        L.glOrtho (-1.0 * (w : R) / (h : R)) (1.0 * (w : R) / (h : R)) (-1.0) 1.0
          (-10.0) 10.0 := by
  unfold SceneViewport.setupGLViewport
  simp only [GLFixedContext.glMatrixMode, GLFixedContext.glLoadIdentity,
    GLFixedContext.glMultMatrixf]
  split_ifs <;> simp

theorem gl1_beginFrame_projection (L : Matrix4Lib R) (w h : Int) (s : RenderStateGL1 R) :
    (RenderStateGL1.beginFrame L w h s).gl.matrix MatrixMode.Projection =
      (RenderStateGL1.setupViewport L w h s).gl.matrix MatrixMode.Projection := by
  unfold RenderStateGL1.beginFrame
  simp only [RenderStateGL1.loadIdentity, RenderStateGL1.pushMatrix,
    GLFixedContext.glLoadIdentity, RenderStateGL1.setMatrixMode, GLFixedContext.glMatrixMode,
    (glPushMatrix_matrix _).1, (glPushMatrix_matrix _).2]
  rw [Function.update_noteq (by decide), gl1_setupViewport_projection,
    gl1_setupViewport_projection]

end Viewport

/-- C9: with perspective mode on and `h > 0`, whatever the prior state (prior Projection matrix
included), `beginFrame(w, h)` and `setupViewport(w, h)` of the shader backend, and
`beginFrame(w, h)` and `setupViewport(w, h)` of the fixed-function backend, leave the
Projection matrix equal to
`matrix4::perspective(45, w/h, 0.1, 100)`. -/
theorem perspective_projection {R : Type} [LinearOrderedField R] (L : Matrix4Lib R)
    (w h : Int) (hh : 0 < h)
    (s2 : RenderStateGL2 R) (hp2 : s2.m_projection = true)
    (s1 : RenderStateGL1 R) (hp1 : s1.m_projection = true) :
    (RenderStateGL2.beginFrame L w h s2).m_matrix MatrixMode.Projection
        = L.perspective 45.0 ((w : R) / (h : R)) 0.1 100.0 ∧
    (RenderStateGL2.setupViewport L w h s2).m_matrix MatrixMode.Projection
        = L.perspective 45.0 ((w : R) / (h : R)) 0.1 100.0 ∧
    (RenderStateGL1.beginFrame L w h s1).gl.matrix MatrixMode.Projection
        = L.perspective 45.0 ((w : R) / (h : R)) 0.1 100.0 ∧
    (RenderStateGL1.setupViewport L w h s1).gl.matrix MatrixMode.Projection
        = L.perspective 45.0 ((w : R) / (h : R)) 0.1 100.0 ∧
    (h : R) ≠ 0 := by
  refine ⟨?_, ?_, ?_, ?_, ?_⟩
  · rw [gl2_beginFrame_projection, gl2_setupViewport_projection, if_pos hp2]
  · rw [gl2_setupViewport_projection, if_pos hp2]
  · rw [gl1_beginFrame_projection, gl1_setupViewport_projection, if_pos hp1]
  · rw [gl1_setupViewport_projection, if_pos hp1]
  · exact_mod_cast (ne_of_gt hh)

/-- C10: with perspective mode off and `w, h > 0`, `setupViewport(w, h)` of both backends (and
`SceneViewport::setupGLViewport`) sets the Projection matrix to the orthographic projection with
bounds `x ∈ [-1, 1]`, `y ∈ [-h/w, h/w]` when `w ≤ h`, and `x ∈ [-w/h, w/h]`, `y ∈ [-1, 1]`
when `w > h`, depth `[-10, 10]`; the larger dimension is scaled by `k = larger/smaller ≥ 1` and
`(right - left) / (top - bottom) = w/h` in both cases. -/
theorem ortho_projection {R : Type} [LinearOrderedField R] (L : Matrix4Lib R)
    (w h : Int) (hw : 0 < w) (hh : 0 < h)
    (s2 : RenderStateGL2 R) (hp2 : s2.m_projection = false)
    (s1 : RenderStateGL1 R) (hp1 : s1.m_projection = false)
    (gl : GLFixedContext R) :
    (w ≤ h →
      (RenderStateGL2.setupViewport L w h s2).m_matrix MatrixMode.Projection
        = L.ortho (-1) 1 (-((h : R) / (w : R))) ((h : R) / (w : R)) (-10) 10 ∧
      (RenderStateGL1.setupViewport L w h s1).gl.matrix MatrixMode.Projection
        = L.ortho (-1) 1 (-((h : R) / (w : R))) ((h : R) / (w : R)) (-10) 10 ∧
      (SceneViewport.setupGLViewport L false w h gl).matrix MatrixMode.Projection
        = L.glOrtho (-1) 1 (-((h : R) / (w : R))) ((h : R) / (w : R)) (-10) 10 ∧
      1 ≤ (h : R) / (w : R) ∧
      ((1 : R) - (-1)) / ((h : R) / (w : R) - (-((h : R) / (w : R)))) = (w : R) / (h : R)) ∧
    (h < w →
      (RenderStateGL2.setupViewport L w h s2).m_matrix MatrixMode.Projection
        = L.ortho (-((w : R) / (h : R))) ((w : R) / (h : R)) (-1) 1 (-10) 10 ∧
      (RenderStateGL1.setupViewport L w h s1).gl.matrix MatrixMode.Projection
        = L.ortho (-((w : R) / (h : R))) ((w : R) / (h : R)) (-1) 1 (-10) 10 ∧
      (SceneViewport.setupGLViewport L false w h gl).matrix MatrixMode.Projection
        = L.glOrtho (-((w : R) / (h : R))) ((w : R) / (h : R)) (-1) 1 (-10) 10 ∧
      1 ≤ (w : R) / (h : R) ∧
      ((w : R) / (h : R) - (-((w : R) / (h : R)))) / ((1 : R) - (-1)) = (w : R) / (h : R)) := by
  have hwR : (0 : R) < (w : R) := by exact_mod_cast hw
  have hhR : (0 : R) < (h : R) := by exact_mod_cast hh
  have hw0 : (w : R) ≠ 0 := ne_of_gt hwR
  have hh0 : (h : R) ≠ 0 := ne_of_gt hhR
  have e1 : (-1.0 : R) / ((w : R) / (h : R)) = -((h : R) / (w : R)) := by
    norm_num
    field_simp
  have e2 : (1.0 : R) / ((w : R) / (h : R)) = (h : R) / (w : R) := by
    norm_num
  have e3 : (-1.0 : R) * ((w : R) / (h : R)) = -((w : R) / (h : R)) := by
    norm_num
  have e4 : (1.0 : R) * ((w : R) / (h : R)) = (w : R) / (h : R) := by
    norm_num
  have e5 : (-1.0 : R) * (h : R) / (w : R) = -((h : R) / (w : R)) := by
    norm_num
    ring
  have e6 : (1.0 : R) * (h : R) / (w : R) = (h : R) / (w : R) := by
    norm_num
  have e7 : (-1.0 : R) * (w : R) / (h : R) = -((w : R) / (h : R)) := by
    norm_num
    ring
  have e8 : (1.0 : R) * (w : R) / (h : R) = (w : R) / (h : R) := by
    norm_num
  have n1 : (-1.0 : R) = -1 := by norm_num
  have n2 : (1.0 : R) = 1 := by norm_num
  have n3 : (-10.0 : R) = -10 := by norm_num
  have n4 : (10.0 : R) = 10 := by norm_num
  constructor
  · intro hle
    have hleR : (w : R) ≤ (h : R) := by exact_mod_cast hle
    refine ⟨?_, ?_, ?_, ?_, ?_⟩
    · rw [gl2_setupViewport_projection, hp2, if_neg Bool.false_ne_true, if_pos hle,
        e1, e2, n1, n2, n3, n4]
    · rw [gl1_setupViewport_projection, hp1, if_neg Bool.false_ne_true, if_pos hle,
        e1, e2, n1, n2, n3, n4]
    · rw [viewport_setupGLViewport_projection, if_neg Bool.false_ne_true, if_pos hle,
        e5, e6, n1, n2, n3, n4]
    · rw [one_le_div hwR]
      exact hleR
    · field_simp
      ring
  · intro hlt
    have hltR : (h : R) < (w : R) := by exact_mod_cast hlt
    have hnle : ¬ w ≤ h := not_le.mpr hlt
    refine ⟨?_, ?_, ?_, ?_, ?_⟩
    · rw [gl2_setupViewport_projection, hp2, if_neg Bool.false_ne_true, if_neg hnle,
        e3, e4, n1, n2, n3, n4]
    · rw [gl1_setupViewport_projection, hp1, if_neg Bool.false_ne_true, if_neg hnle,
        e3, e4, n1, n2, n3, n4]
    · rw [viewport_setupGLViewport_projection, if_neg Bool.false_ne_true, if_neg hnle,
        e7, e8, n1, n2, n3, n4]
    · rw [one_le_div hhR]
      exact hltR.le
    · field_simp
      ring

/-! ## Selection -/

/-- C4: selection clamping for `Scene` and `DragonScene`. With `SCENE ≤ LAST` and a selection
inside `[SCENE, LAST]`, every sequence of `selectNext()` / `selectPrevious()` calls leaves it
inside `[SCENE, LAST]`; `selectPrevious()` at `SCENE` and `selectNext()` at `LAST` leave the
selection unchanged, and otherwise they move it by exactly one. -/
theorem selection_clamped {R : Type} [Field R] (SCENE LAST : Int) (hrange : SCENE ≤ LAST)
    (sc : Scene R) (dsc : DragonScene)
    (hsc : SCENE ≤ sc.m_selected ∧ sc.m_selected ≤ LAST)
    (hdsc : SCENE ≤ dsc.m_selected ∧ dsc.m_selected ≤ LAST) :
    (∀ calls, SCENE ≤ (Scene.runSelect SCENE LAST calls sc).m_selected ∧
      (Scene.runSelect SCENE LAST calls sc).m_selected ≤ LAST) ∧
    (∀ calls, SCENE ≤ (DragonScene.runSelect SCENE LAST calls dsc).m_selected ∧
      (DragonScene.runSelect SCENE LAST calls dsc).m_selected ≤ LAST) ∧
    (sc.m_selected = SCENE → Scene.selectPrevious SCENE sc = sc) ∧
    (sc.m_selected = LAST → Scene.selectNext LAST sc = sc) ∧
    (sc.m_selected ≠ SCENE →
      (Scene.selectPrevious SCENE sc).m_selected = sc.m_selected - 1) ∧
    (sc.m_selected ≠ LAST → (Scene.selectNext LAST sc).m_selected = sc.m_selected + 1) ∧
    (dsc.m_selected = SCENE → DragonScene.select_previous SCENE dsc = dsc) ∧
    (dsc.m_selected = LAST → DragonScene.select_next LAST dsc = dsc) ∧
    (dsc.m_selected ≠ SCENE →
      (DragonScene.select_previous SCENE dsc).m_selected = dsc.m_selected - 1) ∧
    (dsc.m_selected ≠ LAST →
      (DragonScene.select_next LAST dsc).m_selected = dsc.m_selected + 1) := by
  have _ := hrange
  refine ⟨?_, ?_, ?_, ?_, ?_, ?_, ?_, ?_, ?_, ?_⟩
  · intro calls
    induction calls generalizing sc with
    | nil => exact hsc
    | cons c cs ih =>
      cases c with
      | next =>
        apply ih
        unfold Scene.selectNext
        split_ifs with h
        · exact ⟨by simp only; omega, by simp only; omega⟩
        · exact hsc
      | previous =>
        apply ih
        unfold Scene.selectPrevious
        split_ifs with h
        · exact ⟨by simp only; omega, by simp only; omega⟩
        · exact hsc
  · intro calls
    induction calls generalizing dsc with
    | nil => exact hdsc
    | cons c cs ih =>
      cases c with
      | next =>
        apply ih
        unfold DragonScene.select_next
        split_ifs with h
        · exact ⟨by simp only; omega, by simp only; omega⟩
        · exact hdsc
      | previous =>
        apply ih
        unfold DragonScene.select_previous
        split_ifs with h
        · exact ⟨by simp only; omega, by simp only; omega⟩
        · exact hdsc
  · intro h
    unfold Scene.selectPrevious
    rw [if_neg (by omega)]
  · intro h
    unfold Scene.selectNext
    rw [if_neg (by omega)]
  · intro h
    unfold Scene.selectPrevious
    rw [if_pos (by omega)]
  · intro h
    unfold Scene.selectNext
    rw [if_pos (by omega)]
  · intro h
    unfold DragonScene.select_previous
    rw [if_neg (by omega)]
  · intro h
    unfold DragonScene.select_next
    rw [if_neg (by omega)]
  · intro h
    unfold DragonScene.select_previous
    rw [if_pos (by omega)]
  · intro h
    unfold DragonScene.select_next
    rw [if_pos (by omega)]

/-! ## Stack discipline of call sequences -/

namespace Call

variable {R : Type}

theorem nested_counts (tr : List (Call R)) : ∀ dm dk : Nat, nested dm dk tr = true →
    tr.countP isPopMatrix = dm + tr.countP isPushMatrix ∧
    tr.countP isPopMaterial = dk + tr.countP isPushMaterial ∧
    (∀ n, (tr.take n).countP isPopMatrix ≤ dm + (tr.take n).countP isPushMatrix) ∧
    (∀ n, (tr.take n).countP isPopMaterial ≤ dk + (tr.take n).countP isPushMaterial) := by
  induction tr with
  | nil =>
    intro dm dk h
    simp only [nested, Bool.and_eq_true, beq_iff_eq] at h
    simp [h.1, h.2]
  | cons c cs ih =>
    intro dm dk h
    have step : ∀ dm1 dk1 : Nat, nested dm1 dk1 cs = true →
        ∀ a b a1 b1 : Nat,
        (a + dm1 = dm + b) → (a1 + dk1 = dk + b1) →
        (a + cs.countP isPopMatrix = dm + (b + cs.countP isPushMatrix)) ∧
        (a1 + cs.countP isPopMaterial = dk + (b1 + cs.countP isPushMaterial)) ∧
        (∀ n, a + (cs.take n).countP isPopMatrix
            ≤ dm + (b + (cs.take n).countP isPushMatrix)) ∧
        (∀ n, a1 + (cs.take n).countP isPopMaterial
            ≤ dk + (b1 + (cs.take n).countP isPushMaterial)) := by
      intro dm1 dk1 h1 a b a1 b1 e e1
      obtain ⟨i1, i2, i3, i4⟩ := ih dm1 dk1 h1
      refine ⟨by omega, by omega, fun n => ?_, fun n => ?_⟩
      · have := i3 n
        omega
      · have := i4 n
        omega
    have wrap : ∀ a b a1 b1 : Nat,
        (c :: cs).countP isPopMatrix = a + cs.countP isPopMatrix →
        (c :: cs).countP isPushMatrix = b + cs.countP isPushMatrix →
        (c :: cs).countP isPopMaterial = a1 + cs.countP isPopMaterial →
        (c :: cs).countP isPushMaterial = b1 + cs.countP isPushMaterial →
        (∀ n, ((c :: cs).take (n + 1)).countP isPopMatrix
            = a + (cs.take n).countP isPopMatrix) →
        (∀ n, ((c :: cs).take (n + 1)).countP isPushMatrix
            = b + (cs.take n).countP isPushMatrix) →
        (∀ n, ((c :: cs).take (n + 1)).countP isPopMaterial
            = a1 + (cs.take n).countP isPopMaterial) →
        (∀ n, ((c :: cs).take (n + 1)).countP isPushMaterial
            = b1 + (cs.take n).countP isPushMaterial) →
        ((a + cs.countP isPopMatrix = dm + (b + cs.countP isPushMatrix)) ∧
        (a1 + cs.countP isPopMaterial = dk + (b1 + cs.countP isPushMaterial)) ∧
        (∀ n, a + (cs.take n).countP isPopMatrix
            ≤ dm + (b + (cs.take n).countP isPushMatrix)) ∧
        (∀ n, a1 + (cs.take n).countP isPopMaterial
            ≤ dk + (b1 + (cs.take n).countP isPushMaterial))) →
        (c :: cs).countP isPopMatrix = dm + (c :: cs).countP isPushMatrix ∧
        (c :: cs).countP isPopMaterial = dk + (c :: cs).countP isPushMaterial ∧
        (∀ n, ((c :: cs).take n).countP isPopMatrix
            ≤ dm + ((c :: cs).take n).countP isPushMatrix) ∧
        (∀ n, ((c :: cs).take n).countP isPopMaterial
            ≤ dk + ((c :: cs).take n).countP isPushMaterial) := by
      intro a b a1 b1 e1 e2 e3 e4 t1 t2 t3 t4 ⟨j1, j2, j3, j4⟩
      refine ⟨by omega, by omega, fun n => ?_, fun n => ?_⟩
      · cases n with
        | zero => simp
        | succ n => rw [t1, t2]; exact j3 n
      · cases n with
        | zero => simp
        | succ n => rw [t3, t4]; exact j4 n
    cases c with
    | pushMatrix =>
      simp only [nested] at h
      exact wrap 0 1 0 0 (by simp [isPopMatrix]) (by simp [isPushMatrix, Nat.add_comm])
        (by simp [isPopMaterial]) (by simp [isPushMaterial])
        (by simp [isPopMatrix]) (by simp [isPushMatrix, Nat.add_comm])
        (by simp [isPopMaterial]) (by simp [isPushMaterial])
        (step _ _ h 0 1 0 0 (by omega) (by omega))
    | popMatrix =>
      cases dm with
      | zero => simp [nested] at h
      | succ dm1 =>
        simp only [nested] at h
        exact wrap 1 0 0 0 (by simp [isPopMatrix, Nat.add_comm]) (by simp [isPushMatrix])
          (by simp [isPopMaterial]) (by simp [isPushMaterial])
          (by simp [isPopMatrix, Nat.add_comm]) (by simp [isPushMatrix])
          (by simp [isPopMaterial]) (by simp [isPushMaterial])
          (step _ _ h 1 0 0 0 (by omega) (by omega))
    | translate dx dy dz =>
      cases dm with
      | zero => simp [nested] at h
      | succ dm1 =>
        simp only [nested] at h
        exact wrap 0 0 0 0 (by simp [isPopMatrix]) (by simp [isPushMatrix])
          (by simp [isPopMaterial]) (by simp [isPushMaterial])
          (by simp [isPopMatrix]) (by simp [isPushMatrix])
          (by simp [isPopMaterial]) (by simp [isPushMaterial])
          (step _ _ h 0 0 0 0 (by omega) (by omega))
    | rotate angle rx ry rz =>
      cases dm with
      | zero => simp [nested] at h
      | succ dm1 =>
        simp only [nested] at h
        exact wrap 0 0 0 0 (by simp [isPopMatrix]) (by simp [isPushMatrix])
          (by simp [isPopMaterial]) (by simp [isPushMaterial])
          (by simp [isPopMatrix]) (by simp [isPushMatrix])
          (by simp [isPopMaterial]) (by simp [isPushMaterial])
          (step _ _ h 0 0 0 0 (by omega) (by omega))
    | scale sx sy sz =>
      cases dm with
      | zero => simp [nested] at h
      | succ dm1 =>
        simp only [nested] at h
        exact wrap 0 0 0 0 (by simp [isPopMatrix]) (by simp [isPushMatrix])
          (by simp [isPopMaterial]) (by simp [isPushMaterial])
          (by simp [isPopMatrix]) (by simp [isPushMatrix])
          (by simp [isPopMaterial]) (by simp [isPushMaterial])
          (step _ _ h 0 0 0 0 (by omega) (by omega))
    | pushMaterial m =>
      simp only [nested] at h
      exact wrap 0 0 0 1 (by simp [isPopMatrix]) (by simp [isPushMatrix])
        (by simp [isPopMaterial]) (by simp [isPushMaterial, Nat.add_comm])
        (by simp [isPopMatrix]) (by simp [isPushMatrix])
        (by simp [isPopMaterial]) (by simp [isPushMaterial, Nat.add_comm])
        (step _ _ h 0 0 0 1 (by omega) (by omega))
    | popMaterial =>
      cases dk with
      | zero => simp [nested] at h
      | succ dk1 =>
        simp only [nested] at h
        exact wrap 0 0 1 0 (by simp [isPopMatrix]) (by simp [isPushMatrix])
          (by simp [isPopMaterial, Nat.add_comm]) (by simp [isPushMaterial])
          (by simp [isPopMatrix]) (by simp [isPushMatrix])
          (by simp [isPopMaterial, Nat.add_comm]) (by simp [isPushMaterial])
          (step _ _ h 0 0 1 0 (by omega) (by omega))
    | drawMesh name =>
      simp only [nested] at h
      exact wrap 0 0 0 0 (by simp [isPopMatrix]) (by simp [isPushMatrix])
        (by simp [isPopMaterial]) (by simp [isPushMaterial])
        (by simp [isPopMatrix]) (by simp [isPushMatrix])
        (by simp [isPopMaterial]) (by simp [isPushMaterial])
        (step _ _ h 0 0 0 0 (by omega) (by omega))
    | dragon d method =>
      simp only [nested] at h
      exact wrap 0 0 0 0 (by simp [isPopMatrix]) (by simp [isPushMatrix])
        (by simp [isPopMaterial]) (by simp [isPushMaterial])
        (by simp [isPopMatrix]) (by simp [isPushMatrix])
        (by simp [isPopMaterial]) (by simp [isPushMaterial])
        (step _ _ h 0 0 0 0 (by omega) (by omega))

end Call

namespace RenderStateGL2

variable {R : Type}

theorem beginApplyMaterial_fields (m : Material R) (s : RenderStateGL2 R) :
    (beginApplyMaterial m s).m_matrixMode = s.m_matrixMode ∧
    (beginApplyMaterial m s).m_matrix = s.m_matrix ∧
    (beginApplyMaterial m s).m_matrixStack = s.m_matrixStack ∧
    (beginApplyMaterial m s).m_materialStack = s.m_materialStack := by
  by_cases h : m.texture = 0 <;>
    simp [beginApplyMaterial, setUniformValue, setUniformValueFloat, setUniformValueInt, h]

theorem endApplyMaterial_fields (m : Material R) (s : RenderStateGL2 R) :
    (endApplyMaterial m s).m_matrixMode = s.m_matrixMode ∧
    (endApplyMaterial m s).m_matrix = s.m_matrix ∧
    (endApplyMaterial m s).m_matrixStack = s.m_matrixStack ∧
    (endApplyMaterial m s).m_materialStack = s.m_materialStack := by
  unfold endApplyMaterial
  split <;> exact ⟨rfl, rfl, rfl, rfl⟩

theorem pushMaterial_fields (m : Material R) (s : RenderStateGL2 R) :
    (pushMaterial m s).m_matrixMode = s.m_matrixMode ∧
    (pushMaterial m s).m_matrix = s.m_matrix ∧
    (pushMaterial m s).m_matrixStack = s.m_matrixStack ∧
    (pushMaterial m s).m_materialStack = m :: s.m_materialStack := by
  unfold pushMaterial
  obtain ⟨h1, h2, h3, h4⟩ :=
    beginApplyMaterial_fields m { s with m_materialStack := m :: s.m_materialStack }
  exact ⟨h1, h2, h3, h4⟩

theorem popMaterial_of_cons (m : Material R) (rest : List (Material R))
    (s : RenderStateGL2 R) (h : s.m_materialStack = m :: rest) :
    ∃ s1, popMaterial s = some s1 ∧
      s1.m_matrixMode = s.m_matrixMode ∧ s1.m_matrix = s.m_matrix ∧
      s1.m_matrixStack = s.m_matrixStack ∧ s1.m_materialStack = rest := by
  unfold popMaterial
  rw [h]
  obtain ⟨h1, h2, h3, h4⟩ := endApplyMaterial_fields m { s with m_materialStack := rest }
  simp only [h4]
  cases rest with
  | nil => exact ⟨_, rfl, h1, h2, h3, h4⟩
  | cons top tl =>
    obtain ⟨g1, g2, g3, g4⟩ := beginApplyMaterial_fields top
      (endApplyMaterial m { s with m_materialStack := top :: tl })
    exact ⟨_, rfl, g1.trans h1, g2.trans h2, g3.trans h3, g4.trans h4⟩

theorem popMatrix_of_cons (top : matrix4 R) (rest : List (matrix4 R))
    (s : RenderStateGL2 R) (h : s.m_matrixStack s.m_matrixMode = top :: rest) :
    ∃ s1, popMatrix s = some s1 ∧
      s1.m_matrixMode = s.m_matrixMode ∧
      s1.m_matrix = Function.update s.m_matrix s.m_matrixMode top ∧
      s1.m_matrixStack = Function.update s.m_matrixStack s.m_matrixMode rest ∧
      s1.m_materialStack = s.m_materialStack := by
  unfold popMatrix
  simp only [h]
  exact ⟨_, rfl, rfl, rfl, rfl, rfl⟩

end RenderStateGL2

namespace Call

variable {R : Type}

theorem frame_entry (s : RenderStateGL2 R) : Frame 0 0 s s :=
  ⟨s.m_matrix s.m_matrixMode, [], [], rfl, (Function.update_eq_self _ _).symm,
    by simp, by simp, rfl, rfl, rfl⟩

theorem sameStacks_of_frame (s0 s1 : RenderStateGL2 R) (h : Frame 0 0 s0 s1) :
    SameStacks s1 s0 := by
  obtain ⟨cur, pushed, pm, h1, h2, h3, h4, h5, h6, h7⟩ := h
  have hp : pushed = [] := List.length_eq_zero.mp h5
  have hm : pm = [] := List.length_eq_zero.mp h6
  subst hp hm
  simp only [List.getLast?_singleton, Option.some.injEq] at h7
  subst h7
  refine ⟨h1, ?_, ?_, ?_⟩
  · rw [h2, Function.update_eq_self]
  · rw [h3, List.nil_append, Function.update_eq_self]
  · rw [h4, List.nil_append]

/-- A change of the current matrix at matrix depth at least 1 keeps the frame. -/
theorem frame_multiply [Field R] (dm dk : Nat) (M : matrix4 R) (s0 s1 : RenderStateGL2 R)
    (h : Frame (dm + 1) dk s0 s1) :
    Frame (dm + 1) dk s0 (RenderStateGL2.multiplyMatrix M s1) := by
  obtain ⟨cur, pushed, pm, h1, h2, h3, h4, h5, h6, h7⟩ := h
  cases pushed with
  | nil => simp at h5
  | cons t rest =>
    refine ⟨s1.m_matrix s1.m_matrixMode * M, t :: rest, pm, h1, ?_, h3, h4, h5, h6, ?_⟩
    · show Function.update s1.m_matrix s1.m_matrixMode _ = _
      rw [h1, h2, Function.update_idem]
    · rw [List.getLast?_cons_cons] at h7 ⊢
      exact h7

theorem frame_pushMatrix (dm dk : Nat) (s0 s1 : RenderStateGL2 R) (h : Frame dm dk s0 s1) :
    Frame (dm + 1) dk s0 (RenderStateGL2.pushMatrix s1) := by
  obtain ⟨cur, pushed, pm, h1, h2, h3, h4, h5, h6, h7⟩ := h
  refine ⟨cur, cur :: pushed, pm, h1, h2, ?_, h4, by simp [h5], h6, ?_⟩
  · show Function.update s1.m_matrixStack s1.m_matrixMode
      (s1.m_matrix s1.m_matrixMode :: s1.m_matrixStack s1.m_matrixMode) = _
    rw [h1, h2, h3, Function.update_same, Function.update_same, Function.update_idem,
      List.cons_append]
  · rw [List.getLast?_cons_cons]
    exact h7

theorem frame_popMatrix (dm dk : Nat) (s0 s1 : RenderStateGL2 R)
    (h : Frame (dm + 1) dk s0 s1) :
    ∃ s2, RenderStateGL2.popMatrix s1 = some s2 ∧ Frame dm dk s0 s2 := by
  obtain ⟨cur, pushed, pm, h1, h2, h3, h4, h5, h6, h7⟩ := h
  cases pushed with
  | nil => simp at h5
  | cons t rest =>
    have hstack : s1.m_matrixStack s1.m_matrixMode
        = t :: (rest ++ s0.m_matrixStack s0.m_matrixMode) := by
      rw [h1, h3, Function.update_same, List.cons_append]
    obtain ⟨s2, e, g1, g2, g3, g4⟩ := RenderStateGL2.popMatrix_of_cons _ _ s1 hstack
    refine ⟨s2, e, t, rest, pm, g1.trans h1, ?_, ?_, g4.trans h4, ?_, h6, ?_⟩
    · rw [g2, h1, h2, Function.update_idem]
    · rw [g3, h1, h3, Function.update_idem]
    · simpa using h5
    · rw [List.getLast?_cons_cons] at h7
      exact h7

theorem frame_pushMaterial (dm dk : Nat) (m : Material R) (s0 s1 : RenderStateGL2 R)
    (h : Frame dm dk s0 s1) : Frame dm (dk + 1) s0 (RenderStateGL2.pushMaterial m s1) := by
  obtain ⟨cur, pushed, pm, h1, h2, h3, h4, h5, h6, h7⟩ := h
  obtain ⟨g1, g2, g3, g4⟩ := RenderStateGL2.pushMaterial_fields m s1
  exact ⟨cur, pushed, m :: pm, g1.trans h1, g2.trans h2, g3.trans h3,
    by rw [g4, h4, List.cons_append], h5, by simp [h6], h7⟩

theorem frame_popMaterial (dm dk : Nat) (s0 s1 : RenderStateGL2 R)
    (h : Frame dm (dk + 1) s0 s1) :
    ∃ s2, RenderStateGL2.popMaterial s1 = some s2 ∧ Frame dm dk s0 s2 := by
  obtain ⟨cur, pushed, pm, h1, h2, h3, h4, h5, h6, h7⟩ := h
  cases pm with
  | nil => simp at h6
  | cons m rest =>
    obtain ⟨s2, e, g1, g2, g3, g4⟩ :=
      RenderStateGL2.popMaterial_of_cons m (rest ++ s0.m_materialStack) s1
        (by rw [h4, List.cons_append])
    exact ⟨s2, e, cur, pushed, rest, g1.trans h1, g2.trans h2, g3.trans h3, g4, h5,
      by simpa using h6, h7⟩

theorem frame_of_sameStacks (dm dk : Nat) (s0 s1 s2 : RenderStateGL2 R)
    (h : Frame dm dk s0 s1) (hs : SameStacks s2 s1) : Frame dm dk s0 s2 := by
  obtain ⟨cur, pushed, pm, h1, h2, h3, h4, h5, h6, h7⟩ := h
  obtain ⟨g1, g2, g3, g4⟩ := hs
  exact ⟨cur, pushed, pm, g1.trans h1, g2.trans h2, g3.trans h3, g4.trans h4, h5, h6, h7⟩

/-- A properly nested call sequence runs to completion and restores mode, matrices, matrix
stacks and material stack. -/
theorem execAll_of_nested [Field R] (L : Matrix4Lib R) (X : Externals R) (hX : X.StackNeutral)
    (s0 : RenderStateGL2 R) (tr : List (Call R)) :
    ∀ (dm dk : Nat) (s1 : RenderStateGL2 R), nested dm dk tr = true → Frame dm dk s0 s1 →
      ∃ s2, execAll L X tr s1 = some s2 ∧ SameStacks s2 s0 := by
  induction tr with
  | nil =>
    intro dm dk s1 h hf
    simp only [nested, Bool.and_eq_true, beq_iff_eq] at h
    obtain ⟨hd, hk⟩ := h
    subst hd hk
    exact ⟨s1, rfl, sameStacks_of_frame s0 s1 hf⟩
  | cons c cs ih =>
    intro dm dk s1 h hf
    cases c with
    | pushMatrix =>
      simp only [nested] at h
      exact ih _ _ _ h (frame_pushMatrix dm dk s0 s1 hf)
    | popMatrix =>
      cases dm with
      | zero => simp [nested] at h
      | succ dm1 =>
        simp only [nested] at h
        obtain ⟨s2, e, hf2⟩ := frame_popMatrix dm1 dk s0 s1 hf
        obtain ⟨s3, e3, hs3⟩ := ih _ _ s2 h hf2
        exact ⟨s3, by simp only [execAll, exec, e, e3], hs3⟩
    | translate dx dy dz =>
      cases dm with
      | zero => simp [nested] at h
      | succ dm1 =>
        simp only [nested] at h
        exact ih _ _ _ h (frame_multiply dm1 dk _ s0 s1 hf)
    | rotate angle rx ry rz =>
      cases dm with
      | zero => simp [nested] at h
      | succ dm1 =>
        simp only [nested] at h
        exact ih _ _ _ h (frame_multiply dm1 dk _ s0 s1 hf)
    | scale sx sy sz =>
      cases dm with
      | zero => simp [nested] at h
      | succ dm1 =>
        simp only [nested] at h
        exact ih _ _ _ h (frame_multiply dm1 dk _ s0 s1 hf)
    | pushMaterial m =>
      simp only [nested] at h
      exact ih _ _ _ h (frame_pushMaterial dm dk m s0 s1 hf)
    | popMaterial =>
      cases dk with
      | zero => simp [nested] at h
      | succ dk1 =>
        simp only [nested] at h
        obtain ⟨s2, e, hf2⟩ := frame_popMaterial dm dk1 s0 s1 hf
        obtain ⟨s3, e3, hs3⟩ := ih _ _ s2 h hf2
        exact ⟨s3, by simp only [execAll, exec, e, e3], hs3⟩
    | drawMesh name =>
      simp only [nested] at h
      exact ih _ _ _ h (frame_of_sameStacks dm dk s0 s1 _ hf (hX.2 name s1))
    | dragon d method =>
      simp only [nested] at h
      exact ih _ _ _ h (frame_of_sameStacks dm dk s0 s1 _ hf (hX.1 d method s1))

/-- A properly nested call sequence keeps strict stack discipline. -/
theorem stackDisciplined_of_nested [Field R] (L : Matrix4Lib R) (X : Externals R)
    (hX : X.StackNeutral) (tr : List (Call R)) (h : nested 0 0 tr = true) :
    StackDisciplined L X tr := by
  obtain ⟨c1, c2, c3, c4⟩ := nested_counts tr 0 0 h
  refine ⟨by omega, by omega, fun n => ?_, fun n => ?_, fun s => ?_⟩
  · have := c3 n
    omega
  · have := c4 n
    omega
  · obtain ⟨s2, e, hs⟩ := execAll_of_nested L X hX s tr 0 0 s h (frame_entry s)
    refine ⟨s2, e, hs, ?_⟩
    unfold RenderStateGL2.currentMatrix
    rw [hs.1, hs.2.1]

end Call

/-! ## Scene traversal -/

theorem idle_stackNeutral {R : Type} : (Externals.idle : Externals R).StackNeutral :=
  ⟨fun _ _ _ => ⟨rfl, rfl, rfl, rfl⟩, fun _ _ => ⟨rfl, rfl, rfl, rfl⟩⟩

/-- C3: assuming every `Dragon` draw method and `drawMesh` leave the matrix and material stacks
(and the selected matrix mode) as they found them, `Scene::drawItem(item)` for every item,
`drawScene`, `drawFloor` and `drawDragonHoldingA/P/S` keep strict stack discipline: equal numbers
of pushes and pops of each kind, never more pops than pushes in a prefix, and from every state
they run to completion and return with the current matrix, the matrix stacks and the material
stack as at entry. -/
theorem scene_stack_discipline {R : Type} [Field R] (L : Matrix4Lib R) (X : Externals R)
    (hX : X.StackNeutral) (sc : Scene R) (d : Dragon R) :
    (∀ item : Item, StackDisciplined L X (Scene.drawItem sc item)) ∧
    StackDisciplined L X (Scene.drawScene sc) ∧
    StackDisciplined L X (Scene.drawFloor sc) ∧
    StackDisciplined L X (Scene.drawDragonHoldingA d) ∧
    StackDisciplined L X (Scene.drawDragonHoldingP d) ∧
    StackDisciplined L X (Scene.drawDragonHoldingS d) := by
  refine ⟨fun item => ?_, ?_, ?_, ?_, ?_, ?_⟩
  · apply Call.stackDisciplined_of_nested L X hX
    cases item <;> rfl
  · exact Call.stackDisciplined_of_nested L X hX _ rfl
  · exact Call.stackDisciplined_of_nested L X hX _ rfl
  · exact Call.stackDisciplined_of_nested L X hX _ rfl
  · exact Call.stackDisciplined_of_nested L X hX _ rfl
  · exact Call.stackDisciplined_of_nested L X hX _ rfl

/-- Witness for C3: the sample scene over the rationals with externals that draw nothing. -/
theorem scene_stack_discipline_witness :
    (Externals.idle : Externals ℚ).StackNeutral ∧
    ((∀ item : Item, StackDisciplined sampleLib Externals.idle (Scene.drawItem sampleScene item)) ∧
    StackDisciplined sampleLib Externals.idle (Scene.drawScene sampleScene) ∧
    StackDisciplined sampleLib Externals.idle (Scene.drawFloor sampleScene) ∧
    StackDisciplined sampleLib Externals.idle (Scene.drawDragonHoldingA sampleDragon) ∧
    StackDisciplined sampleLib Externals.idle (Scene.drawDragonHoldingP sampleDragon) ∧
    StackDisciplined sampleLib Externals.idle (Scene.drawDragonHoldingS sampleDragon)) :=
  ⟨idle_stackNeutral,
    scene_stack_discipline sampleLib Externals.idle idle_stackNeutral sampleScene sampleDragon⟩

/-- Witness for C4: a range of 19 items (`SCENE = 0`, `LAST = 18`) and the selection left by
`reset()`. -/
theorem selection_clamped_witness :
    (0 : Int) ≤ 18 ∧
    (0 ≤ sampleScene.m_selected ∧ sampleScene.m_selected ≤ 18) ∧
    (0 ≤ sampleDragonScene.m_selected ∧ sampleDragonScene.m_selected ≤ 18) ∧
    (∀ calls, 0 ≤ (Scene.runSelect 0 18 calls sampleScene).m_selected ∧
      (Scene.runSelect 0 18 calls sampleScene).m_selected ≤ 18) :=
  ⟨by decide, ⟨by decide, by decide⟩, ⟨by decide, by decide⟩,
    (selection_clamped 0 18 (by decide) sampleScene sampleDragonScene
      ⟨by decide, by decide⟩ ⟨by decide, by decide⟩).1⟩

/-- Witness for C9: `beginFrame(800, 600)` on freshly constructed backends in perspective
mode. -/
theorem perspective_projection_witness :
    (0 : Int) < 600 ∧
    (RenderStateGL2.constructed false true false ⟨0, 0, 0, 1⟩).m_projection = true ∧
    (RenderStateGL1.constructed false true false ⟨0, 0, 0, 1⟩).m_projection = true ∧
    (RenderStateGL2.beginFrame sampleLib 800 600
        (RenderStateGL2.constructed false true false ⟨0, 0, 0, 1⟩)).m_matrix
        MatrixMode.Projection
      = sampleLib.perspective 45.0 (((800 : Int) : ℚ) / ((600 : Int) : ℚ)) 0.1 100.0 :=
  ⟨by decide, rfl, rfl,
    (perspective_projection sampleLib 800 600 (by decide)
      (RenderStateGL2.constructed false true false ⟨0, 0, 0, 1⟩) rfl
      (RenderStateGL1.constructed false true false ⟨0, 0, 0, 1⟩) rfl).1⟩

/-- Witness for C10: `setupViewport(600, 800)` on freshly constructed backends in orthographic
mode. -/
theorem ortho_projection_witness :
    (0 : Int) < 600 ∧ (0 : Int) < 800 ∧ (600 : Int) ≤ 800 ∧
    (RenderStateGL2.constructed false false false ⟨0, 0, 0, 1⟩).m_projection = false ∧
    (RenderStateGL1.constructed false false false ⟨0, 0, 0, 1⟩).m_projection = false ∧
    (RenderStateGL2.setupViewport sampleLib 600 800
        (RenderStateGL2.constructed false false false ⟨0, 0, 0, 1⟩)).m_matrix
        MatrixMode.Projection
      = sampleLib.ortho (-1) 1 (-(((800 : Int) : ℚ) / ((600 : Int) : ℚ)))
          (((800 : Int) : ℚ) / ((600 : Int) : ℚ)) (-10) 10 :=
  ⟨by decide, by decide, by decide, rfl, rfl,
    ((ortho_projection sampleLib 600 800 (by decide) (by decide)
      (RenderStateGL2.constructed false false false ⟨0, 0, 0, 1⟩) rfl
      (RenderStateGL1.constructed false false false ⟨0, 0, 0, 1⟩) rfl
      GLFixedContext.initial).1 (by decide)).1⟩

/-! ## Current matrix and matrix mode -/

/-- Shader backend: after `setMatrixMode(mode)`, `currentMatrix()` is the current matrix of
`mode`. -/
theorem gl2_currentMatrix_setMatrixMode {R : Type} (mode : MatrixMode) (s : RenderStateGL2 R) :
    RenderStateGL2.currentMatrix (RenderStateGL2.setMatrixMode mode s) = s.m_matrix mode ∧
    (RenderStateGL2.setMatrixMode mode s).m_matrix = s.m_matrix :=
  ⟨rfl, rfl⟩

/-- Fixed-function backend: `currentMatrix()` is the ModelView matrix whatever mode is
selected. -/
theorem gl1_currentMatrix_setMatrixMode {R : Type} [Field R] (mode : MatrixMode)
    (s : RenderStateGL1 R) :
    RenderStateGL1.currentMatrix (RenderStateGL1.setMatrixMode mode s)
      = s.gl.matrix MatrixMode.ModelView ∧
    (RenderStateGL1.setMatrixMode mode s).gl.matrixMode = mode ∧
    (RenderStateGL1.setMatrixMode mode s).gl.matrix = s.gl.matrix := by
  cases mode <;> exact ⟨rfl, rfl, rfl⟩

/-- C11 (failing input, fixed-function backend): on the state whose Projection matrix is the
scaling by 2 and whose ModelView matrix is the identity, after `setMatrixMode(Projection)` the
selected mode is Projection but `currentMatrix()` returns the ModelView matrix (the identity),
which differs from the current Projection matrix. -/
theorem gl1_currentMatrix_ignores_mode :
    (RenderStateGL1.setMatrixMode MatrixMode.Projection projectionScaledGL1).gl.matrixMode
      = MatrixMode.Projection ∧
    (RenderStateGL1.setMatrixMode MatrixMode.Projection projectionScaledGL1).gl.matrix
      MatrixMode.Projection = sampleLib.scale 2 2 2 ∧
    RenderStateGL1.currentMatrix
      (RenderStateGL1.setMatrixMode MatrixMode.Projection projectionScaledGL1) = 1 ∧
    RenderStateGL1.currentMatrix
      (RenderStateGL1.setMatrixMode MatrixMode.Projection projectionScaledGL1)
      ≠ (RenderStateGL1.setMatrixMode MatrixMode.Projection projectionScaledGL1).gl.matrix
          MatrixMode.Projection := by
  have hP : (RenderStateGL1.setMatrixMode MatrixMode.Projection projectionScaledGL1).gl.matrix
      MatrixMode.Projection = sampleLib.scale 2 2 2 := by
    simp [RenderStateGL1.setMatrixMode, projectionScaledGL1, RenderStateGL1.multiplyMatrix,
      GLFixedContext.glMatrixMode, GLFixedContext.glMultMatrixf, sampleGL1,
      RenderStateGL1.constructed, GLFixedContext.initial]
  have hC : RenderStateGL1.currentMatrix
      (RenderStateGL1.setMatrixMode MatrixMode.Projection projectionScaledGL1) = 1 := by
    simp [RenderStateGL1.currentMatrix, RenderStateGL1.setMatrixMode, projectionScaledGL1,
      RenderStateGL1.multiplyMatrix, GLFixedContext.glMatrixMode, GLFixedContext.glMultMatrixf,
      sampleGL1, RenderStateGL1.constructed, GLFixedContext.initial]
  refine ⟨rfl, hP, hC, ?_⟩
  rw [hP, hC]
  intro h
  have h00 := congrFun (congrFun h 0) 0
  simp [sampleLib] at h00

/-- C12: in the shader backend, for every state, `loadIdentity`, `multiplyMatrix`, `translate`,
`rotate`, `scale`, `pushMatrix` and `popMatrix` leave the current matrix and the saved stack of
every mode other than the selected one unchanged, and they leave the selected mode as it is;
the first five do not touch any saved stack and `pushMatrix` no current matrix; `popMatrix`
returns whenever the selected stack is not empty; `setMatrixMode` changes no matrix and no
stack. -/
theorem gl2_matrix_ops_frame {R : Type} [Field R] (L : Matrix4Lib R) (s : RenderStateGL2 R)
    (other : MatrixMode) (hother : other ≠ s.m_matrixMode)
    (M : matrix4 R) (a b c d : R) (newMode : MatrixMode) :
    ((RenderStateGL2.loadIdentity s).m_matrix other = s.m_matrix other ∧
      (RenderStateGL2.loadIdentity s).m_matrixStack = s.m_matrixStack ∧
      (RenderStateGL2.loadIdentity s).m_matrixMode = s.m_matrixMode) ∧
    ((RenderStateGL2.multiplyMatrix M s).m_matrix other = s.m_matrix other ∧
      (RenderStateGL2.multiplyMatrix M s).m_matrixStack = s.m_matrixStack ∧
      (RenderStateGL2.multiplyMatrix M s).m_matrixMode = s.m_matrixMode) ∧
    ((RenderStateGL2.translate L a b c s).m_matrix other = s.m_matrix other ∧
      (RenderStateGL2.translate L a b c s).m_matrixStack = s.m_matrixStack ∧
      (RenderStateGL2.translate L a b c s).m_matrixMode = s.m_matrixMode) ∧
    ((RenderStateGL2.rotate L a b c d s).m_matrix other = s.m_matrix other ∧
      (RenderStateGL2.rotate L a b c d s).m_matrixStack = s.m_matrixStack ∧
      (RenderStateGL2.rotate L a b c d s).m_matrixMode = s.m_matrixMode) ∧
    ((RenderStateGL2.scale L a b c s).m_matrix other = s.m_matrix other ∧
      (RenderStateGL2.scale L a b c s).m_matrixStack = s.m_matrixStack ∧
      (RenderStateGL2.scale L a b c s).m_matrixMode = s.m_matrixMode) ∧
    ((RenderStateGL2.pushMatrix s).m_matrix = s.m_matrix ∧
      (RenderStateGL2.pushMatrix s).m_matrixStack other = s.m_matrixStack other ∧
      (RenderStateGL2.pushMatrix s).m_matrixMode = s.m_matrixMode) ∧
    (∀ s1, RenderStateGL2.popMatrix s = some s1 →
      s1.m_matrix other = s.m_matrix other ∧
      s1.m_matrixStack other = s.m_matrixStack other ∧
      s1.m_matrixMode = s.m_matrixMode) ∧
    (s.m_matrixStack s.m_matrixMode ≠ [] → ∃ s1, RenderStateGL2.popMatrix s = some s1) ∧
    ((RenderStateGL2.setMatrixMode newMode s).m_matrix = s.m_matrix ∧
      (RenderStateGL2.setMatrixMode newMode s).m_matrixStack = s.m_matrixStack) := by
  have hupd : ∀ (f : MatrixMode → matrix4 R) (v : matrix4 R),
      Function.update f s.m_matrixMode v other = f other :=
    fun f v => Function.update_noteq hother v f
  have hupdS : ∀ (f : MatrixMode → List (matrix4 R)) (v : List (matrix4 R)),
      Function.update f s.m_matrixMode v other = f other :=
    fun f v => Function.update_noteq hother v f
  refine ⟨⟨hupd _ _, rfl, rfl⟩, ⟨hupd _ _, rfl, rfl⟩, ⟨hupd _ _, rfl, rfl⟩,
    ⟨hupd _ _, rfl, rfl⟩, ⟨hupd _ _, rfl, rfl⟩, ⟨rfl, hupdS _ _, rfl⟩, ?_, ?_, ⟨rfl, rfl⟩⟩
  · intro s1 h1
    cases hst : s.m_matrixStack s.m_matrixMode with
    | nil =>
      unfold RenderStateGL2.popMatrix at h1
      simp only [hst] at h1
      exact Option.noConfusion h1
    | cons top rest =>
      obtain ⟨s2, e, g1, g2, g3, _⟩ := RenderStateGL2.popMatrix_of_cons top rest s hst
      rw [e] at h1
      have h12 : s2 = s1 := Option.some.inj h1
      subst h12
      exact ⟨by rw [g2]; exact hupd _ _, by rw [g3]; exact hupdS _ _, g1⟩
  · intro hstack
    cases hst : s.m_matrixStack s.m_matrixMode with
    | nil => exact absurd hst hstack
    | cons top rest =>
      obtain ⟨s1, e, _⟩ := RenderStateGL2.popMatrix_of_cons top rest s hst
      exact ⟨s1, e⟩

/-- Witness for C12: a freshly constructed shader backend with Projection selected and nothing
saved, looked at from the ModelView mode, and the backend with one saved ModelView matrix,
looked at from the Projection mode. -/
theorem gl2_matrix_ops_frame_witness :
    MatrixMode.ModelView
      ≠ (RenderStateGL2.setMatrixMode MatrixMode.Projection sampleGL2).m_matrixMode ∧
    (RenderStateGL2.setMatrixMode MatrixMode.Projection sampleGL2).m_matrixStack
      MatrixMode.Projection = [] ∧
    (RenderStateGL2.loadIdentity
        (RenderStateGL2.setMatrixMode MatrixMode.Projection sampleGL2)).m_matrix
        MatrixMode.ModelView
      = (RenderStateGL2.setMatrixMode MatrixMode.Projection sampleGL2).m_matrix
        MatrixMode.ModelView ∧
    (RenderStateGL2.pushMatrix
        (RenderStateGL2.setMatrixMode MatrixMode.Projection sampleGL2)).m_matrixStack
        MatrixMode.ModelView
      = (RenderStateGL2.setMatrixMode MatrixMode.Projection sampleGL2).m_matrixStack
        MatrixMode.ModelView ∧
    MatrixMode.Projection ≠ pushedGL2.m_matrixMode ∧
    pushedGL2.m_matrixStack pushedGL2.m_matrixMode ≠ [] ∧
    (∃ s1, RenderStateGL2.popMatrix pushedGL2 = some s1 ∧
      s1.m_matrix MatrixMode.Projection = pushedGL2.m_matrix MatrixMode.Projection ∧
      s1.m_matrixStack MatrixMode.Projection = pushedGL2.m_matrixStack MatrixMode.Projection ∧
      s1.m_matrixMode = pushedGL2.m_matrixMode) :=
  have hne : pushedGL2.m_matrixStack pushedGL2.m_matrixMode ≠ [] := by
    simp [pushedGL2, RenderStateGL2.pushMatrix, sampleGL2, RenderStateGL2.constructed]
  ⟨by decide, rfl,
    (gl2_matrix_ops_frame sampleLib (RenderStateGL2.setMatrixMode MatrixMode.Projection sampleGL2)
      MatrixMode.ModelView (by decide) 1 0 0 0 0 MatrixMode.Texture).1.1,
    (gl2_matrix_ops_frame sampleLib (RenderStateGL2.setMatrixMode MatrixMode.Projection sampleGL2)
      MatrixMode.ModelView (by decide) 1 0 0 0 0 MatrixMode.Texture).2.2.2.2.2.1.2.1,
    by decide, hne,
    ((gl2_matrix_ops_frame sampleLib pushedGL2 MatrixMode.Projection (by decide)
      1 0 0 0 0 MatrixMode.Texture).2.2.2.2.2.2.2.1 hne).imp
      (fun s1 e => ⟨e, (gl2_matrix_ops_frame sampleLib pushedGL2 MatrixMode.Projection
        (by decide) 1 0 0 0 0 MatrixMode.Texture).2.2.2.2.2.2.1 s1 e⟩)⟩

/-! ## Popping the last material -/

/-- C14 (counterexample): on freshly constructed backends, whose matrix and material stacks are
empty, `popMatrix()` of the shader backend and `popMaterial()` of both backends have no defined
outcome: each reads `back()` of an empty vector without any check, so none of them returns with
the render state unchanged. -/
theorem pop_on_empty_unchecked :
    sampleGL2.m_matrixStack sampleGL2.m_matrixMode = [] ∧
    sampleGL2.m_materialStack = [] ∧ sampleGL1.m_materialStack = [] ∧
    RenderStateGL2.popMatrix sampleGL2 ≠ some sampleGL2 ∧
    RenderStateGL2.popMaterial sampleGL2 ≠ some sampleGL2 ∧
    RenderStateGL1.popMaterial sampleGL1 ≠ some sampleGL1 := by
  refine ⟨rfl, rfl, rfl, ?_, ?_, ?_⟩
  · have h : RenderStateGL2.popMatrix sampleGL2 = none := rfl
    rw [h]
    exact Option.noConfusion
  · have h : RenderStateGL2.popMaterial sampleGL2 = none := rfl
    rw [h]
    exact Option.noConfusion
  · have h : RenderStateGL1.popMaterial sampleGL1 = none := rfl
    rw [h]
    exact Option.noConfusion

/-- C14 (amended): `popMatrix()` of the shader backend and `popMaterial()` of both backends carry
no empty-stack check and no error report. Each has a defined outcome exactly when its stack is
not empty, and then it pops: `popMatrix()` makes the saved top the current matrix of the selected
mode and removes it, `popMaterial()` removes the top material; on an empty stack the outcome is
undefined. -/
theorem pop_defined_iff_nonempty {R : Type} (s2 : RenderStateGL2 R) (s1 : RenderStateGL1 R) :
    (RenderStateGL2.popMatrix s2 = none ↔ s2.m_matrixStack s2.m_matrixMode = []) ∧
    (RenderStateGL2.popMaterial s2 = none ↔ s2.m_materialStack = []) ∧
    (RenderStateGL1.popMaterial s1 = none ↔ s1.m_materialStack = []) ∧
    (∀ top rest, s2.m_matrixStack s2.m_matrixMode = top :: rest →
      ∃ t, RenderStateGL2.popMatrix s2 = some t ∧
        RenderStateGL2.currentMatrix t = top ∧ t.m_matrixStack s2.m_matrixMode = rest) ∧
    (∀ top rest, s2.m_materialStack = top :: rest →
      ∃ t, RenderStateGL2.popMaterial s2 = some t ∧ t.m_materialStack = rest) ∧
    (∀ top rest, s1.m_materialStack = top :: rest →
      ∃ t, RenderStateGL1.popMaterial s1 = some t ∧ t.m_materialStack = rest) := by
  have g1fields : ∀ (m : Material R) (s : RenderStateGL1 R),
      (RenderStateGL1.beginApplyMaterial m s).m_materialStack = s.m_materialStack ∧
      (RenderStateGL1.endApplyMaterial m s).m_materialStack = s.m_materialStack := by
    intro m s
    unfold RenderStateGL1.beginApplyMaterial RenderStateGL1.endApplyMaterial
    constructor <;> split <;> rfl
  have g1pop : ∀ top rest, s1.m_materialStack = top :: rest →
      ∃ t, RenderStateGL1.popMaterial s1 = some t ∧ t.m_materialStack = rest := by
    intro top rest h
    unfold RenderStateGL1.popMaterial
    rw [h]
    simp only [(g1fields _ _).2]
    cases rest with
    | nil => exact ⟨_, rfl, (g1fields _ _).2⟩
    | cons m tl => exact ⟨_, rfl, ((g1fields _ _).1).trans (g1fields _ _).2⟩
  have g2pop : ∀ top rest, s2.m_materialStack = top :: rest →
      ∃ t, RenderStateGL2.popMaterial s2 = some t ∧ t.m_materialStack = rest := by
    intro top rest h
    obtain ⟨t, e, _, _, _, g⟩ := RenderStateGL2.popMaterial_of_cons top rest s2 h
    exact ⟨t, e, g⟩
  have g2mat : ∀ top rest, s2.m_matrixStack s2.m_matrixMode = top :: rest →
      ∃ t, RenderStateGL2.popMatrix s2 = some t ∧
        RenderStateGL2.currentMatrix t = top ∧ t.m_matrixStack s2.m_matrixMode = rest := by
    intro top rest h
    obtain ⟨t, e, g1, g2, g3, _⟩ := RenderStateGL2.popMatrix_of_cons top rest s2 h
    refine ⟨t, e, ?_, ?_⟩
    · unfold RenderStateGL2.currentMatrix
      rw [g1, g2, Function.update_same]
    · rw [g3, Function.update_same]
  refine ⟨?_, ?_, ?_, g2mat, g2pop, g1pop⟩
  · constructor
    · intro h
      cases hst : s2.m_matrixStack s2.m_matrixMode with
      | nil => rfl
      | cons top rest =>
        obtain ⟨t, e, _⟩ := g2mat top rest hst
        rw [e] at h
        exact Option.noConfusion h
    · intro h
      unfold RenderStateGL2.popMatrix
      simp only [h]
  · constructor
    · intro h
      cases hst : s2.m_materialStack with
      | nil => rfl
      | cons top rest =>
        obtain ⟨t, e, _⟩ := g2pop top rest hst
        rw [e] at h
        exact Option.noConfusion h
    · intro h
      unfold RenderStateGL2.popMaterial
      simp only [h]
  · constructor
    · intro h
      cases hst : s1.m_materialStack with
      | nil => rfl
      | cons top rest =>
        obtain ⟨t, e, _⟩ := g1pop top rest hst
        rw [e] at h
        exact Option.noConfusion h
    · intro h
      unfold RenderStateGL1.popMaterial
      simp only [h]

/-! ## Frame bracket -/

theorem gl2_setupViewport_modelView {R : Type} [Field R] (L : Matrix4Lib R) (w h : Int)
    (s : RenderStateGL2 R) :
    (RenderStateGL2.setupViewport L w h s).m_matrixMode = MatrixMode.ModelView ∧
    (RenderStateGL2.setupViewport L w h s).m_matrix MatrixMode.ModelView
      = s.m_matrix MatrixMode.ModelView ∧
    (RenderStateGL2.setupViewport L w h s).m_matrix MatrixMode.Texture
      = s.m_matrix MatrixMode.Texture ∧
    (RenderStateGL2.setupViewport L w h s).m_matrixStack = s.m_matrixStack ∧
    (RenderStateGL2.setupViewport L w h s).m_materialStack = s.m_materialStack ∧
    (RenderStateGL2.setupViewport L w h s).gl.enableStack = s.gl.enableStack ∧
    (RenderStateGL2.setupViewport L w h s).gl.depthTest = s.gl.depthTest := by
  unfold RenderStateGL2.setupViewport
  simp only [RenderStateGL2.setMatrixMode, RenderStateGL2.loadIdentity,
    RenderStateGL2.multiplyMatrix]
  split_ifs <;> simp

theorem gl2_beginFrame_modelView {R : Type} [Field R] (L : Matrix4Lib R) (w h : Int)
    (s : RenderStateGL2 R) :
    (RenderStateGL2.beginFrame L w h s).m_matrixMode = MatrixMode.ModelView ∧
    (RenderStateGL2.beginFrame L w h s).m_matrix MatrixMode.ModelView = 1 ∧
    (RenderStateGL2.beginFrame L w h s).m_matrixStack MatrixMode.ModelView
      = s.m_matrix MatrixMode.ModelView :: s.m_matrixStack MatrixMode.ModelView ∧
    (RenderStateGL2.beginFrame L w h s).gl.enableStack
      = s.gl.depthTest :: s.gl.enableStack ∧
    (RenderStateGL2.beginFrame L w h s).gl.depthTest = true := by
  have hv := gl2_setupViewport_modelView L w h
  unfold RenderStateGL2.beginFrame
  simp only [RenderStateGL2.setMatrixMode, RenderStateGL2.loadIdentity,
    RenderStateGL2.pushMatrix, Function.update_same, (hv _).2.1, (hv _).2.2.2.1,
    (hv _).2.2.2.2.2.1, (hv _).2.2.2.2.2.2, RenderStateGL2.setUniformValue_frame, and_self]

theorem gl2_endFrame_of_cons {R : Type} (b : RenderStateGL2 R) (top : matrix4 R)
    (rest : List (matrix4 R)) (saved : Bool) (restE : List Bool)
    (h1 : b.m_matrixStack MatrixMode.ModelView = top :: rest)
    (h2 : b.gl.enableStack = saved :: restE) :
    ∃ t, RenderStateGL2.endFrame b = some t ∧
      t.m_matrixMode = MatrixMode.ModelView ∧
      t.m_matrix = Function.update b.m_matrix MatrixMode.ModelView top ∧
      t.m_matrixStack = Function.update b.m_matrixStack MatrixMode.ModelView rest ∧
      t.m_materialStack = b.m_materialStack ∧
      t.gl.enableStack = restE ∧ t.gl.depthTest = saved ∧ t.gl.currentProgram = 0 := by
  unfold RenderStateGL2.endFrame RenderStateGL2.popMatrix RenderStateGL2.setMatrixMode
  simp only [h1, h2]
  exact ⟨_, rfl, rfl, rfl, rfl, rfl, rfl, rfl, rfl⟩

theorem gl1_glPushMatrix_flags {R : Type} (gl : GLFixedContext R) :
    gl.glPushMatrix.depthTest = gl.depthTest ∧ gl.glPushMatrix.normalize = gl.normalize ∧
    gl.glPushMatrix.lighting = gl.lighting ∧ gl.glPushMatrix.light0 = gl.light0 := by
  unfold GLFixedContext.glPushMatrix
  split <;> exact ⟨rfl, rfl, rfl, rfl⟩

theorem gl1_setupViewport_flags {R : Type} [Field R] (L : Matrix4Lib R) (w h : Int)
    (s : RenderStateGL1 R) :
    (RenderStateGL1.setupViewport L w h s).gl.depthTest = s.gl.depthTest ∧
    (RenderStateGL1.setupViewport L w h s).gl.normalize = s.gl.normalize ∧
    (RenderStateGL1.setupViewport L w h s).gl.lighting = s.gl.lighting ∧
    (RenderStateGL1.setupViewport L w h s).gl.light0 = s.gl.light0 := by
  unfold RenderStateGL1.setupViewport
  simp only [RenderStateGL1.setMatrixMode, RenderStateGL1.loadIdentity,
    RenderStateGL1.multiplyMatrix, GLFixedContext.glMatrixMode, GLFixedContext.glLoadIdentity,
    GLFixedContext.glMultMatrixf]
  split_ifs <;> exact ⟨rfl, rfl, rfl, rfl⟩

theorem gl1_beginFrame_flags {R : Type} [Field R] (L : Matrix4Lib R) (w h : Int)
    (s : RenderStateGL1 R) :
    (RenderStateGL1.beginFrame L w h s).gl.depthTest = true ∧
    (RenderStateGL1.beginFrame L w h s).gl.normalize = true ∧
    (RenderStateGL1.beginFrame L w h s).gl.lighting = true ∧
    (RenderStateGL1.beginFrame L w h s).gl.light0 = true := by
  have hv := gl1_setupViewport_flags L w h
  have hp := @gl1_glPushMatrix_flags R
  unfold RenderStateGL1.beginFrame
  simp only [RenderStateGL1.setMatrixMode, RenderStateGL1.loadIdentity,
    RenderStateGL1.pushMatrix, GLFixedContext.glLoadIdentity, GLFixedContext.glMatrixMode,
    (hp _).1, (hp _).2.1, (hp _).2.2.1, (hp _).2.2.2, (hv _).1, (hv _).2.1, (hv _).2.2.1,
    (hv _).2.2.2, and_self]

theorem gl1_endFrame_flags {R : Type} [Field R] (s : RenderStateGL1 R) :
    (RenderStateGL1.endFrame s).gl.depthTest = false ∧
    (RenderStateGL1.endFrame s).gl.normalize = false ∧
    (RenderStateGL1.endFrame s).gl.lighting = false ∧
    (RenderStateGL1.endFrame s).gl.light0 = false :=
  ⟨rfl, rfl, rfl, rfl⟩

/-- Shader backend: `endFrame` pops whatever matrix is saved on the ModelView stack. -/
theorem gl2_endFrame_pops {R : Type} (b : RenderStateGL2 R) (top : matrix4 R)
    (rest : List (matrix4 R)) (h1 : b.m_matrixStack MatrixMode.ModelView = top :: rest) :
    ∃ t, RenderStateGL2.endFrame b = some t ∧
      t.m_matrix MatrixMode.ModelView = top ∧ t.m_matrixStack MatrixMode.ModelView = rest := by
  cases he : b.gl.enableStack with
  | nil =>
    unfold RenderStateGL2.endFrame RenderStateGL2.popMatrix RenderStateGL2.setMatrixMode
    simp [h1, he]
  | cons saved restE =>
    obtain ⟨t, e, _, g2, g3, _⟩ := gl2_endFrame_of_cons b top rest saved restE h1 he
    exact ⟨t, e, by rw [g2, Function.update_same], by rw [g3, Function.update_same]⟩

theorem gl2_endFrame_none_iff {R : Type} (b : RenderStateGL2 R) :
    RenderStateGL2.endFrame b = none ↔ b.m_matrixStack MatrixMode.ModelView = [] := by
  constructor
  · intro h
    cases hst : b.m_matrixStack MatrixMode.ModelView with
    | nil => rfl
    | cons top rest =>
      obtain ⟨t, e, _⟩ := gl2_endFrame_pops b top rest hst
      rw [e] at h
      exact Option.noConfusion h
  · intro h
    unfold RenderStateGL2.endFrame RenderStateGL2.popMatrix RenderStateGL2.setMatrixMode
    simp only [h]

/-- Fixed-function backend: the error flag after `endFrame`. -/
theorem gl1_endFrame_error {R : Type} [Field R] (s : RenderStateGL1 R) :
    (s.gl.matrixStack MatrixMode.ModelView = [] →
      (RenderStateGL1.endFrame s).gl.error
        = s.gl.error.orElse (fun _ => some GLError.stackUnderflow)) ∧
    (s.gl.matrixStack MatrixMode.ModelView ≠ [] →
      (RenderStateGL1.endFrame s).gl.error = s.gl.error) := by
  unfold RenderStateGL1.endFrame RenderStateGL1.popMatrix RenderStateGL1.setMatrixMode
    GLFixedContext.glPopMatrix GLFixedContext.glMatrixMode
  constructor
  · intro h
    simp only [h]
  · intro h
    cases hst : s.gl.matrixStack MatrixMode.ModelView with
    | nil => exact absurd hst h
    | cons top rest => simp only [hst]

/-- C15 (counterexample): frame calls out of order are executed, not rejected. On a freshly
constructed shader backend a second `beginFrame(800, 600)` with no `endFrame()` in between is
executed like the first one: two matrices are then saved on the ModelView stack and two entries
on the attribute stack. On a shader backend where no frame was begun but one matrix is saved,
`endFrame()` returns and has popped that matrix. On a fixed-function backend where no frame was
begun and depth test is enabled, `endFrame()` has disabled depth test. -/
theorem misplaced_frame_calls_are_executed :
    ((RenderStateGL2.beginFrame sampleLib 800 600
        (RenderStateGL2.beginFrame sampleLib 800 600 sampleGL2)).m_matrixStack
        MatrixMode.ModelView).length = 2 ∧
    (RenderStateGL2.beginFrame sampleLib 800 600
        (RenderStateGL2.beginFrame sampleLib 800 600 sampleGL2)).gl.enableStack.length = 2 ∧
    RenderStateGL2.beginFrame sampleLib 800 600
        (RenderStateGL2.beginFrame sampleLib 800 600 sampleGL2)
      ≠ RenderStateGL2.beginFrame sampleLib 800 600 sampleGL2 ∧
    pushedGL2.m_matrixStack MatrixMode.ModelView = [1] ∧
    (∃ t, RenderStateGL2.endFrame pushedGL2 = some t ∧
      t.m_matrixStack MatrixMode.ModelView = []) ∧
    flagsOnGL1.gl.depthTest = true ∧
    (RenderStateGL1.endFrame flagsOnGL1).gl.depthTest = false := by
  have h1 := gl2_beginFrame_modelView sampleLib 800 600 sampleGL2
  have h2 := gl2_beginFrame_modelView sampleLib 800 600
    (RenderStateGL2.beginFrame sampleLib 800 600 sampleGL2)
  have e1 : ((RenderStateGL2.beginFrame sampleLib 800 600
        (RenderStateGL2.beginFrame sampleLib 800 600 sampleGL2)).m_matrixStack
        MatrixMode.ModelView).length = 2 := by
    rw [h2.2.2.1, h1.2.2.1]
    rfl
  have e2 : (RenderStateGL2.beginFrame sampleLib 800 600
        (RenderStateGL2.beginFrame sampleLib 800 600 sampleGL2)).gl.enableStack.length = 2 := by
    rw [h2.2.2.2.1, h1.2.2.2.1]
    rfl
  have e3 : pushedGL2.m_matrixStack MatrixMode.ModelView = [1] := rfl
  refine ⟨e1, e2, ?_, e3, ?_, rfl, rfl⟩
  · intro h
    rw [h, h1.2.2.2.1] at e2
    revert e2
    decide
  · obtain ⟨t, e, _, g⟩ := gl2_endFrame_pops pushedGL2 1 [] e3
    exact ⟨t, e, g⟩

/-- C15 (amended): the backends keep no frame-lifecycle state, and `beginFrame` and `endFrame`
check nothing. In the shader backend `beginFrame` always executes: it selects ModelView, saves
the current ModelView matrix and the depth-test flag and loads the identity, so a second
`beginFrame` saves a second matrix and flag; `endFrame` right after `beginFrame` returns and
leaves the ModelView matrix, its saved stack and the attribute stack as before `beginFrame`;
with or without a `beginFrame`, `endFrame` pops whatever matrix is saved on the ModelView stack,
and its outcome is undefined (`back()` on an empty vector) exactly when none is saved. In the
fixed-function backend `beginFrame` always enables, and `endFrame` always disables, depth test,
normalisation, lighting and light 0; when the ModelView stack of the driver holds no saved
matrix, the `glPopMatrix` of `endFrame` records `GL_STACK_UNDERFLOW` in the error flag of the
driver unless an earlier error is recorded there, and otherwise `endFrame` leaves that flag as
it was. -/
theorem frame_bracket_unchecked {R : Type} [Field R] (L : Matrix4Lib R) (w h : Int)
    (s2 : RenderStateGL2 R) (s1 : RenderStateGL1 R) :
    (RenderStateGL2.beginFrame L w h s2).m_matrixStack MatrixMode.ModelView
      = s2.m_matrix MatrixMode.ModelView :: s2.m_matrixStack MatrixMode.ModelView ∧
    (RenderStateGL2.beginFrame L w h (RenderStateGL2.beginFrame L w h s2)).m_matrixStack
        MatrixMode.ModelView
      = 1 :: s2.m_matrix MatrixMode.ModelView :: s2.m_matrixStack MatrixMode.ModelView ∧
    (RenderStateGL2.beginFrame L w h (RenderStateGL2.beginFrame L w h s2)).gl.enableStack
      = true :: s2.gl.depthTest :: s2.gl.enableStack ∧
    (∃ t, RenderStateGL2.endFrame (RenderStateGL2.beginFrame L w h s2) = some t ∧
      t.m_matrix MatrixMode.ModelView = s2.m_matrix MatrixMode.ModelView ∧
      t.m_matrixStack MatrixMode.ModelView = s2.m_matrixStack MatrixMode.ModelView ∧
      t.gl.enableStack = s2.gl.enableStack ∧ t.gl.depthTest = s2.gl.depthTest) ∧
    (∀ top rest, s2.m_matrixStack MatrixMode.ModelView = top :: rest →
      ∃ t, RenderStateGL2.endFrame s2 = some t ∧
        t.m_matrix MatrixMode.ModelView = top ∧ t.m_matrixStack MatrixMode.ModelView = rest) ∧
    (RenderStateGL2.endFrame s2 = none ↔ s2.m_matrixStack MatrixMode.ModelView = []) ∧
    ((RenderStateGL1.beginFrame L w h s1).gl.depthTest = true ∧
      (RenderStateGL1.beginFrame L w h s1).gl.normalize = true ∧
      (RenderStateGL1.beginFrame L w h s1).gl.lighting = true ∧
      (RenderStateGL1.beginFrame L w h s1).gl.light0 = true) ∧
    ((RenderStateGL1.endFrame s1).gl.depthTest = false ∧
      (RenderStateGL1.endFrame s1).gl.normalize = false ∧
      (RenderStateGL1.endFrame s1).gl.lighting = false ∧
      (RenderStateGL1.endFrame s1).gl.light0 = false) ∧
    (s1.gl.matrixStack MatrixMode.ModelView = [] →
      (RenderStateGL1.endFrame s1).gl.error
        = s1.gl.error.orElse (fun _ => some GLError.stackUnderflow)) ∧
    (s1.gl.matrixStack MatrixMode.ModelView ≠ [] →
      (RenderStateGL1.endFrame s1).gl.error = s1.gl.error) := by
  have hb := gl2_beginFrame_modelView L w h s2
  have hb2 := gl2_beginFrame_modelView L w h (RenderStateGL2.beginFrame L w h s2)
  refine ⟨hb.2.2.1, ?_, ?_, ?_, gl2_endFrame_pops s2, gl2_endFrame_none_iff s2,
    gl1_beginFrame_flags L w h s1, gl1_endFrame_flags s1, (gl1_endFrame_error s1).1,
    (gl1_endFrame_error s1).2⟩
  · rw [hb2.2.2.1, hb.2.1, hb.2.2.1]
  · rw [hb2.2.2.2.1, hb.2.2.2.1, hb.2.2.2.2]
  · obtain ⟨t, e, _, g2, g3, _, g5, g6, _⟩ :=
      gl2_endFrame_of_cons (RenderStateGL2.beginFrame L w h s2) _ _ _ _ hb.2.2.1 hb.2.2.2.1
    refine ⟨t, e, ?_, ?_, g5, g6⟩
    · rw [g2, Function.update_same]
    · rw [g3, Function.update_same]

/-- C16 (counterexample): on a context where depth test, normalisation, lighting and light 0 were
enabled before the frame, `beginFrame(800, 600); endFrame()` of the fixed-function backend leaves
all four disabled, not restored. -/
theorem gl1_frame_leaves_flags_disabled :
    flagsOnGL1.gl.depthTest = true ∧ flagsOnGL1.gl.normalize = true ∧
    flagsOnGL1.gl.lighting = true ∧ flagsOnGL1.gl.light0 = true ∧
    (RenderStateGL1.endFrame (RenderStateGL1.beginFrame sampleLib 800 600 flagsOnGL1)).gl.depthTest
      ≠ flagsOnGL1.gl.depthTest ∧
    (RenderStateGL1.endFrame (RenderStateGL1.beginFrame sampleLib 800 600 flagsOnGL1)).gl.normalize
      ≠ flagsOnGL1.gl.normalize ∧
    (RenderStateGL1.endFrame (RenderStateGL1.beginFrame sampleLib 800 600 flagsOnGL1)).gl.lighting
      ≠ flagsOnGL1.gl.lighting ∧
    (RenderStateGL1.endFrame (RenderStateGL1.beginFrame sampleLib 800 600 flagsOnGL1)).gl.light0
      ≠ flagsOnGL1.gl.light0 := by
  obtain ⟨h1, h2, h3, h4⟩ :=
    gl1_endFrame_flags (RenderStateGL1.beginFrame sampleLib 800 600 flagsOnGL1)
  have f1 : flagsOnGL1.gl.depthTest = true := rfl
  have f2 : flagsOnGL1.gl.normalize = true := rfl
  have f3 : flagsOnGL1.gl.lighting = true := rfl
  have f4 : flagsOnGL1.gl.light0 = true := rfl
  refine ⟨f1, f2, f3, f4, ?_, ?_, ?_, ?_⟩
  · rw [h1, f1]; exact Bool.false_ne_true
  · rw [h2, f2]; exact Bool.false_ne_true
  · rw [h3, f3]; exact Bool.false_ne_true
  · rw [h4, f4]; exact Bool.false_ne_true

/-- C16 (amended): in the fixed-function backend, for every initial state, after
`beginFrame(w, h)` followed by `endFrame()` depth test, normalisation, lighting and light 0 are
disabled; each of them is therefore back to its value before `beginFrame` exactly when it was
disabled before. -/
theorem gl1_frame_disables_flags {R : Type} [Field R] (L : Matrix4Lib R) (w h : Int)
    (s : RenderStateGL1 R) :
    ((RenderStateGL1.endFrame (RenderStateGL1.beginFrame L w h s)).gl.depthTest = false ∧
      (RenderStateGL1.endFrame (RenderStateGL1.beginFrame L w h s)).gl.normalize = false ∧
      (RenderStateGL1.endFrame (RenderStateGL1.beginFrame L w h s)).gl.lighting = false ∧
      (RenderStateGL1.endFrame (RenderStateGL1.beginFrame L w h s)).gl.light0 = false) ∧
    ((RenderStateGL1.endFrame (RenderStateGL1.beginFrame L w h s)).gl.depthTest = s.gl.depthTest
      ↔ s.gl.depthTest = false) ∧
    ((RenderStateGL1.endFrame (RenderStateGL1.beginFrame L w h s)).gl.normalize = s.gl.normalize
      ↔ s.gl.normalize = false) ∧
    ((RenderStateGL1.endFrame (RenderStateGL1.beginFrame L w h s)).gl.lighting = s.gl.lighting
      ↔ s.gl.lighting = false) ∧
    ((RenderStateGL1.endFrame (RenderStateGL1.beginFrame L w h s)).gl.light0 = s.gl.light0
      ↔ s.gl.light0 = false) := by
  obtain ⟨h1, h2, h3, h4⟩ := gl1_endFrame_flags (RenderStateGL1.beginFrame L w h s)
  refine ⟨⟨h1, h2, h3, h4⟩, ?_, ?_, ?_, ?_⟩
  · rw [h1]; exact eq_comm
  · rw [h2]; exact eq_comm
  · rw [h3]; exact eq_comm
  · rw [h4]; exact eq_comm

/-! ## Drawing a null mesh -/

/-- C17: for both backends (and for `DragonScene`), `drawMesh` called with a null mesh pointer
returns the state it was given, whatever `Mesh::draw` and `Mesh::drawNormals` would do and
whether or not the normals flag is set: no geometry is submitted, no matrix uniform uploaded, no
normals drawn, no OpenGL error recorded. -/
theorem drawMesh_null_noop {R Mesh G : Type}
    (ops1 : MeshOps Mesh (RenderStateGL1 R)) (ops2 : MeshOps Mesh (RenderStateGL2 R))
    (ops3 : MeshOps Mesh (DragonScene × G))
    (s1 : RenderStateGL1 R) (s2 : RenderStateGL2 R) (s3 : DragonScene × G) :
    RenderStateGL1.drawMesh ops1 none s1 = s1 ∧
    RenderStateGL2.drawMesh ops2 none s2 = s2 ∧
    DragonScene.drawMesh ops3 none s3 = s3 ∧
    RenderStateGL1.drawMesh ops1 none { s1 with m_drawNormals := true }
      = { s1 with m_drawNormals := true } ∧
    RenderStateGL2.drawMesh ops2 none { s2 with m_drawNormals := true }
      = { s2 with m_drawNormals := true } ∧
    (RenderStateGL1.drawMesh ops1 none s1).gl.error = s1.gl.error ∧
    (RenderStateGL2.drawMesh ops2 none s2).gl.matrixUniform = s2.gl.matrixUniform :=
  ⟨rfl, rfl, rfl, rfl, rfl, rfl, rfl⟩

/-! ## Camera transform of `Scene::draw` -/

theorem draw_calls_start {R : Type} [Field R] (toItem : Int → Item) (sc : Scene R) :
    ∃ rest, (Scene.draw toItem sc).1
      = (Scene.cameraTransform sc (toItem sc.m_selected)).map DrawCall.call
        ++ (Scene.drawItem sc (toItem sc.m_selected)).map DrawCall.call ++ rest := by
  unfold Scene.draw
  by_cases h : (Scene.afterDrawItem sc (toItem sc.m_selected)).m_exportQueued = true
  · simp only [h, if_true, List.map_append]
    exact ⟨_, rfl⟩
  · simp only [h, List.map_append]
    exact ⟨[], by simp⟩

theorem cameraTransform_eq {R : Type} [Field R] (sc : Scene R) (i : Item) :
    (i = Item.SCENE → Scene.cameraTransform sc i =
      [ Call.translate sc.m_delta.x sc.m_delta.y sc.m_delta.z,
        Call.rotate (sc.m_theta.x + sc.m_thetaCamera.x) 1.0 0.0 0.0,
        Call.rotate (sc.m_theta.y + sc.m_thetaCamera.y) 0.0 1.0 0.0,
        Call.rotate (sc.m_theta.z + sc.m_thetaCamera.z) 0.0 0.0 1.0,
        Call.scale sc.m_sigma sc.m_sigma sc.m_sigma ]) ∧
    (i ≠ Item.SCENE → Scene.cameraTransform sc i =
      [ Call.translate sc.m_delta.x sc.m_delta.y sc.m_delta.z,
        Call.rotate sc.m_theta.x 1.0 0.0 0.0,
        Call.rotate sc.m_theta.y 0.0 1.0 0.0,
        Call.rotate sc.m_theta.z 0.0 0.0 1.0,
        Call.scale sc.m_sigma sc.m_sigma sc.m_sigma ]) := by
  constructor
  · intro h
    unfold Scene.cameraTransform
    simp only [h, if_true, vec3.add]
  · intro h
    unfold Scene.cameraTransform
    simp only [h, if_false]

/-- Five successive `multiplyMatrix` calls compose on the right of the current matrix. -/
theorem execAll_five_multiplies {R : Type} [Field R] (L : Matrix4Lib R) (X : Externals R)
    (s : RenderStateGL2 R) (dx dy dz a1 x1 y1 z1 a2 x2 y2 z2 a3 x3 y3 z3 sx sy sz : R) :
    ∃ s1, Call.execAll L X
        [ Call.translate dx dy dz, Call.rotate a1 x1 y1 z1, Call.rotate a2 x2 y2 z2,
          Call.rotate a3 x3 y3 z3, Call.scale sx sy sz ] s = some s1 ∧
      s1.m_matrixMode = s.m_matrixMode ∧
      s1.m_matrixStack = s.m_matrixStack ∧
      s1.m_materialStack = s.m_materialStack ∧
      s1.m_matrix = Function.update s.m_matrix s.m_matrixMode
        (s.m_matrix s.m_matrixMode * L.translate dx dy dz * L.rotate a1 x1 y1 z1
          * L.rotate a2 x2 y2 z2 * L.rotate a3 x3 y3 z3 * L.scale sx sy sz) := by
  refine ⟨RenderStateGL2.scale L sx sy sz (RenderStateGL2.rotate L a3 x3 y3 z3
    (RenderStateGL2.rotate L a2 x2 y2 z2 (RenderStateGL2.rotate L a1 x1 y1 z1
      (RenderStateGL2.translate L dx dy dz s)))), ?_, ?_, ?_, ?_, ?_⟩
  · simp only [Call.execAll, Call.exec]
  · simp only [RenderStateGL2.translate, RenderStateGL2.rotate, RenderStateGL2.scale,
      RenderStateGL2.multiplyMatrix]
  · simp only [RenderStateGL2.translate, RenderStateGL2.rotate, RenderStateGL2.scale,
      RenderStateGL2.multiplyMatrix]
  · simp only [RenderStateGL2.translate, RenderStateGL2.rotate, RenderStateGL2.scale,
      RenderStateGL2.multiplyMatrix]
  · simp only [RenderStateGL2.translate, RenderStateGL2.rotate, RenderStateGL2.scale,
      RenderStateGL2.multiplyMatrix, Function.update_same, Function.update_idem]

/-- C18: `Scene::draw()` first makes the five camera calls and then draws the selected item. Run
on the shader backend with ModelView selected and ModelView matrix `M0`, the camera calls leave
the ModelView matrix equal to `M0 * T(delta) * Rx(rot.x) * Ry(rot.y) * Rz(rot.z) * S(sigma)`,
where `rot = theta + thetaCamera` when the selected item is `SCENE` and `rot = theta`
otherwise; this is the current matrix with which the item is drawn. -/
theorem camera_transform {R : Type} [Field R] (L : Matrix4Lib R) (X : Externals R)
    (toItem : Int → Item) (sc : Scene R) (s : RenderStateGL2 R)
    (hmode : s.m_matrixMode = MatrixMode.ModelView) :
    (∃ rest, (Scene.draw toItem sc).1
      = (Scene.cameraTransform sc (toItem sc.m_selected)).map DrawCall.call
        ++ (Scene.drawItem sc (toItem sc.m_selected)).map DrawCall.call ++ rest) ∧
    ∃ s1, Call.execAll L X (Scene.cameraTransform sc (toItem sc.m_selected)) s = some s1 ∧
      s1.m_matrixMode = MatrixMode.ModelView ∧
      RenderStateGL2.currentMatrix s1 = s1.m_matrix MatrixMode.ModelView ∧
      (toItem sc.m_selected = Item.SCENE →
        s1.m_matrix MatrixMode.ModelView
          = s.m_matrix MatrixMode.ModelView
            * L.translate sc.m_delta.x sc.m_delta.y sc.m_delta.z
            * L.rotate (sc.m_theta.x + sc.m_thetaCamera.x) 1.0 0.0 0.0
            * L.rotate (sc.m_theta.y + sc.m_thetaCamera.y) 0.0 1.0 0.0
            * L.rotate (sc.m_theta.z + sc.m_thetaCamera.z) 0.0 0.0 1.0
            * L.scale sc.m_sigma sc.m_sigma sc.m_sigma) ∧
      (toItem sc.m_selected ≠ Item.SCENE →
        s1.m_matrix MatrixMode.ModelView
          = s.m_matrix MatrixMode.ModelView
            * L.translate sc.m_delta.x sc.m_delta.y sc.m_delta.z
            * L.rotate sc.m_theta.x 1.0 0.0 0.0
            * L.rotate sc.m_theta.y 0.0 1.0 0.0
            * L.rotate sc.m_theta.z 0.0 0.0 1.0
            * L.scale sc.m_sigma sc.m_sigma sc.m_sigma) := by
  refine ⟨draw_calls_start toItem sc, ?_⟩
  obtain ⟨hS, hN⟩ := cameraTransform_eq sc (toItem sc.m_selected)
  by_cases hi : toItem sc.m_selected = Item.SCENE
  · rw [hS hi]
    obtain ⟨s1, e, g1, _, _, g4⟩ := execAll_five_multiplies L X s
      sc.m_delta.x sc.m_delta.y sc.m_delta.z
      (sc.m_theta.x + sc.m_thetaCamera.x) 1.0 0.0 0.0
      (sc.m_theta.y + sc.m_thetaCamera.y) 0.0 1.0 0.0
      (sc.m_theta.z + sc.m_thetaCamera.z) 0.0 0.0 1.0
      sc.m_sigma sc.m_sigma sc.m_sigma
    refine ⟨s1, e, g1.trans hmode, ?_, fun _ => ?_, fun h => absurd hi h⟩
    · unfold RenderStateGL2.currentMatrix
      rw [g1, hmode]
    · rw [g4, hmode, Function.update_same]
  · rw [hN hi]
    obtain ⟨s1, e, g1, _, _, g4⟩ := execAll_five_multiplies L X s
      sc.m_delta.x sc.m_delta.y sc.m_delta.z
      sc.m_theta.x 1.0 0.0 0.0 sc.m_theta.y 0.0 1.0 0.0 sc.m_theta.z 0.0 0.0 1.0
      sc.m_sigma sc.m_sigma sc.m_sigma
    refine ⟨s1, e, g1.trans hmode, ?_, fun h => absurd h hi, fun _ => ?_⟩
    · unfold RenderStateGL2.currentMatrix
      rw [g1, hmode]
    · rw [g4, hmode, Function.update_same]

/-- Witness for C18: the sample scene (selection `SCENE`) drawn on a freshly constructed shader
backend. -/
theorem camera_transform_witness :
    sampleGL2.m_matrixMode = MatrixMode.ModelView ∧
    ∃ s1, Call.execAll sampleLib Externals.idle
        (Scene.cameraTransform sampleScene (sampleToItem sampleScene.m_selected)) sampleGL2
        = some s1 ∧
      s1.m_matrixMode = MatrixMode.ModelView ∧
      RenderStateGL2.currentMatrix s1 = s1.m_matrix MatrixMode.ModelView ∧
      (sampleToItem sampleScene.m_selected = Item.SCENE →
        s1.m_matrix MatrixMode.ModelView
          = sampleGL2.m_matrix MatrixMode.ModelView
            * sampleLib.translate sampleScene.m_delta.x sampleScene.m_delta.y
                sampleScene.m_delta.z
            * sampleLib.rotate (sampleScene.m_theta.x + sampleScene.m_thetaCamera.x) 1.0 0.0 0.0
            * sampleLib.rotate (sampleScene.m_theta.y + sampleScene.m_thetaCamera.y) 0.0 1.0 0.0
            * sampleLib.rotate (sampleScene.m_theta.z + sampleScene.m_thetaCamera.z) 0.0 0.0 1.0
            * sampleLib.scale sampleScene.m_sigma sampleScene.m_sigma sampleScene.m_sigma) ∧
      (sampleToItem sampleScene.m_selected ≠ Item.SCENE →
        s1.m_matrix MatrixMode.ModelView
          = sampleGL2.m_matrix MatrixMode.ModelView
            * sampleLib.translate sampleScene.m_delta.x sampleScene.m_delta.y
                sampleScene.m_delta.z
            * sampleLib.rotate sampleScene.m_theta.x 1.0 0.0 0.0
            * sampleLib.rotate sampleScene.m_theta.y 0.0 1.0 0.0
            * sampleLib.rotate sampleScene.m_theta.z 0.0 0.0 1.0
            * sampleLib.scale sampleScene.m_sigma sampleScene.m_sigma sampleScene.m_sigma) :=
  ⟨rfl, (camera_transform sampleLib Externals.idle sampleToItem sampleScene sampleGL2 rfl).2⟩

/-! ## One-shot export -/

/-- Drawing an item twice makes the same calls: the detail level set by the first pass is the
one the second pass sets again. -/
theorem drawItem_afterDrawItem {R : Type} [Field R] (sc : Scene R) (i : Item) :
    Scene.drawItem (Scene.afterDrawItem sc i) i = Scene.drawItem sc i ∧
    Scene.afterDrawItem (Scene.afterDrawItem sc i) i = Scene.afterDrawItem sc i ∧
    (Scene.afterDrawItem sc i).m_exportQueued = sc.m_exportQueued ∧
    (Scene.afterDrawItem sc i).m_selected = sc.m_selected := by
  cases i <;> exact ⟨rfl, rfl, rfl, rfl⟩

theorem countP_export_map_call {R : Type} (tr : List (Call R)) :
    (tr.map DrawCall.call).countP DrawCall.isBeginExport = 0 ∧
    (tr.map DrawCall.call).countP DrawCall.isEndExport = 0 := by
  induction tr with
  | nil => exact ⟨rfl, rfl⟩
  | cons c cs ih =>
    simp only [List.map_cons, List.countP_cons, ih.1, ih.2, DrawCall.isBeginExport,
      DrawCall.isEndExport]
    exact ⟨rfl, rfl⟩

theorem draw_queued {R : Type} [Field R] (toItem : Int → Item) (sc : Scene R)
    (hq : sc.m_exportQueued = true) :
    (Scene.draw toItem sc).1 =
      (Scene.cameraTransform sc (toItem sc.m_selected)
          ++ Scene.drawItem sc (toItem sc.m_selected)).map DrawCall.call
        ++ ([DrawCall.beginExportMesh
              ("meshes/" ++ Scene.itemText (toItem sc.m_selected) ++ ".obj")]
            ++ (Scene.drawItem sc (toItem sc.m_selected)).map DrawCall.call
            ++ [DrawCall.endExportMesh]) ∧
    (Scene.draw toItem sc).2
      = { Scene.afterDrawItem sc (toItem sc.m_selected) with m_exportQueued := false } := by
  obtain ⟨h1, h2, h3, _⟩ := drawItem_afterDrawItem sc (toItem sc.m_selected)
  unfold Scene.draw Scene.exportItem
  simp only [h1, h2, h3, hq, if_true, and_self]

theorem draw_not_queued {R : Type} [Field R] (toItem : Int → Item) (sc : Scene R)
    (hq : sc.m_exportQueued = false) :
    (Scene.draw toItem sc).1 =
      (Scene.cameraTransform sc (toItem sc.m_selected)
          ++ Scene.drawItem sc (toItem sc.m_selected)).map DrawCall.call ∧
    (Scene.draw toItem sc).2 = Scene.afterDrawItem sc (toItem sc.m_selected) := by
  obtain ⟨_, _, h3, _⟩ := drawItem_afterDrawItem sc (toItem sc.m_selected)
  unfold Scene.draw
  simp only [h3, hq, Bool.false_eq_true, if_false, and_self]

/-- C19: export is a one-shot flag. The `draw()` that follows `exportCurrentItem()` draws the
selected item and then makes exactly one `beginExportMesh` / `endExportMesh` bracket around a
second `drawItem`, with the path `"meshes/" + itemText(selected) + ".obj"`, and clears the flag;
the `draw()` after that makes no export call; and a `draw()` with no export queued makes no
export call and leaves the flag clear. -/
theorem export_one_shot {R : Type} [Field R] (toItem : Int → Item) (sc : Scene R) :
    (Scene.draw toItem (Scene.exportCurrentItem sc)).1 =
      (Scene.cameraTransform sc (toItem sc.m_selected)
          ++ Scene.drawItem sc (toItem sc.m_selected)).map DrawCall.call
        ++ ([DrawCall.beginExportMesh
              ("meshes/" ++ Scene.itemText (toItem sc.m_selected) ++ ".obj")]
            ++ (Scene.drawItem sc (toItem sc.m_selected)).map DrawCall.call
            ++ [DrawCall.endExportMesh]) ∧
    (Scene.draw toItem (Scene.exportCurrentItem sc)).1.countP DrawCall.isBeginExport = 1 ∧
    (Scene.draw toItem (Scene.exportCurrentItem sc)).1.countP DrawCall.isEndExport = 1 ∧
    (Scene.draw toItem (Scene.exportCurrentItem sc)).2.m_exportQueued = false ∧
    (Scene.draw toItem (Scene.exportCurrentItem sc)).2.m_selected = sc.m_selected ∧
    (Scene.draw toItem (Scene.draw toItem (Scene.exportCurrentItem sc)).2).1.countP
      DrawCall.isBeginExport = 0 ∧
    (Scene.draw toItem (Scene.draw toItem (Scene.exportCurrentItem sc)).2).2.m_exportQueued
      = false ∧
    (sc.m_exportQueued = false →
      (Scene.draw toItem sc).1.countP DrawCall.isBeginExport = 0 ∧
      (Scene.draw toItem sc).1.countP DrawCall.isEndExport = 0 ∧
      (Scene.draw toItem sc).2.m_exportQueued = false) := by
  have hnot : ∀ t : Scene R, t.m_exportQueued = false →
      (Scene.draw toItem t).1.countP DrawCall.isBeginExport = 0 ∧
      (Scene.draw toItem t).1.countP DrawCall.isEndExport = 0 ∧
      (Scene.draw toItem t).2.m_exportQueued = false := by
    intro t ht
    obtain ⟨e1, e2⟩ := draw_not_queued toItem t ht
    rw [e1, e2]
    exact ⟨(countP_export_map_call _).1, (countP_export_map_call _).2,
      (drawItem_afterDrawItem t _).2.2.1.trans ht⟩
  obtain ⟨e1, e2⟩ := draw_queued toItem (Scene.exportCurrentItem sc) rfl
  have hsel : (Scene.exportCurrentItem sc).m_selected = sc.m_selected := rfl
  have hq2 : (Scene.draw toItem (Scene.exportCurrentItem sc)).2.m_exportQueued = false := by
    rw [e2]
  have hcam : Scene.cameraTransform (Scene.exportCurrentItem sc) (toItem sc.m_selected)
      = Scene.cameraTransform sc (toItem sc.m_selected) := rfl
  have hdi : Scene.drawItem (Scene.exportCurrentItem sc) (toItem sc.m_selected)
      = Scene.drawItem sc (toItem sc.m_selected) := rfl
  rw [hsel, hcam, hdi] at e1
  refine ⟨e1, ?_, ?_, hq2, ?_, (hnot _ hq2).1, (hnot _ hq2).2.2, hnot sc⟩
  · rw [e1]
    simp only [List.countP_append, (countP_export_map_call _).1, List.countP_cons,
      List.countP_nil, DrawCall.isBeginExport]
    rfl
  · rw [e1]
    simp only [List.countP_append, (countP_export_map_call _).2, List.countP_cons,
      List.countP_nil, DrawCall.isEndExport]
    rfl
  · rw [e2]
    exact (drawItem_afterDrawItem (Scene.exportCurrentItem sc) _).2.2.2

/-! ## Export pass and normal pass submit the same geometry -/

theorem sameStacks_symm {R : Type} {s1 s2 : RenderStateGL2 R} (h : SameStacks s1 s2) :
    SameStacks s2 s1 :=
  ⟨h.1.symm, h.2.1.symm, h.2.2.1.symm, h.2.2.2.symm⟩

theorem sameStacks_trans {R : Type} {s1 s2 s3 : RenderStateGL2 R} (h : SameStacks s1 s2)
    (g : SameStacks s2 s3) : SameStacks s1 s3 :=
  ⟨h.1.trans g.1, h.2.1.trans g.2.1, h.2.2.1.trans g.2.2.1, h.2.2.2.trans g.2.2.2⟩

namespace Call

variable {R : Type}

theorem sameStacks_multiplyMatrix [Field R] (M : matrix4 R) (s1 s2 : RenderStateGL2 R)
    (h : SameStacks s1 s2) :
    SameStacks (RenderStateGL2.multiplyMatrix M s1) (RenderStateGL2.multiplyMatrix M s2) := by
  obtain ⟨h1, h2, h3, h4⟩ := h
  refine ⟨h1, ?_, h3, h4⟩
  show Function.update s1.m_matrix s1.m_matrixMode (s1.m_matrix s1.m_matrixMode * M)
    = Function.update s2.m_matrix s2.m_matrixMode (s2.m_matrix s2.m_matrixMode * M)
  rw [h1, h2]

theorem sameStacks_pushMatrix (s1 s2 : RenderStateGL2 R) (h : SameStacks s1 s2) :
    SameStacks (RenderStateGL2.pushMatrix s1) (RenderStateGL2.pushMatrix s2) := by
  obtain ⟨h1, h2, h3, h4⟩ := h
  refine ⟨h1, h2, ?_, h4⟩
  show Function.update s1.m_matrixStack s1.m_matrixMode
      (s1.m_matrix s1.m_matrixMode :: s1.m_matrixStack s1.m_matrixMode)
    = Function.update s2.m_matrixStack s2.m_matrixMode
      (s2.m_matrix s2.m_matrixMode :: s2.m_matrixStack s2.m_matrixMode)
  rw [h1, h2, h3]

theorem sameStacks_pushMaterial (m : Material R) (s1 s2 : RenderStateGL2 R)
    (h : SameStacks s1 s2) :
    SameStacks (RenderStateGL2.pushMaterial m s1) (RenderStateGL2.pushMaterial m s2) := by
  obtain ⟨h1, h2, h3, h4⟩ := h
  obtain ⟨a1, a2, a3, a4⟩ := RenderStateGL2.pushMaterial_fields m s1
  obtain ⟨b1, b2, b3, b4⟩ := RenderStateGL2.pushMaterial_fields m s2
  exact ⟨a1.trans (h1.trans b1.symm), a2.trans (h2.trans b2.symm),
    a3.trans (h3.trans b3.symm), by rw [a4, b4, h4]⟩

/-- Run from two states with the same matrices and stacks, a call either has no outcome from
both, or leaves two states that again have the same matrices and stacks. -/
theorem sameStacks_exec [Field R] (L : Matrix4Lib R) (X : Externals R) (hX : X.StackNeutral)
    (c : Call R) (s1 s2 : RenderStateGL2 R) (h : SameStacks s1 s2) :
    (exec L X c s1 = none ∧ exec L X c s2 = none) ∨
    ∃ t1 t2, exec L X c s1 = some t1 ∧ exec L X c s2 = some t2 ∧ SameStacks t1 t2 := by
  cases c with
  | pushMatrix => exact Or.inr ⟨_, _, rfl, rfl, sameStacks_pushMatrix s1 s2 h⟩
  | popMatrix =>
    cases hst : s1.m_matrixStack s1.m_matrixMode with
    | nil =>
      have hst2 : s2.m_matrixStack s2.m_matrixMode = [] := by
        rw [← h.1, ← h.2.2.1]
        exact hst
      left
      constructor
      · show RenderStateGL2.popMatrix s1 = none
        unfold RenderStateGL2.popMatrix
        simp only [hst]
      · show RenderStateGL2.popMatrix s2 = none
        unfold RenderStateGL2.popMatrix
        simp only [hst2]
    | cons top rest =>
      have hst2 : s2.m_matrixStack s2.m_matrixMode = top :: rest := by
        rw [← h.1, ← h.2.2.1]
        exact hst
      obtain ⟨t1, e1, a1, a2, a3, a4⟩ := RenderStateGL2.popMatrix_of_cons top rest s1 hst
      obtain ⟨t2, e2, b1, b2, b3, b4⟩ := RenderStateGL2.popMatrix_of_cons top rest s2 hst2
      refine Or.inr ⟨t1, t2, e1, e2, a1.trans (h.1.trans b1.symm), ?_, ?_,
        a4.trans (h.2.2.2.trans b4.symm)⟩
      · rw [a2, b2, h.1, h.2.1]
      · rw [a3, b3, h.1, h.2.2.1]
  | translate dx dy dz => exact Or.inr ⟨_, _, rfl, rfl, sameStacks_multiplyMatrix _ s1 s2 h⟩
  | rotate angle rx ry rz => exact Or.inr ⟨_, _, rfl, rfl, sameStacks_multiplyMatrix _ s1 s2 h⟩
  | scale sx sy sz => exact Or.inr ⟨_, _, rfl, rfl, sameStacks_multiplyMatrix _ s1 s2 h⟩
  | pushMaterial m => exact Or.inr ⟨_, _, rfl, rfl, sameStacks_pushMaterial m s1 s2 h⟩
  | popMaterial =>
    cases hst : s1.m_materialStack with
    | nil =>
      have hst2 : s2.m_materialStack = [] := by
        rw [← h.2.2.2]
        exact hst
      left
      constructor
      · show RenderStateGL2.popMaterial s1 = none
        unfold RenderStateGL2.popMaterial
        simp only [hst]
      · show RenderStateGL2.popMaterial s2 = none
        unfold RenderStateGL2.popMaterial
        simp only [hst2]
    | cons top rest =>
      have hst2 : s2.m_materialStack = top :: rest := by
        rw [← h.2.2.2]
        exact hst
      obtain ⟨t1, e1, a1, a2, a3, a4⟩ := RenderStateGL2.popMaterial_of_cons top rest s1 hst
      obtain ⟨t2, e2, b1, b2, b3, b4⟩ := RenderStateGL2.popMaterial_of_cons top rest s2 hst2
      exact Or.inr ⟨t1, t2, e1, e2, a1.trans (h.1.trans b1.symm), a2.trans (h.2.1.trans b2.symm),
        a3.trans (h.2.2.1.trans b3.symm), a4.trans b4.symm⟩
  | drawMesh name =>
    exact Or.inr ⟨_, _, rfl, rfl,
      sameStacks_trans (hX.2 name s1) (sameStacks_trans h (sameStacks_symm (hX.2 name s2)))⟩
  | dragon d method =>
    exact Or.inr ⟨_, _, rfl, rfl,
      sameStacks_trans (hX.1 d method s1)
        (sameStacks_trans h (sameStacks_symm (hX.1 d method s2)))⟩

theorem submits_congr (G : DragonGeometry R) (hG : G.Deterministic) (c : Call R)
    (s1 s2 : RenderStateGL2 R) (h : SameStacks s1 s2) : submits G c s1 = submits G c s2 := by
  cases c with
  | drawMesh name =>
    show [Submission.mk name (s1.m_matrix MatrixMode.ModelView) s1.m_materialStack.head?]
      = [Submission.mk name (s2.m_matrix MatrixMode.ModelView) s2.m_materialStack.head?]
    rw [h.2.1, h.2.2.2]
  | dragon d method => exact hG d method s1 s2 h
  | pushMatrix => rfl
  | popMatrix => rfl
  | translate dx dy dz => rfl
  | rotate angle rx ry rz => rfl
  | scale sx sy sz => rfl
  | pushMaterial m => rfl
  | popMaterial => rfl

/-- Run from two states with the same matrices and stacks, a call sequence submits the same
geometry. -/
theorem submitsAll_congr [Field R] (L : Matrix4Lib R) (X : Externals R) (hX : X.StackNeutral)
    (G : DragonGeometry R) (hG : G.Deterministic) (tr : List (Call R)) :
    ∀ s1 s2 : RenderStateGL2 R, SameStacks s1 s2 →
      submitsAll L X G tr s1 = submitsAll L X G tr s2 := by
  induction tr with
  | nil => intro s1 s2 _; rfl
  | cons c cs ih =>
    intro s1 s2 h
    simp only [submitsAll]
    rw [submits_congr G hG c s1 s2 h]
    rcases sameStacks_exec L X hX c s1 s2 h with ⟨e1, e2⟩ | ⟨t1, t2, e1, e2, ht⟩
    · rw [e1, e2]
    · rw [e1, e2]
      simp only
      rw [ih t1 t2 ht]

end Call

namespace DrawCall

variable {R : Type} [Field R]

/-- Outside an export bracket, a run of interface calls adds its geometry to what is drawn. -/
theorem execAll_calls_normal (L : Matrix4Lib R) (X : Externals R) (G : DragonGeometry R)
    (tr : List (Call R)) (rest : List (DrawCall R)) :
    ∀ (st : DrawState R) (rs1 : RenderStateGL2 R), st.m_exporting = false →
      Call.execAll L X tr st.rs = some rs1 →
      execAll L X G (tr.map DrawCall.call ++ rest) st =
        execAll L X G rest
          { st with rs := rs1
                    rasterized := st.rasterized ++ Call.submitsAll L X G tr st.rs } := by
  induction tr with
  | nil =>
    intro st rs1 _ h
    simp only [Call.execAll, Option.some.injEq] at h
    subst h
    simp [Call.submitsAll]
  | cons c cs ih =>
    intro st rs1 hexp h
    cases hc : Call.exec L X c st.rs with
    | none => simp [Call.execAll, hc] at h
    | some r =>
      simp only [Call.execAll, hc] at h
      have hstep : exec L X G (DrawCall.call c) st
          = some { st with rs := r, rasterized := st.rasterized ++ Call.submits G c st.rs } := by
        simp [exec, hc, hexp]
      have hih := ih { st with rs := r, rasterized := st.rasterized ++ Call.submits G c st.rs }
        rs1 hexp h
      have hgoal : execAll L X G ((c :: cs).map DrawCall.call ++ rest) st
          = execAll L X G (cs.map DrawCall.call ++ rest)
              { st with rs := r, rasterized := st.rasterized ++ Call.submits G c st.rs } := by
        show (match exec L X G (DrawCall.call c) st with
          | none => none
          | some st1 => execAll L X G (cs.map DrawCall.call ++ rest) st1) = _
        rw [hstep]
      rw [hgoal, hih]
      simp [Call.submitsAll, hc, List.append_assoc]

/-- Inside an export bracket, a run of interface calls appends its geometry to the exported
mesh. -/
theorem execAll_calls_export (L : Matrix4Lib R) (X : Externals R) (G : DragonGeometry R)
    (tr : List (Call R)) (rest : List (DrawCall R)) :
    ∀ (st : DrawState R) (rs1 : RenderStateGL2 R), st.m_exporting = true →
      Call.execAll L X tr st.rs = some rs1 →
      execAll L X G (tr.map DrawCall.call ++ rest) st =
        execAll L X G rest
          { st with rs := rs1
                    accumulated := st.accumulated ++ Call.submitsAll L X G tr st.rs } := by
  induction tr with
  | nil =>
    intro st rs1 _ h
    simp only [Call.execAll, Option.some.injEq] at h
    subst h
    simp [Call.submitsAll]
  | cons c cs ih =>
    intro st rs1 hexp h
    cases hc : Call.exec L X c st.rs with
    | none => simp [Call.execAll, hc] at h
    | some r =>
      simp only [Call.execAll, hc] at h
      have hstep : exec L X G (DrawCall.call c) st
          = some { st with rs := r, accumulated := st.accumulated ++ Call.submits G c st.rs } := by
        simp [exec, hc, hexp]
      have hih := ih { st with rs := r, accumulated := st.accumulated ++ Call.submits G c st.rs }
        rs1 hexp h
      have hgoal : execAll L X G ((c :: cs).map DrawCall.call ++ rest) st
          = execAll L X G (cs.map DrawCall.call ++ rest)
              { st with rs := r, accumulated := st.accumulated ++ Call.submits G c st.rs } := by
        show (match exec L X G (DrawCall.call c) st with
          | none => none
          | some st1 => execAll L X G (cs.map DrawCall.call ++ rest) st1) = _
        rw [hstep]
      rw [hgoal, hih]
      simp [Call.submitsAll, hc, List.append_assoc]

theorem execAll_begin (L : Matrix4Lib R) (X : Externals R) (G : DragonGeometry R)
    (path : String) (rest : List (DrawCall R)) (st : DrawState R) :
    execAll L X G (DrawCall.beginExportMesh path :: rest) st =
      execAll L X G rest
        { st with m_exporting := true, m_exportPath := path, accumulated := [] } :=
  rfl

theorem execAll_end (L : Matrix4Lib R) (X : Externals R) (G : DragonGeometry R)
    (st : DrawState R) :
    execAll L X G [DrawCall.endExportMesh] st =
      some { st with m_exporting := false
                     written := st.written ++ [(st.m_exportPath, st.accumulated)]
                     accumulated := [] } :=
  rfl

end DrawCall

theorem drawItem_nested {R : Type} [Field R] (sc : Scene R) (i : Item) :
    Call.nested 0 0 (Scene.drawItem sc i) = true := by
  cases i <;> rfl

/-- The camera calls always run to completion and submit no geometry. -/
theorem cameraTransform_runs {R : Type} [Field R] (L : Matrix4Lib R) (X : Externals R)
    (G : DragonGeometry R) (sc : Scene R) (i : Item) (s : RenderStateGL2 R) :
    ∃ s1, Call.execAll L X (Scene.cameraTransform sc i) s = some s1 ∧
      Call.submitsAll L X G (Scene.cameraTransform sc i) s = [] := by
  obtain ⟨hS, hN⟩ := cameraTransform_eq sc i
  by_cases hi : i = Item.SCENE
  · rw [hS hi]
    obtain ⟨s1, e, _⟩ := execAll_five_multiplies L X s
      sc.m_delta.x sc.m_delta.y sc.m_delta.z
      (sc.m_theta.x + sc.m_thetaCamera.x) 1.0 0.0 0.0
      (sc.m_theta.y + sc.m_thetaCamera.y) 0.0 1.0 0.0
      (sc.m_theta.z + sc.m_thetaCamera.z) 0.0 0.0 1.0
      sc.m_sigma sc.m_sigma sc.m_sigma
    exact ⟨s1, e, by simp only [Call.submitsAll, Call.submits, Call.exec, List.append_nil]⟩
  · rw [hN hi]
    obtain ⟨s1, e, _⟩ := execAll_five_multiplies L X s
      sc.m_delta.x sc.m_delta.y sc.m_delta.z
      sc.m_theta.x 1.0 0.0 0.0 sc.m_theta.y 0.0 1.0 0.0 sc.m_theta.z 0.0 0.0 1.0
      sc.m_sigma sc.m_sigma sc.m_sigma
    exact ⟨s1, e, by simp only [Call.submitsAll, Call.submits, Call.exec, List.append_nil]⟩

/-- C20: in a `Scene::draw()` with an export queued, run from a draw state that is not
exporting, with `Dragon` draw methods and `drawMesh` that are stack-balanced and `Dragon` draw
methods that are deterministic: the draw runs to completion, and the geometry written to
`"meshes/" + itemText(selected) + ".obj"` by the export pass is the same sequence of
submissions (same meshes, each under the same ModelView matrix and the same top material) as
the geometry drawn by the normal `drawItem` pass just before it. -/
theorem export_pass_same_geometry {R : Type} [Field R] (L : Matrix4Lib R) (X : Externals R)
    (G : DragonGeometry R) (hX : X.StackNeutral) (hG : G.Deterministic)
    (toItem : Int → Item) (sc : Scene R) (hq : sc.m_exportQueued = true)
    (st : DrawState R) (hst : st.m_exporting = false) :
    ∃ s1 st1,
      Call.execAll L X (Scene.cameraTransform sc (toItem sc.m_selected)) st.rs = some s1 ∧
      DrawCall.execAll L X G (Scene.draw toItem sc).1 st = some st1 ∧
      st1.rasterized = st.rasterized
        ++ Call.submitsAll L X G (Scene.drawItem sc (toItem sc.m_selected)) s1 ∧
      st1.written = st.written
        ++ [("meshes/" ++ Scene.itemText (toItem sc.m_selected) ++ ".obj",
              Call.submitsAll L X G (Scene.drawItem sc (toItem sc.m_selected)) s1)] ∧
      st1.m_exporting = false ∧ st1.accumulated = [] := by
  obtain ⟨s1, ecam, hcam⟩ := cameraTransform_runs L X G sc (toItem sc.m_selected) st.rs
  have hn := drawItem_nested sc (toItem sc.m_selected)
  obtain ⟨s2, e2, hs2⟩ := Call.execAll_of_nested L X hX s1 _ 0 0 s1 hn (Call.frame_entry s1)
  obtain ⟨s3, e3, _⟩ := Call.execAll_of_nested L X hX s2 _ 0 0 s2 hn (Call.frame_entry s2)
  have hsub := Call.submitsAll_congr L X hX G hG
    (Scene.drawItem sc (toItem sc.m_selected)) s2 s1 hs2
  have hrun : DrawCall.execAll L X G (Scene.draw toItem sc).1 st =
      some { rs := s3
             m_exporting := false
             m_exportPath := "meshes/" ++ Scene.itemText (toItem sc.m_selected) ++ ".obj"
             rasterized := st.rasterized
               ++ Call.submitsAll L X G (Scene.drawItem sc (toItem sc.m_selected)) s1
             accumulated := []
             written := st.written
               ++ [("meshes/" ++ Scene.itemText (toItem sc.m_selected) ++ ".obj",
                    Call.submitsAll L X G (Scene.drawItem sc (toItem sc.m_selected)) s2)] } := by
    rw [(draw_queued toItem sc hq).1, List.map_append, List.append_assoc,
      DrawCall.execAll_calls_normal L X G _ _ st s1 hst ecam,
      DrawCall.execAll_calls_normal L X G _ _
        { st with rs := s1
                  rasterized := st.rasterized
                    ++ Call.submitsAll L X G (Scene.cameraTransform sc (toItem sc.m_selected))
                        st.rs }
        s2 hst e2,
      List.append_assoc, List.singleton_append, DrawCall.execAll_begin,
      DrawCall.execAll_calls_export L X G _ _
        { rs := s2
          m_exporting := true
          m_exportPath := "meshes/" ++ Scene.itemText (toItem sc.m_selected) ++ ".obj"
          rasterized := st.rasterized
            ++ Call.submitsAll L X G (Scene.cameraTransform sc (toItem sc.m_selected)) st.rs
            ++ Call.submitsAll L X G (Scene.drawItem sc (toItem sc.m_selected)) s1
          accumulated := []
          written := st.written }
        s3 rfl e3,
      DrawCall.execAll_end]
    simp only [hcam, List.append_nil, List.nil_append]
  refine ⟨s1, _, ecam, hrun, rfl, ?_, rfl, rfl⟩
  simp only [hsub]

theorem single_deterministic {R : Type} : (DragonGeometry.single : DragonGeometry R).Deterministic := by
  intro d m s1 s2 h
  show [Submission.mk "dragon" (s1.m_matrix MatrixMode.ModelView) s1.m_materialStack.head?]
    = [Submission.mk "dragon" (s2.m_matrix MatrixMode.ModelView) s2.m_materialStack.head?]
  rw [h.2.1, h.2.2.2]

/-- Witness for C20: the sample scene with an export queued, drawn on a freshly constructed
shader backend. -/
theorem export_pass_same_geometry_witness :
    (Externals.idle : Externals ℚ).StackNeutral ∧
    (DragonGeometry.single : DragonGeometry ℚ).Deterministic ∧
    (Scene.exportCurrentItem sampleScene).m_exportQueued = true ∧
    sampleDrawState.m_exporting = false ∧
    ∃ s1 st1,
      Call.execAll sampleLib Externals.idle
        (Scene.cameraTransform (Scene.exportCurrentItem sampleScene)
          (sampleToItem (Scene.exportCurrentItem sampleScene).m_selected))
        sampleDrawState.rs = some s1 ∧
      DrawCall.execAll sampleLib Externals.idle DragonGeometry.single
        (Scene.draw sampleToItem (Scene.exportCurrentItem sampleScene)).1 sampleDrawState
        = some st1 ∧
      st1.rasterized = sampleDrawState.rasterized
        ++ Call.submitsAll sampleLib Externals.idle DragonGeometry.single
            (Scene.drawItem (Scene.exportCurrentItem sampleScene)
              (sampleToItem (Scene.exportCurrentItem sampleScene).m_selected)) s1 ∧
      st1.written = sampleDrawState.written
        ++ [("meshes/" ++ Scene.itemText
                (sampleToItem (Scene.exportCurrentItem sampleScene).m_selected) ++ ".obj",
              Call.submitsAll sampleLib Externals.idle DragonGeometry.single
                (Scene.drawItem (Scene.exportCurrentItem sampleScene)
                  (sampleToItem (Scene.exportCurrentItem sampleScene).m_selected)) s1)] ∧
      st1.m_exporting = false ∧ st1.accumulated = [] :=
  ⟨idle_stackNeutral, single_deterministic, rfl, rfl,
    export_pass_same_geometry sampleLib Externals.idle DragonGeometry.single idle_stackNeutral
      single_deterministic sampleToItem (Scene.exportCurrentItem sampleScene) rfl
      sampleDrawState rfl⟩

/-! ## Periodicity of the spaced waveforms -/

section Periodicity

variable {α : Type} [LinearOrderedField α] [FloorRing α]

theorem sawtooth_add_one (t : α) : sawtooth (t + 1) = sawtooth t := by
  rw [sawtooth_eq_fract, sawtooth_eq_fract]
  exact Int.fract_add_one t

theorem spaced_rect_add_period (t w a : α) (h : w + a ≠ 0) :
    spaced_rect (t + (w + a)) w a = spaced_rect t w a := by
  have e : (t + (w + a)) / (w + a) = t / (w + a) + 1 := by
    field_simp
  unfold spaced_rect
  rw [e, sawtooth_add_one]

theorem spaced_sawtooth_add_period (x w a : α) (h : w + a ≠ 0) :
    spaced_sawtooth (x + (w + a)) w a = spaced_sawtooth x w a := by
  have e : (x + (w + a) - w) / (w + a) = (x - w) / (w + a) + 1 := by
    field_simp
    ring
  unfold spaced_sawtooth
  rw [spaced_rect_add_period x w a h, e, sawtooth_add_one]

end Periodicity

/-- C25: for `w, a > 0` and every real `t`, `spaced_rect`, `spaced_sawtooth` and `spaced_cos`
take the same value at `t + (w + a)` as at `t`. -/
theorem spaced_waveforms_periodic (t w a : ℝ) (hw : 0 < w) (ha : 0 < a) :
    spaced_rect (t + (w + a)) w a = spaced_rect t w a ∧
    spaced_sawtooth (t + (w + a)) w a = spaced_sawtooth t w a ∧
    spaced_cos (t + (w + a)) w a = spaced_cos t w a := by
  have h : w + a ≠ 0 := ne_of_gt (add_pos hw ha)
  refine ⟨spaced_rect_add_period t w a h, spaced_sawtooth_add_period t w a h, ?_⟩
  unfold spaced_cos
  rw [spaced_sawtooth_add_period t w a h]

/-- Witness for C25 with the body-joint window `w = 5`, `a = 2` at `t = 6`. -/
theorem spaced_waveforms_periodic_witness :
    (0 : ℝ) < 5 ∧ (0 : ℝ) < 2 ∧
    (spaced_rect ((6 : ℝ) + (5 + 2)) 5 2 = spaced_rect (6 : ℝ) 5 2 ∧
    spaced_sawtooth ((6 : ℝ) + (5 + 2)) 5 2 = spaced_sawtooth (6 : ℝ) 5 2 ∧
    spaced_cos ((6 : ℝ) + (5 + 2)) 5 2 = spaced_cos (6 : ℝ) 5 2) :=
  ⟨by norm_num, by norm_num, spaced_waveforms_periodic 6 5 2 (by norm_num) (by norm_num)⟩

/-! ## Item names and export paths -/

/-- C27: `Scene::itemText` is injective on the items, never returns `"UNKNOWN"` for one of
them, and the export paths `"meshes/" + itemText(i) + ".obj"` of two distinct items are
distinct. -/
theorem itemText_injective :
    Function.Injective Scene.itemText ∧
    (∀ i : Item, Scene.itemText i ≠ "UNKNOWN") ∧
    (∀ i j : Item, i ≠ j →
      "meshes/" ++ Scene.itemText i ++ ".obj" ≠ "meshes/" ++ Scene.itemText j ++ ".obj") := by
  have hinj : ∀ i j : Item, Scene.itemText i = Scene.itemText j → i = j := by
    intro i j
    cases i <;> cases j <;> first | (intro _; rfl) | (intro h; exact absurd h (by decide))
  refine ⟨hinj, ?_, ?_⟩
  · intro i
    cases i <;> decide
  · intro i j hij h
    apply hij
    apply hinj
    have h1 := congrArg String.data h
    simp only [String.data_append, List.append_assoc] at h1
    have h2 := List.append_cancel_left h1
    have h3 := List.append_cancel_right h2
    exact String.ext h3

/-! ## Frame of `setupViewport` -/

theorem gl1_setupViewport_frame {R : Type} [Field R] (L : Matrix4Lib R) (w h : Int)
    (s : RenderStateGL1 R) :
    (RenderStateGL1.setupViewport L w h s).gl.matrixMode = MatrixMode.ModelView ∧
    (RenderStateGL1.setupViewport L w h s).gl.matrix MatrixMode.ModelView
      = s.gl.matrix MatrixMode.ModelView ∧
    (RenderStateGL1.setupViewport L w h s).gl.matrix MatrixMode.Texture
      = s.gl.matrix MatrixMode.Texture ∧
    (RenderStateGL1.setupViewport L w h s).gl.matrixStack = s.gl.matrixStack ∧
    (RenderStateGL1.setupViewport L w h s).m_materialStack = s.m_materialStack := by
  unfold RenderStateGL1.setupViewport
  simp only [RenderStateGL1.setMatrixMode, RenderStateGL1.loadIdentity,
    RenderStateGL1.multiplyMatrix, GLFixedContext.glMatrixMode, GLFixedContext.glLoadIdentity,
    GLFixedContext.glMultMatrixf]
  split_ifs <;> simp

theorem gl2_setupViewport_state {R : Type} [Field R] (L : Matrix4Lib R) (w h : Int)
    (s : RenderStateGL2 R) :
    RenderStateGL2.setupViewport L w h s =
      { s with
        m_matrixMode := MatrixMode.ModelView
        m_matrix := Function.update s.m_matrix MatrixMode.Projection
          ((RenderStateGL2.setupViewport L w h s).m_matrix MatrixMode.Projection)
        gl := { s.gl with viewport := (0, 0, w, h) } } := by
  unfold RenderStateGL2.setupViewport
  simp only [RenderStateGL2.setMatrixMode, RenderStateGL2.loadIdentity,
    RenderStateGL2.multiplyMatrix]
  split_ifs <;> simp

/-- C28: in the shader backend `setupViewport(w, h)` returns with ModelView selected whatever
mode was selected before, leaves the ModelView and Texture matrices and all saved stacks
unchanged, and sets a Projection matrix that does not depend on the previous one (two states
with the same projection flag get the same matrix); apart from the Projection matrix and the
selected mode it only sets the OpenGL viewport. The fixed-function `setupViewport` has the same
effect on the matrices of its context. -/
theorem setupViewport_changes_projection_only {R : Type} [LinearOrderedField R]
    (L : Matrix4Lib R) (w h : Int)
    (s s0 : RenderStateGL2 R) (hflag : s0.m_projection = s.m_projection)
    (g g0 : RenderStateGL1 R) (hflag1 : g0.m_projection = g.m_projection) :
    ((RenderStateGL2.setupViewport L w h s).m_matrixMode = MatrixMode.ModelView ∧
      (RenderStateGL2.setupViewport L w h s).m_matrix MatrixMode.ModelView
        = s.m_matrix MatrixMode.ModelView ∧
      (RenderStateGL2.setupViewport L w h s).m_matrix MatrixMode.Texture
        = s.m_matrix MatrixMode.Texture ∧
      (RenderStateGL2.setupViewport L w h s).m_matrixStack = s.m_matrixStack ∧
      (RenderStateGL2.setupViewport L w h s).m_matrix MatrixMode.Projection
        = (RenderStateGL2.setupViewport L w h s0).m_matrix MatrixMode.Projection ∧
      RenderStateGL2.setupViewport L w h s =
        { s with
          m_matrixMode := MatrixMode.ModelView
          m_matrix := Function.update s.m_matrix MatrixMode.Projection
            ((RenderStateGL2.setupViewport L w h s).m_matrix MatrixMode.Projection)
          gl := { s.gl with viewport := (0, 0, w, h) } }) ∧
    ((RenderStateGL1.setupViewport L w h g).gl.matrixMode = MatrixMode.ModelView ∧
      (RenderStateGL1.setupViewport L w h g).gl.matrix MatrixMode.ModelView
        = g.gl.matrix MatrixMode.ModelView ∧
      (RenderStateGL1.setupViewport L w h g).gl.matrix MatrixMode.Texture
        = g.gl.matrix MatrixMode.Texture ∧
      (RenderStateGL1.setupViewport L w h g).gl.matrixStack = g.gl.matrixStack ∧
      (RenderStateGL1.setupViewport L w h g).gl.matrix MatrixMode.Projection
        = (RenderStateGL1.setupViewport L w h g0).gl.matrix MatrixMode.Projection) := by
  obtain ⟨a1, a2, a3, a4, _⟩ := gl2_setupViewport_modelView L w h s
  obtain ⟨b1, b2, b3, b4, _⟩ := gl1_setupViewport_frame L w h g
  refine ⟨⟨a1, a2, a3, a4, ?_, gl2_setupViewport_state L w h s⟩, ⟨b1, b2, b3, b4, ?_⟩⟩
  · rw [gl2_setupViewport_projection, gl2_setupViewport_projection, hflag]
  · rw [gl1_setupViewport_projection, gl1_setupViewport_projection, hflag1]

/-- Witness for C28: a freshly constructed backend and the same backend after a frame has been
begun (different Projection matrix and saved stack, same projection flag). -/
theorem setupViewport_changes_projection_only_witness :
    (RenderStateGL2.beginFrame sampleLib 640 480 sampleGL2).m_projection
      = sampleGL2.m_projection ∧
    (RenderStateGL1.beginFrame sampleLib 640 480 sampleGL1).m_projection
      = sampleGL1.m_projection ∧
    (RenderStateGL2.setupViewport sampleLib 800 600 sampleGL2).m_matrixMode
      = MatrixMode.ModelView ∧
    (RenderStateGL2.setupViewport sampleLib 800 600 sampleGL2).m_matrix MatrixMode.Projection
      = (RenderStateGL2.setupViewport sampleLib 800 600
          (RenderStateGL2.beginFrame sampleLib 640 480 sampleGL2)).m_matrix
          MatrixMode.Projection :=
  ⟨rfl, rfl,
    (setupViewport_changes_projection_only sampleLib 800 600 sampleGL2
      (RenderStateGL2.beginFrame sampleLib 640 480 sampleGL2) rfl sampleGL1
      (RenderStateGL1.beginFrame sampleLib 640 480 sampleGL1) rfl).1.1,
    (setupViewport_changes_projection_only sampleLib 800 600 sampleGL2
      (RenderStateGL2.beginFrame sampleLib 640 480 sampleGL2) rfl sampleGL1
      (RenderStateGL1.beginFrame sampleLib 640 480 sampleGL1) rfl).1.2.2.2.2.1⟩

/-! ## Frame bracket around balanced matrix operations -/

namespace MatrixOp

variable {R : Type}

theorem within_entry (s : RenderStateGL2 R) : Within 0 s s :=
  ⟨s.m_matrix s.m_matrixMode, [], rfl, (Function.update_eq_self _ _).symm, by simp, rfl, rfl,
    rfl⟩

theorem within_setCurrent (d : Nat) (s0 s1 : RenderStateGL2 R) (M : matrix4 R)
    (h : Within d s0 s1) :
    Within d s0 { s1 with m_matrix := Function.update s1.m_matrix s1.m_matrixMode M } := by
  obtain ⟨cur, pushed, h1, h2, h3, h4, h5, h6⟩ := h
  refine ⟨M, pushed, h1, ?_, h3, h4, h5, h6⟩
  show Function.update s1.m_matrix s1.m_matrixMode M = _
  rw [h1, h2, Function.update_idem]

theorem within_pushMatrix (d : Nat) (s0 s1 : RenderStateGL2 R) (h : Within d s0 s1) :
    Within (d + 1) s0 (RenderStateGL2.pushMatrix s1) := by
  obtain ⟨cur, pushed, h1, h2, h3, h4, h5, h6⟩ := h
  refine ⟨cur, cur :: pushed, h1, h2, ?_, h4, h5, by simp [h6]⟩
  show Function.update s1.m_matrixStack s1.m_matrixMode
    (s1.m_matrix s1.m_matrixMode :: s1.m_matrixStack s1.m_matrixMode) = _
  rw [h1, h2, h3, Function.update_same, Function.update_same, Function.update_idem,
    List.cons_append]

theorem within_popMatrix (d : Nat) (s0 s1 : RenderStateGL2 R) (h : Within (d + 1) s0 s1) :
    ∃ s2, RenderStateGL2.popMatrix s1 = some s2 ∧ Within d s0 s2 := by
  obtain ⟨cur, pushed, h1, h2, h3, h4, h5, h6⟩ := h
  cases pushed with
  | nil => simp at h6
  | cons t rest =>
    have hstack : s1.m_matrixStack s1.m_matrixMode
        = t :: (rest ++ s0.m_matrixStack s0.m_matrixMode) := by
      rw [h1, h3, Function.update_same, List.cons_append]
    have e : RenderStateGL2.popMatrix s1 = some
        { s1 with m_matrix := Function.update s1.m_matrix s1.m_matrixMode t
                  m_matrixStack := Function.update s1.m_matrixStack s1.m_matrixMode
                    (rest ++ s0.m_matrixStack s0.m_matrixMode) } := by
      unfold RenderStateGL2.popMatrix
      simp only [hstack]
    refine ⟨_, e, t, rest, h1, ?_, ?_, h4, h5, by simpa using h6⟩
    · show Function.update s1.m_matrix s1.m_matrixMode t = _
      rw [h1, h2, Function.update_idem]
    · show Function.update s1.m_matrixStack s1.m_matrixMode _ = _
      rw [h1, h3, Function.update_idem]

/-- A stack-balanced sequence of matrix operations runs to completion and leaves the selected
mode, the saved stacks, the other modes' matrices, the material stack and the OpenGL context as
they were. -/
theorem execAll_of_balanced [Field R] (L : Matrix4Lib R) (s0 : RenderStateGL2 R)
    (ops : List (MatrixOp R)) :
    ∀ (d : Nat) (s1 : RenderStateGL2 R), balanced d ops = true → Within d s0 s1 →
      ∃ s2, execAll L ops s1 = some s2 ∧ Within 0 s0 s2 := by
  induction ops with
  | nil =>
    intro d s1 h hw
    simp only [balanced, beq_iff_eq] at h
    subst h
    exact ⟨s1, rfl, hw⟩
  | cons op ops ih =>
    intro d s1 h hw
    cases op with
    | loadIdentity =>
      simp only [balanced] at h
      exact ih d _ h (within_setCurrent d s0 s1 1 hw)
    | multiplyMatrix m =>
      simp only [balanced] at h
      exact ih d _ h (within_setCurrent d s0 s1 _ hw)
    | pushMatrix =>
      simp only [balanced] at h
      exact ih _ _ h (within_pushMatrix d s0 s1 hw)
    | popMatrix =>
      cases d with
      | zero => simp [balanced] at h
      | succ d1 =>
        simp only [balanced] at h
        obtain ⟨s2, e, hw2⟩ := within_popMatrix d1 s0 s1 hw
        obtain ⟨s3, e3, hw3⟩ := ih d1 s2 h hw2
        exact ⟨s3, by simp only [execAll, exec, e, e3], hw3⟩
    | translate dx dy dz =>
      simp only [balanced] at h
      exact ih d _ h (within_setCurrent d s0 s1 _ hw)
    | rotate angle rx ry rz =>
      simp only [balanced] at h
      exact ih d _ h (within_setCurrent d s0 s1 _ hw)
    | scale sx sy sz =>
      simp only [balanced] at h
      exact ih d _ h (within_setCurrent d s0 s1 _ hw)

end MatrixOp

theorem gl2_beginFrame_stacks {R : Type} [Field R] (L : Matrix4Lib R) (w h : Int)
    (s : RenderStateGL2 R) :
    (RenderStateGL2.beginFrame L w h s).m_matrixStack
      = Function.update s.m_matrixStack MatrixMode.ModelView
          (s.m_matrix MatrixMode.ModelView :: s.m_matrixStack MatrixMode.ModelView) := by
  have hv := gl2_setupViewport_modelView L w h
  unfold RenderStateGL2.beginFrame
  simp only [RenderStateGL2.setMatrixMode, RenderStateGL2.loadIdentity,
    RenderStateGL2.pushMatrix, (hv _).2.1, (hv _).2.2.2.1,
    RenderStateGL2.setUniformValue_frame]

/-- C26: in the shader backend, for every prior state (whatever mode was selected), after
`beginFrame(w, h)` the selected mode is ModelView and the ModelView matrix is the identity; every
stack-balanced sequence of matrix operations then runs to completion, and the `endFrame()` that
follows returns with the ModelView matrix and its saved stack equal to their values before
`beginFrame`, while the Projection matrix is the one set by `setupViewport` (its saved stack is
untouched). -/
theorem frame_restores_modelView {R : Type} [LinearOrderedField R] (L : Matrix4Lib R)
    (w h : Int)
    (s : RenderStateGL2 R) (ops : List (MatrixOp R))
    (hops : MatrixOp.balanced 0 ops = true) :
    (RenderStateGL2.beginFrame L w h s).m_matrixMode = MatrixMode.ModelView ∧
    (RenderStateGL2.beginFrame L w h s).m_matrix MatrixMode.ModelView = 1 ∧
    ∃ t e, MatrixOp.execAll L ops (RenderStateGL2.beginFrame L w h s) = some t ∧
      RenderStateGL2.endFrame t = some e ∧
      e.m_matrixMode = MatrixMode.ModelView ∧
      e.m_matrix MatrixMode.ModelView = s.m_matrix MatrixMode.ModelView ∧
      e.m_matrixStack MatrixMode.ModelView = s.m_matrixStack MatrixMode.ModelView ∧
      e.m_matrix MatrixMode.Projection
        = (RenderStateGL2.setupViewport L w h s).m_matrix MatrixMode.Projection ∧
      e.m_matrixStack MatrixMode.Projection = s.m_matrixStack MatrixMode.Projection := by
  obtain ⟨hb1, hb2, hb3, hb4, _⟩ := gl2_beginFrame_modelView L w h s
  have hbs := gl2_beginFrame_stacks L w h s
  have hbp := gl2_beginFrame_projection L w h s
  refine ⟨hb1, hb2, ?_⟩
  obtain ⟨t, et, cur, pushed, w1, w2, w3, _, w5, w6⟩ :=
    MatrixOp.execAll_of_balanced L (RenderStateGL2.beginFrame L w h s) ops 0 _ hops
      (MatrixOp.within_entry _)
  have hp : pushed = [] := List.length_eq_zero.mp w6
  subst hp
  rw [hb1] at w1 w2 w3
  rw [List.nil_append, Function.update_eq_self] at w3
  have hstack : t.m_matrixStack MatrixMode.ModelView
      = s.m_matrix MatrixMode.ModelView :: s.m_matrixStack MatrixMode.ModelView := by
    rw [w3, hb3]
  have hen : t.gl.enableStack = s.gl.depthTest :: s.gl.enableStack := by
    rw [w5, hb4]
  obtain ⟨e, ee, g1, g2, g3, _⟩ := gl2_endFrame_of_cons t _ _ _ _ hstack hen
  refine ⟨t, e, et, ee, g1, ?_, ?_, ?_, ?_⟩
  · rw [g2, Function.update_same]
  · rw [g3, Function.update_same]
  · rw [g2, Function.update_noteq (by decide), w2, Function.update_noteq (by decide), hbp]
  · rw [g3, Function.update_noteq (by decide), w3, hbs, Function.update_noteq (by decide)]

/-- Witness for C26: a frame on a freshly constructed shader backend around the sample
operations. -/
theorem frame_restores_modelView_witness :
    MatrixOp.balanced 0 sampleOps = true ∧
    ∃ t e, MatrixOp.execAll sampleLib sampleOps
        (RenderStateGL2.beginFrame sampleLib 800 600 sampleGL2) = some t ∧
      RenderStateGL2.endFrame t = some e ∧
      e.m_matrixMode = MatrixMode.ModelView ∧
      e.m_matrix MatrixMode.ModelView = sampleGL2.m_matrix MatrixMode.ModelView ∧
      e.m_matrixStack MatrixMode.ModelView = sampleGL2.m_matrixStack MatrixMode.ModelView ∧
      e.m_matrix MatrixMode.Projection
        = (RenderStateGL2.setupViewport sampleLib 800 600 sampleGL2).m_matrix
            MatrixMode.Projection ∧
      e.m_matrixStack MatrixMode.Projection = sampleGL2.m_matrixStack MatrixMode.Projection :=
  ⟨rfl, (frame_restores_modelView sampleLib 800 600 sampleGL2 sampleOps rfl).2.2⟩

/-! ## Animation tick -/

/-- C21: after an animation tick at elapsed time `t` (for `Scene`, `t = now - m_started`), the
hovering dragon's alpha is `cos(3.5 t + pi)` and the jumping dragon's beta is
`1.20 * sqrt(|cos 5t - cos 6t + cos 7t|)`, in `Scene` whatever `Dragon::animate` does, and in
`DragonScene`; at `t = 0` these are `-1` and `1.20`. -/
theorem animate_bob_parameters (dragonAnimate : ℝ → Dragon ℝ → Dragon ℝ) (now : ℝ)
    (sc : Scene ℝ) (t : ℝ) (st : DragonScene × (Fin 3 → DragonPose ℝ)) :
    ((Scene.animate dragonAnimate now sc).m_dragons 0).alpha
      = Real.cos ((now - sc.m_started) * 3.5 + Real.pi) ∧
    ((Scene.animate dragonAnimate now sc).m_dragons 2).beta
      = 1.20 * Real.sqrt |Real.cos (5.0 * (now - sc.m_started))
          - Real.cos (6.0 * (now - sc.m_started)) + Real.cos (7.0 * (now - sc.m_started))| ∧
    ((Scene.animate dragonAnimate sc.m_started sc).m_dragons 0).alpha = -1 ∧
    ((Scene.animate dragonAnimate sc.m_started sc).m_dragons 2).beta = 1.20 ∧
    ((DragonScene.animate t st).2 0).alpha = Real.cos (t * 3.5 + Real.pi) ∧
    ((DragonScene.animate t st).2 2).beta
      = 1.20 * Real.sqrt |Real.cos (5.0 * t) - Real.cos (6.0 * t) + Real.cos (7.0 * t)| ∧
    ((DragonScene.animate 0 st).2 0).alpha = -1 ∧
    ((DragonScene.animate 0 st).2 2).beta = 1.20 := by
  have hzero : (1.20 : ℝ) * Real.sqrt |Real.cos (5.0 * 0) - Real.cos (6.0 * 0)
      + Real.cos (7.0 * 0)| = 1.20 := by
    simp
  have hpi : Real.cos ((0 : ℝ) * 3.5 + Real.pi) = -1 := by
    rw [zero_mul, zero_add, Real.cos_pi]
  refine ⟨rfl, rfl, ?_, ?_, rfl, rfl, ?_, ?_⟩
  · show Real.cos ((sc.m_started - sc.m_started) * 3.5 + Real.pi) = -1
    rw [sub_self, hpi]
  · show (1.20 : ℝ) * Real.sqrt |Real.cos (5.0 * (sc.m_started - sc.m_started))
      - Real.cos (6.0 * (sc.m_started - sc.m_started))
      + Real.cos (7.0 * (sc.m_started - sc.m_started))| = 1.20
    rw [sub_self, hzero]
  · exact hpi
  · exact hzero

/-- C22: after `Scene::animate()` at elapsed time `t = now - m_started`, with
`angle = fmod(45 t, 360)`: `thetaCamera.y` is 0 in `Camera_Static` mode (and for a camera value
that is none of the enumerators), `angle` in `Camera_Jumping` mode, which is the alpha just
given to dragon 2, and `-angle` in `Camera_Flying` mode, which is minus the alpha just given to
dragon 1; `thetaCamera.x` and `thetaCamera.z` are unchanged. -/
theorem animate_camera_yaw (dragonAnimate : ℝ → Dragon ℝ → Dragon ℝ) (now : ℝ)
    (sc : Scene ℝ) :
    (sc.m_camera = Camera.Camera_Static →
      (Scene.animate dragonAnimate now sc).m_thetaCamera.y = 0) ∧
    (sc.m_camera = Camera.Camera_Jumping →
      (Scene.animate dragonAnimate now sc).m_thetaCamera.y
        = fmod ((now - sc.m_started) * 45.0) 360.0 ∧
      (Scene.animate dragonAnimate now sc).m_thetaCamera.y
        = ((Scene.animate dragonAnimate now sc).m_dragons 2).alpha) ∧
    (sc.m_camera = Camera.Camera_Flying →
      (Scene.animate dragonAnimate now sc).m_thetaCamera.y
        = -fmod ((now - sc.m_started) * 45.0) 360.0 ∧
      (Scene.animate dragonAnimate now sc).m_thetaCamera.y
        = -((Scene.animate dragonAnimate now sc).m_dragons 1).alpha) ∧
    Scene.cameraYaw none (fmod ((now - sc.m_started) * 45.0) 360.0) = 0 ∧
    ((Scene.animate dragonAnimate now sc).m_dragons 1).alpha
      = fmod ((now - sc.m_started) * 45.0) 360.0 ∧
    ((Scene.animate dragonAnimate now sc).m_dragons 2).alpha
      = fmod ((now - sc.m_started) * 45.0) 360.0 ∧
    (Scene.animate dragonAnimate now sc).m_thetaCamera.x = sc.m_thetaCamera.x ∧
    (Scene.animate dragonAnimate now sc).m_thetaCamera.z = sc.m_thetaCamera.z := by
  have hy : (Scene.animate dragonAnimate now sc).m_thetaCamera.y
      = Scene.cameraYaw (some sc.m_camera) (fmod ((now - sc.m_started) * 45.0) 360.0) := rfl
  have h1 : ((Scene.animate dragonAnimate now sc).m_dragons 1).alpha
      = fmod ((now - sc.m_started) * 45.0) 360.0 := rfl
  have h2 : ((Scene.animate dragonAnimate now sc).m_dragons 2).alpha
      = fmod ((now - sc.m_started) * 45.0) 360.0 := rfl
  have h0 : ∀ x : ℝ, Scene.cameraYaw none x = 0 := by
    intro x
    simp only [Scene.cameraYaw]
    norm_num
  refine ⟨fun h => ?_, fun h => ?_, fun h => ?_, h0 _, h1, h2, rfl, rfl⟩
  · rw [hy, h]
    simp only [Scene.cameraYaw]
    norm_num
  · rw [h2, hy, h]
    exact ⟨rfl, rfl⟩
  · rw [h1, hy, h]
    exact ⟨rfl, rfl⟩

/-- C23 (counterexample): two ticks of `DragonScene::animate` at the same time `t = 0`, from two
prior poses that differ in the beta of the hovering dragon (0 and 1), leave different poses:
`animate` never writes dragon 0's beta, which keeps its prior value. -/
theorem hovering_beta_survives_tick :
    ((DragonScene.animate 0 restingDragons).2 0).beta = 0 ∧
    ((DragonScene.animate 0 swayedDragons).2 0).beta = 1 ∧
    (DragonScene.animate 0 restingDragons).2 ≠ (DragonScene.animate 0 swayedDragons).2 := by
  have h0 : ((DragonScene.animate 0 restingDragons).2 0).beta = 0 := rfl
  have h1 : ((DragonScene.animate 0 swayedDragons).2 0).beta = 1 := rfl
  refine ⟨h0, h1, fun h => ?_⟩
  have h2 := congrArg (fun f : Fin 3 → DragonPose ℝ => (f 0).beta) h
  simp only [h0, h1] at h2
  exact zero_ne_one h2

/-- C23 (amended): modelling the clock reading as an input, after one tick of
`DragonScene::animate` at time `t` every pose member of the three dragons except the beta of
the hovering dragon (dragon 0), which keeps its prior value, is determined by `t` alone: two
ticks at the same `t` from any two prior states give the same poses for dragons 1 and 2 and
poses of dragon 0 that agree on every member but beta. After `Scene::animate` at elapsed time
`t`, the alpha of the three dragons and the beta of dragons 1 and 2 are determined by `t`
alone, whatever `Dragon::animate` does. -/
theorem pose_determined_by_time (t : ℝ) (st1 st2 : DragonScene × (Fin 3 → DragonPose ℝ))
    (animate1 animate2 : ℝ → Dragon ℝ → Dragon ℝ) (now1 now2 : ℝ) (sc1 sc2 : Scene ℝ)
    (h1 : now1 - sc1.m_started = t) (h2 : now2 - sc2.m_started = t) :
    (DragonScene.animate t st1).2 1 = (DragonScene.animate t st2).2 1 ∧
    (DragonScene.animate t st1).2 2 = (DragonScene.animate t st2).2 2 ∧
    { (DragonScene.animate t st1).2 0 with beta := 0 }
      = { (DragonScene.animate t st2).2 0 with beta := 0 } ∧
    ((DragonScene.animate t st1).2 0).beta = (st1.2 0).beta ∧
    ((Scene.animate animate1 now1 sc1).m_dragons 0).alpha
      = ((Scene.animate animate2 now2 sc2).m_dragons 0).alpha ∧
    ((Scene.animate animate1 now1 sc1).m_dragons 1).alpha
      = ((Scene.animate animate2 now2 sc2).m_dragons 1).alpha ∧
    ((Scene.animate animate1 now1 sc1).m_dragons 2).alpha
      = ((Scene.animate animate2 now2 sc2).m_dragons 2).alpha ∧
    ((Scene.animate animate1 now1 sc1).m_dragons 1).beta
      = ((Scene.animate animate2 now2 sc2).m_dragons 1).beta ∧
    ((Scene.animate animate1 now1 sc1).m_dragons 2).beta
      = ((Scene.animate animate2 now2 sc2).m_dragons 2).beta := by
  have a0 : ∀ (f : ℝ → Dragon ℝ → Dragon ℝ) (now : ℝ) (sc : Scene ℝ),
      ((Scene.animate f now sc).m_dragons 0).alpha
        = Real.cos ((now - sc.m_started) * 3.5 + Real.pi) := fun _ _ _ => rfl
  have a1 : ∀ (f : ℝ → Dragon ℝ → Dragon ℝ) (now : ℝ) (sc : Scene ℝ),
      ((Scene.animate f now sc).m_dragons 1).alpha
        = fmod ((now - sc.m_started) * 45.0) 360.0 := fun _ _ _ => rfl
  have a2 : ∀ (f : ℝ → Dragon ℝ → Dragon ℝ) (now : ℝ) (sc : Scene ℝ),
      ((Scene.animate f now sc).m_dragons 2).alpha
        = fmod ((now - sc.m_started) * 45.0) 360.0 := fun _ _ _ => rfl
  have b1 : ∀ (f : ℝ → Dragon ℝ → Dragon ℝ) (now : ℝ) (sc : Scene ℝ),
      ((Scene.animate f now sc).m_dragons 1).beta
        = Real.cos ((now - sc.m_started) * 3.5) * Real.cos (now - sc.m_started)
          * Real.cos (now - sc.m_started) := fun _ _ _ => rfl
  have b2 : ∀ (f : ℝ → Dragon ℝ → Dragon ℝ) (now : ℝ) (sc : Scene ℝ),
      ((Scene.animate f now sc).m_dragons 2).beta
        = 1.20 * Real.sqrt |Real.cos (5.0 * (now - sc.m_started))
          - Real.cos (6.0 * (now - sc.m_started)) + Real.cos (7.0 * (now - sc.m_started))| :=
    fun _ _ _ => rfl
  refine ⟨rfl, rfl, rfl, rfl, ?_, ?_, ?_, ?_, ?_⟩
  · rw [a0, a0, h1, h2]
  · rw [a1, a1, h1, h2]
  · rw [a2, a2, h1, h2]
  · rw [b1, b1, h1, h2]
  · rw [b2, b2, h1, h2]

/-- Witness for C23 (amended): the two sample dragon scenes at `t = 2`, and the sample scene
(started at clock reading 10) at clock reading 12, with two different `Dragon::animate`. -/
theorem pose_determined_by_time_witness :
    (12 : ℝ) - realScene.m_started = 2 ∧
    (DragonScene.animate 2 restingDragons).2 1 = (DragonScene.animate 2 swayedDragons).2 1 ∧
    (DragonScene.animate 2 restingDragons).2 2 = (DragonScene.animate 2 swayedDragons).2 2 ∧
    { (DragonScene.animate 2 restingDragons).2 0 with beta := 0 }
      = { (DragonScene.animate 2 swayedDragons).2 0 with beta := 0 } :=
  have h : (12 : ℝ) - realScene.m_started = 2 := by
    show (12 : ℝ) - 10 = 2
    norm_num
  ⟨h,
    (pose_determined_by_time 2 restingDragons swayedDragons (fun _ d => d)
      (fun _ d => { d with beta := 7 }) 12 12 realScene realScene h h).1,
    (pose_determined_by_time 2 restingDragons swayedDragons (fun _ d => d)
      (fun _ d => { d with beta := 7 }) 12 12 realScene realScene h h).2.1,
    (pose_determined_by_time 2 restingDragons swayedDragons (fun _ d => d)
      (fun _ d => { d with beta := 7 }) 12 12 realScene realScene h h).2.2.1⟩

/-! ## Shader loading -/

end DragonDemo
